import Mathlib

/-!
Momentum scanner (`src/lib/updatedCodev3.js`)

Shallow embedding of the indicator engine (`calculateEMA`, `calculateVWAP`), the
alert decision (`checkCandleStrengthAndAlert`), the root-symbol extraction
(`getRootSymbol`), the notification dispatcher (`sendTelegramMessage` and its
three entry points), the contract search (`findFuturesToken`, `findOptionToken`),
the universe refresh (`fetchAndProcessSymbols`, `pollTopGainersAndLosers`), the
data cycle (`pollDataAndCheckStrategy`), the control flow of startup
(`executeSmartAPIActions`), the single-signal check of
`src/lib/automationCode.js` (`checkCandleStatusAndAlert`), and the indicator and
alert functions as they stand in `src/lib/updatedCodev1.js` and
`src/lib/updatedCodev2.js`.

Conventions.
* JS doubles are idealised as exact rationals (`ℚ`). A comparison whose two
  sides are equal as rationals can fall the other way in floating point: for
  open 100 and ltp 100.05 the percent move is `1/20` here and
  0.04999999999999716 in the code, below a threshold of 0.05.
* `parseFloat` of a numeric bar field is the field itself; the `open` field of a
  bar is optional, `none` standing for a field whose `parseFloat` is `NaN`
  (missing or not numeric), the case the code tests with `isNaN(parsedOpen)`.
* `parseInt(candle.volume, 10)` is an integer (`ℤ`).
* The module-level settings `EMA_VWAP_PERIOD` and
  `CANDLE_THICKNESS_PERCENT_THRESHOLD` are explicit parameters.
* The effect of `checkCandleStrengthAndAlert` (console output and the call of
  `sendTelegramAlert`) is returned as a value: the alert that is raised, if any.
* Collaborators (`fetch`, `smart_api`) are functions giving the outcome of each
  call; a call that throws is an `Except.error`. Asynchronous code is embedded
  in program order, with the effects it performs listed alongside its result.
* A JS `Map` is the list of its entries in insertion order.
-/

namespace SmartApi

/-! ## Data model -/

/-- Result of an indicator function: JS `null`, `NaN`, or a number. -/
inductive JSVal where
  | null
  | nan
  | num (q : ℚ)
  deriving DecidableEq, Repr

/-- JS truthiness of an indicator value: `null`, `NaN` and `0` are falsy. -/
def JSVal.truthy : JSVal → Bool
  | .null => false
  | .nan => false
  | .num q => decide (q ≠ 0)

/-- One historical bar `{ open, high, low, close, volume }` after parsing
(`time` is never read by the functions below). -/
structure Candle where
  open_ : Option ℚ
  high : ℚ
  low : ℚ
  close : ℚ
  volume : ℤ
  deriving DecidableEq, Repr

/-- The two values `alertType` can take once set. -/
inductive AlertType where
  | BULLISH
  | BEARISH
  deriving DecidableEq, Repr

/-- One entry pushed on `reasons`, kept as the numbers the message text is
formatted from. -/
inductive Reason where
  | thickCandle (percentDiff : ℚ)
  | ltpVsEMA (parsedLtp emaValue : ℚ)
  | ltpVsVWAP (parsedLtp vwapValue : ℚ)
  deriving DecidableEq, Repr

/-- What step 3 ("Trigger Alert") reports: the alert type and its reasons. -/
structure Alert where
  alertType : AlertType
  reasons : List Reason
  deriving DecidableEq, Repr

/-- Exceptions the embedded code can raise. -/
inductive JSError where
  | typeError
  deriving DecidableEq, Repr

/-! ## Indicator engine -/

/-- Body of the `for` loop of `calculateEMA`:
`currentEMA = (close - currentEMA) * multiplier + currentEMA`. -/
def emaStep (multiplier : ℚ) (currentEMA : ℚ) (candle : Candle) : ℚ :=
  (candle.close - currentEMA) * multiplier + currentEMA

/-- Embedding of `calculateEMA(data, period)`.

`data.slice(-period)` is the last `period` bars when `1 ≤ period ≤ data.length`.
The loop `for (let i = 1; i < relevantData.length; i++)` visits
`relevantData.drop 1`. For `period = 0` the seed is `0 / 0`, which is `NaN`
and stays `NaN` through the loop. -/
def calculateEMA (data : List Candle) (period : ℕ) : JSVal :=
  if data.length < period then JSVal.null
  else if period = 0 then JSVal.nan
  else
    let relevantData := data.drop (data.length - period)
    let multiplier : ℚ := 2 / ((period : ℚ) + 1)
    let seed : ℚ :=
      (relevantData.take period).foldl (fun sum candle => sum + candle.close) 0 / (period : ℚ)
    JSVal.num ((relevantData.drop 1).foldl (emaStep multiplier) seed)

/-- Body of the `forEach` callback of `calculateVWAP`, on the pair
`(sumTPV, sumVolume)`. -/
def vwapStep (acc : ℚ × ℤ) (candle : Candle) : ℚ × ℤ :=
  if candle.volume > 0 then
    let typicalPrice := (candle.high + candle.low + candle.close) / 3
    (acc.1 + typicalPrice * (candle.volume : ℚ), acc.2 + candle.volume)
  else acc

/-- Embedding of `calculateVWAP(data)`. -/
def calculateVWAP (data : List Candle) : JSVal :=
  let sums := data.foldl vwapStep (0, 0)
  if sums.2 = 0 then JSVal.null else JSVal.num (sums.1 / (sums.2 : ℚ))

/-! ## Alert decision -/

/-- Steps 2 and 3 of `checkCandleStrengthAndAlert`, once both indicators are
known to be numbers: the thick-candle test and the two confirmation branches. -/
def alertDecision (parsedOpen parsedLtp emaValue vwapValue threshold : ℚ) : Option Alert :=
  let diff := parsedLtp - parsedOpen
  let percentDiff := diff / parsedOpen * 100
  let isThickCandle : Bool := decide (|percentDiff| ≥ threshold)
  if isThickCandle && decide (diff > 0) then
    let priceAboveEMA : Bool := decide (parsedLtp > emaValue)
    let priceAboveVWAP : Bool := decide (parsedLtp > vwapValue)
    if priceAboveEMA && priceAboveVWAP then
      some ⟨AlertType.BULLISH,
        [Reason.thickCandle percentDiff, Reason.ltpVsEMA parsedLtp emaValue,
         Reason.ltpVsVWAP parsedLtp vwapValue]⟩
    else none
  else if isThickCandle && decide (diff < 0) then
    let priceBelowEMA : Bool := decide (parsedLtp < emaValue)
    let priceBelowVWAP : Bool := decide (parsedLtp < vwapValue)
    if priceBelowEMA && priceBelowVWAP then
      some ⟨AlertType.BEARISH,
        [Reason.thickCandle percentDiff, Reason.ltpVsEMA parsedLtp emaValue,
         Reason.ltpVsVWAP parsedLtp vwapValue]⟩
    else none
  else none

/-- Embedding of `checkCandleStrengthAndAlert(symbolData, candleData, ltp)`.

`Except.error` is the `TypeError` raised by `lastCandle.open` on an empty
`candleData`; `Except.ok none` is a return without alert; `Except.ok (some a)`
is the alert raised in step 3. -/
def checkCandleStrengthAndAlert (EMA_VWAP_PERIOD : ℕ) (CANDLE_THICKNESS_PERCENT_THRESHOLD : ℚ)
    (candleData : List Candle) (ltp : ℚ) : Except JSError (Option Alert) :=
  match candleData.getLast? with
  | none => Except.error JSError.typeError
  | some lastCandle =>
    let parsedLtp := ltp
    match lastCandle.open_ with
    | none => Except.ok none
    | some parsedOpen =>
      if parsedOpen ≤ 0 then Except.ok none
      else
        let emaValue := calculateEMA candleData EMA_VWAP_PERIOD
        let vwapValue := calculateVWAP candleData
        if !emaValue.truthy || !vwapValue.truthy then Except.ok none
        else
          match emaValue, vwapValue with
          | JSVal.num e, JSVal.num v =>
            Except.ok (alertDecision parsedOpen parsedLtp e v CANDLE_THICKNESS_PERCENT_THRESHOLD)
          | _, _ => Except.ok none

/-! ## The indicators as the specification words them -/

/-- The typical price `(high + low + close) / 3` of a bar. -/
def typicalPrice (candle : Candle) : ℚ :=
  (candle.high + candle.low + candle.close) / 3

/-- EMA as specified (for `period ≥ 1`): null below `period` bars; otherwise seed with the
arithmetic mean of `close` over the first `period` bars of the trailing window
(the last `period` bars), then apply
`ema_i = (close_i - ema_{i-1}) * (2 / (period + 1)) + ema_{i-1}` left to right
over the bars of the trailing window that come after the seed bars. -/
def calculateEMA_spec (bars : List Candle) (period : ℕ) : JSVal :=
  if bars.length < period then JSVal.null
  else
    let window := bars.drop (bars.length - period)
    let seed : ℚ := ((window.take period).map (fun c => c.close)).sum / (period : ℚ)
    JSVal.num ((window.drop period).foldl
      (fun ema c => (c.close - ema) * (2 / ((period : ℚ) + 1)) + ema) seed)

/-- VWAP as specified: over exactly the bars with volume > 0,
`Σ (typicalPrice * volume) / Σ volume`; null when the counted volume is zero. -/
def calculateVWAP_spec (bars : List Candle) : JSVal :=
  let counted := bars.filter (fun c => decide (c.volume > 0))
  let totalVolume : ℤ := (counted.map (fun c => c.volume)).sum
  if totalVolume = 0 then JSVal.null
  else JSVal.num ((counted.map (fun c => typicalPrice c * (c.volume : ℚ))).sum / (totalVolume : ℚ))

/-! ## Concrete inputs used in the evaluations below -/

/-- Single bar with open 100, EMA (period 1) 99.9 and VWAP 99.95. -/
def barBearish : Candle := ⟨some 100, 2001 / 20, 999 / 10, 999 / 10, 1⟩

/-- Single bar with open 100, EMA (period 1) 99.9 and VWAP 99.7. -/
def barDisagree : Candle := ⟨some 100, 100, 496 / 5, 999 / 10, 1⟩

/-- Single bar with open 100, EMA (period 1) 100 and VWAP 99.9. -/
def barBullish : Candle := ⟨some 100, 501 / 5, 199 / 2, 100, 1⟩

/-- Single bar with open 1, close 0 (so the period-1 EMA is 0) and VWAP 1. -/
def barZeroEMA : Candle := ⟨some 1, 3, 0, 0, 1⟩

/-- Bar with all prices 100 and volume 1000. -/
def barFlat : Candle := ⟨some 100, 100, 100, 100, 1000⟩

/-- Bar that opens at 100 and closes at its high 103, volume 10. -/
def barUp : Candle := ⟨some 100, 103, 100, 103, 10⟩

/-- Bar with prices but volume 0. -/
def barNoVolume : Candle := ⟨some 100, 101, 99, 100, 0⟩

/-- Bar with all prices 100, except a high of 103, and volume 10. -/
def barSpike : Candle := ⟨some 100, 103, 100, 100, 10⟩

/-- Bar whose `open` field is missing. -/
def barNoOpen : Candle := ⟨none, 101, 99, 100, 10⟩

/-- Bar whose `open` field is 0. -/
def barZeroOpen : Candle := ⟨some 0, 101, 99, 100, 10⟩

/-! ## Symbol universe resolver: root symbol -/

/-- Embedding of `getRootSymbol(foSymbol)`, i.e. `foSymbol.split(/[0-9]/)[0]`.

`split` with the one-character class `[0-9]` cuts the string at every ASCII
digit (`List.splitOnP Char.isDigit` on the characters) and `[0]` takes the first
piece; the array is never empty, so the default of `headD` is never used. -/
def getRootSymbol (foSymbol : String) : String :=
  String.mk ((foSymbol.data.splitOnP Char.isDigit).headD [])

/-! ## Notification dispatcher

The messaging collaborator is a function giving the outcome of the `fetch` of
each loop iteration `i`; `await` and `setTimeout` are recorded as effects, in
program order. -/

/-- Outcome of the `fetch` call of one delivery attempt: `response.ok`; a
response with `response.ok` false (its status is kept); or a rejection (transport
error; a body that cannot be read by `response.text()` takes the same path). -/
inductive FetchOutcome where
  | ok
  | notOk (status : ℕ)
  | transportError
  deriving DecidableEq, Repr

/-- Errors `sendTelegramMessage` throws: the `new Error("API returned ...")` of
the last attempt, or the rejection of the last `fetch` thrown again. -/
inductive SendError where
  | apiReturned (status : ℕ)
  | transport
  deriving DecidableEq, Repr

/-- Values `sendTelegramMessage` returns: `undefined` (bare `return`), `true`
or `false`. -/
inductive SendValue where
  | undefined
  | bool (b : Bool)
  deriving DecidableEq, Repr

/-- Observable effects: a delivery attempt (`fetch`, with the loop index), a
wait of `setTimeout(resolve, delay)`, a `console.log`, a `console.error`. -/
inductive Effect where
  | fetchCall (i : ℕ)
  | wait (ms : ℕ)
  | consoleLog
  | consoleError
  deriving DecidableEq, Repr

/-- JS falsiness of a configured string: `null` or the empty string. -/
def falsyString : Option String → Bool
  | none => true
  | some s => decide (s = "")

/-- The loop `for (let i = 0; i < maxRetries; i++) { try ... catch ... }` of
`sendTelegramMessage`, entered with `remaining = maxRetries - i` iterations left,
followed by the trailing `return false`.

A response that is not ok throws only on the last attempt; on an earlier attempt
control leaves the `try` normally, so the next iteration starts with no wait and
with `delay` unchanged. A rejection enters the `catch`, which throws again on the
last attempt and otherwise waits `delay` and doubles it. -/
def retryLoop (maxRetries : ℕ) (fetch : ℕ → FetchOutcome) :
    ℕ → ℕ → ℕ → Except SendError SendValue × List Effect
  | 0, _, _ => (Except.ok (SendValue.bool false), [])
  | remaining + 1, i, delay =>
    match fetch i with
    | FetchOutcome.ok => (Except.ok (SendValue.bool true), [Effect.fetchCall i])
    | FetchOutcome.notOk status =>
      if i = maxRetries - 1 then
        (Except.error (SendError.apiReturned status), [Effect.fetchCall i])
      else
        let rest := retryLoop maxRetries fetch remaining (i + 1) delay
        (rest.1, Effect.fetchCall i :: rest.2)
    | FetchOutcome.transportError =>
      if i = maxRetries - 1 then
        (Except.error SendError.transport, [Effect.fetchCall i])
      else
        let rest := retryLoop maxRetries fetch remaining (i + 1) (delay * 2)
        (rest.1, Effect.fetchCall i :: Effect.wait delay :: rest.2)

/-- Embedding of `sendTelegramMessage(message)`: the configuration guard, then
the retry loop with `maxRetries = 3` and `delay = 1000`. -/
def sendTelegramMessage (TELEGRAM_BOT_TOKEN TELEGRAM_CHAT_ID : Option String)
    (fetch : ℕ → FetchOutcome) : Except SendError SendValue × List Effect :=
  if falsyString TELEGRAM_BOT_TOKEN || falsyString TELEGRAM_CHAT_ID then
    (Except.ok SendValue.undefined, [Effect.consoleError])
  else retryLoop 3 fetch 3 0 1000

/-- The waits among a list of effects, in order. -/
def waitsOf : List Effect → List ℕ
  | [] => []
  | Effect.wait ms :: rest => ms :: waitsOf rest
  | _ :: rest => waitsOf rest

/-- The delivery attempts (loop indices) among a list of effects, in order. -/
def fetchCallsOf : List Effect → List ℕ
  | [] => []
  | Effect.fetchCall i :: rest => i :: fetchCallsOf rest
  | _ :: rest => fetchCallsOf rest

/-- Embedding of `sendTelegramAlert`: the preview is printed, then
`sendTelegramMessage(message).then(...).catch(...)`; the `catch` handler logs the
error, so nothing is thrown. The promise chain is not awaited by the caller; its
effects are listed in the order they occur. -/
def sendTelegramAlert (TELEGRAM_BOT_TOKEN TELEGRAM_CHAT_ID : Option String)
    (fetch : ℕ → FetchOutcome) : Except SendError Unit × List Effect :=
  let sent := sendTelegramMessage TELEGRAM_BOT_TOKEN TELEGRAM_CHAT_ID fetch
  match sent.1 with
  | Except.ok (SendValue.bool true) =>
    (Except.ok (), Effect.consoleLog :: (sent.2 ++ [Effect.consoleLog]))
  | Except.ok _ => (Except.ok (), Effect.consoleLog :: sent.2)
  | Except.error _ => (Except.ok (), Effect.consoleLog :: (sent.2 ++ [Effect.consoleError]))

/-- Embedding of `sendCustomTelegramMessage`:
`try { await sendTelegramMessage(message); console.log(...) } catch { console.error(...) }`. -/
def sendCustomTelegramMessage (TELEGRAM_BOT_TOKEN TELEGRAM_CHAT_ID : Option String)
    (fetch : ℕ → FetchOutcome) : Except SendError Unit × List Effect :=
  let sent := sendTelegramMessage TELEGRAM_BOT_TOKEN TELEGRAM_CHAT_ID fetch
  match sent.1 with
  | Except.ok _ => (Except.ok (), Effect.consoleLog :: (sent.2 ++ [Effect.consoleLog]))
  | Except.error _ => (Except.ok (), Effect.consoleLog :: (sent.2 ++ [Effect.consoleError]))

/-- Embedding of `sendWelcomeMessage`: `console.log(...)` and
`await sendTelegramMessage(message)` with no `try`, so a rejection is the
rejection of `sendWelcomeMessage` itself. -/
def sendWelcomeMessage (TELEGRAM_BOT_TOKEN TELEGRAM_CHAT_ID : Option String)
    (fetch : ℕ → FetchOutcome) : Except SendError Unit × List Effect :=
  let sent := sendTelegramMessage TELEGRAM_BOT_TOKEN TELEGRAM_CHAT_ID fetch
  match sent.1 with
  | Except.ok _ => (Except.ok (), Effect.consoleLog :: sent.2)
  | Except.error e => (Except.error e, Effect.consoleLog :: sent.2)

/-- The welcome step of `executeSmartAPIActions`:
`if (TELEGRAM_BOT_TOKEN && TELEGRAM_CHAT_ID) { await sendWelcomeMessage(); }`,
which stands before the `try` of the login and so is not covered by it. -/
def startupWelcomeStep (TELEGRAM_BOT_TOKEN TELEGRAM_CHAT_ID : Option String)
    (fetch : ℕ → FetchOutcome) : Except SendError Unit × List Effect :=
  if !falsyString TELEGRAM_BOT_TOKEN && !falsyString TELEGRAM_CHAT_ID then
    sendWelcomeMessage TELEGRAM_BOT_TOKEN TELEGRAM_CHAT_ID fetch
  else (Except.ok (), [])

/-- Collaborator that answers the successive delivery attempts with the listed
outcomes (and succeeds afterwards). -/
def fetchScript (outcomes : List FetchOutcome) (i : ℕ) : FetchOutcome :=
  outcomes.getD i FetchOutcome.ok

/-! ## Symbol universe resolver: contract search and the contract cache -/

/-- One element of `response.data` of `searchScrip`. `expiry` is the instant
`moment(scrip.expiry)` denotes, so `moment(a.expiry).diff(moment(b.expiry))` is
`a.expiry - b.expiry`. -/
structure Scrip where
  symboltoken : String
  tradingsymbol : String
  instrumenttype : String
  optiontype : String
  expiry : ℤ
  deriving DecidableEq, Repr

/-- The body of a `searchScrip` response; `data` may be absent. -/
structure SearchResponse where
  data : Option (List Scrip)
  deriving DecidableEq, Repr

/-- The object returned by `findFuturesToken` and `findOptionToken`. -/
structure ResolvedScrip where
  token : String
  tradingSymbol : String
  exchange : String
  rootSymbol : String
  type : String
  deriving DecidableEq, Repr

/-- A value of the contract cache: `{ ...scrip, category: categoryName }`. -/
structure CacheEntry where
  token : String
  tradingSymbol : String
  exchange : String
  rootSymbol : String
  type : String
  category : String
  deriving DecidableEq, Repr

/-- Order used by the comparator `(a, b) => moment(a.expiry).diff(moment(b.expiry))`. -/
def expiryLE (a b : Scrip) : Prop := a.expiry ≤ b.expiry

instance expiryLE_decidable : DecidableRel expiryLE :=
  fun a b => inferInstanceAs (Decidable (a.expiry ≤ b.expiry))

/-- The filter of `findFuturesToken`:
`scrip.instrumenttype === 'FUTIDX' || scrip.instrumenttype === 'FUTSTK'`. -/
def isFuture (scrip : Scrip) : Bool :=
  decide (scrip.instrumenttype = "FUTIDX") || decide (scrip.instrumenttype = "FUTSTK")

/-- The first filter of `findOptionToken`:
`scrip.instrumenttype === 'OPTIDX' || scrip.instrumenttype === 'OPTSTK'`. -/
def isOption (scrip : Scrip) : Bool :=
  decide (scrip.instrumenttype = "OPTIDX") || decide (scrip.instrumenttype = "OPTSTK")

/-- The second filter of `findOptionToken`: `scrip.optiontype === 'CE'`. -/
def isCall (scrip : Scrip) : Bool :=
  decide (scrip.optiontype = "CE")

/-- Embedding of `findFuturesToken(rootSymbol)`, given what `searchScrip`
answers (`Except.error` when the call throws, which the `catch` turns into
`null`). `Array.prototype.sort` is a stable sort, here insertion sort;
`.find(() => true)` is the first element, if any. -/
def findFuturesToken (rootSymbol : String) (response : Except String SearchResponse) :
    Option ResolvedScrip :=
  match response with
  | Except.error _ => none
  | Except.ok r =>
    match r.data with
    | none => none
    | some data =>
      if data.length > 0 then
        match ((data.filter isFuture).insertionSort expiryLE).head? with
        | some nearestFUT =>
          some ⟨nearestFUT.symboltoken, nearestFUT.tradingsymbol, "NFO", rootSymbol, "FUT"⟩
        | none => none
      else none

/-- Embedding of `findOptionToken(rootSymbol)`, given what `searchScrip`
answers. -/
def findOptionToken (rootSymbol : String) (response : Except String SearchResponse) :
    Option ResolvedScrip :=
  match response with
  | Except.error _ => none
  | Except.ok r =>
    match r.data with
    | none => none
    | some data =>
      if data.length > 0 then
        match (((data.filter isOption).filter isCall).insertionSort expiryLE).head? with
        | some nearestCE =>
          some ⟨nearestCE.symboltoken, nearestCE.tradingsymbol, "NFO", rootSymbol, "OPT"⟩
        | none => none
      else none

/-- A JS `Map` with string keys: its entries in insertion order. -/
structure JSMap (α : Type) where
  entries : List (String × α)
  deriving Repr

/-- `new Map()`. -/
def JSMap.empty {α : Type} : JSMap α := ⟨[]⟩

/-- `Map.prototype.set` on the entry list: the value of an existing key is
replaced in place, a new key is appended. -/
def setEntry {α : Type} (k : String) (v : α) : List (String × α) → List (String × α)
  | [] => [(k, v)]
  | (k', v') :: rest => if k' = k then (k, v) :: rest else (k', v') :: setEntry k v rest

/-- `Map.prototype.get` on the entry list. -/
def getEntry {α : Type} (k : String) : List (String × α) → Option α
  | [] => none
  | (k', v') :: rest => if k' = k then some v' else getEntry k rest

/-- `map.set(k, v)`. -/
def JSMap.set {α : Type} (m : JSMap α) (k : String) (v : α) : JSMap α :=
  ⟨setEntry k v m.entries⟩

/-- `map.get(k)` (`none` for `undefined`). -/
def JSMap.get? {α : Type} (m : JSMap α) (k : String) : Option α :=
  getEntry k m.entries

/-- `map.size`. -/
def JSMap.size {α : Type} (m : JSMap α) : ℕ := m.entries.length

/-- The keys of the map, in insertion order. -/
def JSMap.keys {α : Type} (m : JSMap α) : List String := m.entries.map Prod.fst

/-- `source.forEach((v, k) => target.set(k, v))`. -/
def JSMap.setAll {α : Type} (target source : JSMap α) : JSMap α :=
  source.entries.foldl (fun acc kv => acc.set kv.1 kv.2) target

/-- One element of `response.data` of `gainersLosers`; only `tradingSymbol` is
read. -/
structure Mover where
  tradingSymbol : String
  deriving DecidableEq, Repr

/-- The body of a `gainersLosers` response. -/
structure MoversResponse where
  status : Bool
  data : Option (List Mover)
  deriving DecidableEq, Repr

/-- The data collaborator `smart_api`, as far as the resolver uses it.
`gainersLosers` is given the `datatype` of the query. `searchScrip` is given the
`datatype` of the list being resolved and the position of the mover in
`topSymbols`, which identify the call, and the `searchScrip` text. `Except.error`
is a call that throws. -/
structure SmartAPI where
  gainersLosers : String → Except String MoversResponse
  searchScrip : String → ℕ → String → Except String SearchResponse

/-- The lookup made for one mover in the loop of `fetchAndProcessSymbols`:
`findOptionToken` when `SCAN_TYPE === 'OPT'`, `findFuturesToken` when
`SCAN_TYPE === 'FUT'`, and `null` otherwise. -/
def resolveMover (SCAN_TYPE : String) (api : SmartAPI) (dataType : String) (i : ℕ)
    (symbol : Mover) : Option ResolvedScrip :=
  let rootSymbol := getRootSymbol symbol.tradingSymbol
  if SCAN_TYPE = "OPT" then findOptionToken rootSymbol (api.searchScrip dataType i rootSymbol)
  else if SCAN_TYPE = "FUT" then findFuturesToken rootSymbol (api.searchScrip dataType i rootSymbol)
  else none

/-- The loop `for (const symbol of topSymbols)` of `fetchAndProcessSymbols`, from
position `i` on. -/
def processSymbols (SCAN_TYPE : String) (api : SmartAPI) (dataType categoryName : String) :
    ℕ → List Mover → JSMap CacheEntry → JSMap CacheEntry
  | _, [], tempCache => tempCache
  | i, symbol :: rest, tempCache =>
    match resolveMover SCAN_TYPE api dataType i symbol with
    | some scrip =>
      processSymbols SCAN_TYPE api dataType categoryName (i + 1) rest
        (tempCache.set scrip.token
          ⟨scrip.token, scrip.tradingSymbol, scrip.exchange, scrip.rootSymbol, scrip.type,
            categoryName⟩)
    | none => processSymbols SCAN_TYPE api dataType categoryName (i + 1) rest tempCache

/-- Embedding of `fetchAndProcessSymbols(dataType)`. A `gainersLosers` call that
throws is caught and leaves the empty `tempCache`. `slice(0, MAX_SYMBOLS)` is
`take` (`MAX_SYMBOLS` is a count). -/
def fetchAndProcessSymbols (MAX_SYMBOLS : ℕ) (SCAN_TYPE : String) (api : SmartAPI)
    (dataType : String) : JSMap CacheEntry :=
  let categoryName := if dataType = "PercPriceGainers" then "Gainers" else "Losers"
  match api.gainersLosers dataType with
  | Except.error _ => JSMap.empty
  | Except.ok response =>
    match response.data with
    | none => JSMap.empty
    | some data =>
      if !response.status || data.length = 0 then JSMap.empty
      else processSymbols SCAN_TYPE api dataType categoryName 0 (data.take MAX_SYMBOLS) JSMap.empty

/-- Embedding of `pollTopGainersAndLosers()`: the value of the global
`tokenCache` after the call, given its value before. `smart_api` is `none` while
the global is still `null`. -/
def pollTopGainersAndLosers (MAX_SYMBOLS : ℕ) (SCAN_TYPE : String) (smart_api : Option SmartAPI)
    (tokenCache : JSMap CacheEntry) : JSMap CacheEntry :=
  match smart_api with
  | none => tokenCache
  | some api =>
    let newCache : JSMap CacheEntry := JSMap.empty
    let gainerTokens := fetchAndProcessSymbols MAX_SYMBOLS SCAN_TYPE api "PercPriceGainers"
    let newCache := newCache.setAll gainerTokens
    let loserTokens := fetchAndProcessSymbols MAX_SYMBOLS SCAN_TYPE api "PercPriceLosers"
    let newCache := newCache.setAll loserTokens
    newCache

/-! ## Single-signal mode (`src/lib/automationCode.js`) -/

/-- The three messages of `checkCandleStatusAndAlert`. -/
inductive CandleStatus where
  | BULLISH
  | BEARISH
  | INDECISION
  deriving DecidableEq, Repr

/-- Embedding of `checkCandleStatusAndAlert(symbol, exchange, open, ltp)` of
`automationCode.js`: which of the three messages is printed, if any. `none` for
an argument is a value whose `parseFloat` is `NaN`; comparisons with `NaN` are
false, so a `NaN` ltp reaches the final `else`. -/
def checkCandleStatusAndAlert (open_ ltp : Option ℚ) : Option CandleStatus :=
  match open_ with
  | none => none
  | some parsedOpen =>
    if parsedOpen ≤ 0 then none
    else
      match ltp with
      | none => some CandleStatus.INDECISION
      | some parsedLtp =>
        if parsedLtp > parsedOpen then some CandleStatus.BULLISH
        else if parsedLtp < parsedOpen then some CandleStatus.BEARISH
        else some CandleStatus.INDECISION

/-- Futures contract of TATASTEEL expiring on 2025-12-30 (expiry as `yyyymmdd`). -/
def scripFutDec : Scrip := ⟨"2002", "TATASTEEL30DEC25FUT", "FUTSTK", "", 20251230⟩

/-- Futures contract of TATASTEEL expiring on 2025-11-25. -/
def scripFutNov : Scrip := ⟨"1001", "TATASTEEL25NOV25FUT", "FUTSTK", "", 20251125⟩

/-- Call option of TATASTEEL, strike 170, expiring on 2025-11-25. -/
def scripCall170 : Scrip := ⟨"3002", "TATASTEEL25NOV25170CE", "OPTSTK", "CE", 20251125⟩

/-- Call option of TATASTEEL, strike 160, expiring on 2025-11-25. -/
def scripCall160 : Scrip := ⟨"3001", "TATASTEEL25NOV25160CE", "OPTSTK", "CE", 20251125⟩

/-- Call option of TATASTEEL, strike 160, expiring on 2025-12-30. -/
def scripCallDec : Scrip := ⟨"3101", "TATASTEEL30DEC25160CE", "OPTSTK", "CE", 20251230⟩

/-- Put option of TATASTEEL, strike 160, expiring on 2025-11-25. -/
def scripPut160 : Scrip := ⟨"3003", "TATASTEEL25NOV25160PE", "OPTSTK", "PE", 20251125⟩

/-- Futures contract of INFY expiring on 2025-11-25. -/
def scripInfyFut : Scrip := ⟨"4001", "INFY25NOV25FUT", "FUTSTK", "", 20251125⟩

/-- Futures contract of WIPRO expiring on 2025-11-25. -/
def scripWiproFut : Scrip := ⟨"5001", "WIPRO25NOV25FUT", "FUTSTK", "", 20251125⟩

/-- Contract search used in the evaluations: futures for TATASTEEL, INFY and
WIPRO, a call that throws for SBIN, and no match otherwise. -/
def demoSearchScrip (_dataType : String) (_i : ℕ) (searchScrip : String) :
    Except String SearchResponse :=
  if searchScrip = "TATASTEEL" then Except.ok ⟨some [scripFutDec, scripFutNov]⟩
  else if searchScrip = "INFY" then Except.ok ⟨some [scripInfyFut]⟩
  else if searchScrip = "WIPRO" then Except.ok ⟨some [scripWiproFut]⟩
  else if searchScrip = "SBIN" then Except.error "timeout"
  else Except.ok ⟨some []⟩

/-- Collaborator whose gainers are TATASTEEL and INFY and whose losers are WIPRO
and, again, TATASTEEL. -/
def demoAPI : SmartAPI :=
  ⟨fun dataType =>
      if dataType = "PercPriceGainers" then
        Except.ok ⟨true, some [⟨"TATASTEEL25NOV25FUT"⟩, ⟨"INFY25NOV25FUT"⟩]⟩
      else Except.ok ⟨true, some [⟨"WIPRO25NOV25FUT"⟩, ⟨"TATASTEEL25NOV25FUT"⟩]⟩,
    demoSearchScrip⟩

/-- Collaborator whose movers are two TATASTEEL contracts and SBIN, for which
the search throws. -/
def sameRootAPI : SmartAPI :=
  ⟨fun _ => Except.ok ⟨true,
      some [⟨"TATASTEEL25NOV25FUT"⟩, ⟨"TATASTEEL30DEC25FUT"⟩, ⟨"SBIN25NOV25FUT"⟩]⟩,
    demoSearchScrip⟩

/-- Collaborator whose movers are TATASTEEL, SBIN (the search throws) and INFY. -/
def oneMissAPI : SmartAPI :=
  ⟨fun _ => Except.ok ⟨true,
      some [⟨"TATASTEEL25NOV25FUT"⟩, ⟨"SBIN25NOV25FUT"⟩, ⟨"INFY25NOV25FUT"⟩]⟩,
    demoSearchScrip⟩

/-! ## Alert decision: the locals of step 2 and the dispatch of step 3 -/

/-- The locals `alertType` and `reasons` of `checkCandleStrengthAndAlert` when
step 3 is reached: `let alertType = null; let reasons = [];` followed by the two
branches that set `alertType` and push the three reasons. -/
def alertLocals (parsedOpen parsedLtp emaValue vwapValue threshold : ℚ) :
    Option AlertType × List Reason :=
  let diff := parsedLtp - parsedOpen
  let percentDiff := diff / parsedOpen * 100
  let isThickCandle : Bool := decide (|percentDiff| ≥ threshold)
  if isThickCandle && decide (diff > 0) then
    if decide (parsedLtp > emaValue) && decide (parsedLtp > vwapValue) then
      (some AlertType.BULLISH,
        (([] ++ [Reason.thickCandle percentDiff]) ++ [Reason.ltpVsEMA parsedLtp emaValue])
          ++ [Reason.ltpVsVWAP parsedLtp vwapValue])
    else (none, [])
  else if isThickCandle && decide (diff < 0) then
    if decide (parsedLtp < emaValue) && decide (parsedLtp < vwapValue) then
      (some AlertType.BEARISH,
        (([] ++ [Reason.thickCandle percentDiff]) ++ [Reason.ltpVsEMA parsedLtp emaValue])
          ++ [Reason.ltpVsVWAP parsedLtp vwapValue])
    else (none, [])
  else (none, [])

/-- Step 3 ("Trigger Alert") of `checkCandleStrengthAndAlert`: with an alert, two
`console.log` and, when the bot token and the chat id are set, the call of
`sendTelegramAlert`; without alert, nothing. -/
def triggerAlert (TELEGRAM_BOT_TOKEN TELEGRAM_CHAT_ID : Option String)
    (fetch : ℕ → FetchOutcome) (alert : Option Alert) : List Effect :=
  match alert with
  | none => []
  | some _ =>
    Effect.consoleLog :: Effect.consoleLog ::
      (if !falsyString TELEGRAM_BOT_TOKEN && !falsyString TELEGRAM_CHAT_ID then
        (sendTelegramAlert TELEGRAM_BOT_TOKEN TELEGRAM_CHAT_ID fetch).2
      else [])

/-- The effects of a call of `checkCandleStrengthAndAlert`: those of step 3 when
it is reached, none when the function returns earlier or throws. -/
def checkCandleStrengthAndAlertEffects (TELEGRAM_BOT_TOKEN TELEGRAM_CHAT_ID : Option String)
    (fetch : ℕ → FetchOutcome) (EMA_VWAP_PERIOD : ℕ) (CANDLE_THICKNESS_PERCENT_THRESHOLD : ℚ)
    (candleData : List Candle) (ltp : ℚ) : List Effect :=
  match checkCandleStrengthAndAlert EMA_VWAP_PERIOD CANDLE_THICKNESS_PERCENT_THRESHOLD
      candleData ltp with
  | Except.ok alert => triggerAlert TELEGRAM_BOT_TOKEN TELEGRAM_CHAT_ID fetch alert
  | Except.error _ => []

/-! ## Startup configuration (`executeSmartAPIActions`) -/

/-- The constant `ALLOWED_INTERVALS`. -/
def ALLOWED_INTERVALS : List String :=
  ["ONE_MINUTE", "THREE_MINUTE", "FIVE_MINUTE", "TEN_MINUTE",
   "FIFTEEN_MINUTE", "THIRTY_MINUTE", "ONE_HOUR", "ONE_DAY"]

/-- The interval step of `executeSmartAPIActions`, from the value of
`intervalInput.toUpperCase().trim()`: the value of `CANDLE_INTERVAL` afterwards,
and the `console.error` printed for a value that is not allowed. -/
def chooseCandleInterval (normalizedInput : String) : String × List Effect :=
  if ALLOWED_INTERVALS.contains normalizedInput then (normalizedInput, [])
  else ("ONE_MINUTE", [Effect.consoleError])

/-- How `executeSmartAPIActions` ends: `process.exit(code)`; an error thrown out
of it; a return after a failed session; or the polling loop entered with the
given `SCAN_TYPE` and `CANDLE_INTERVAL`. -/
inductive StartupOutcome where
  | exited (code : ℕ)
  | threw (e : SendError)
  | sessionFailed
  | polling (SCAN_TYPE CANDLE_INTERVAL : String)
  deriving DecidableEq, Repr

/-- Embedding of the control flow of `executeSmartAPIActions`, from the values
of `userChoice.toUpperCase().trim()` and `intervalInput.toUpperCase().trim()`:
the scan-type check (`process.exit(1)`), the interval step, the welcome step, the
login (`sessionOk` false for a failed or throwing `generateSession`), and the
entry into `mainPollingLoop`. The numeric settings do not affect the control
flow. -/
def executeSmartAPIActions (TELEGRAM_BOT_TOKEN TELEGRAM_CHAT_ID : Option String)
    (fetch : ℕ → FetchOutcome) (scanTypeInput intervalInput : String) (sessionOk : Bool) :
    StartupOutcome :=
  if scanTypeInput ≠ "OPT" ∧ scanTypeInput ≠ "FUT" then StartupOutcome.exited 1
  else
    let CANDLE_INTERVAL := (chooseCandleInterval intervalInput).1
    match (startupWelcomeStep TELEGRAM_BOT_TOKEN TELEGRAM_CHAT_ID fetch).1 with
    | Except.error e => StartupOutcome.threw e
    | Except.ok _ =>
      if sessionOk then StartupOutcome.polling scanTypeInput CANDLE_INTERVAL
      else StartupOutcome.sessionFailed

/-! ## Market data poller (`pollDataAndCheckStrategy`)

The data cycle of `updatedCodev3.js` (lines 439-521); the one of
`updatedCodev2.js` (lines 314-388) has the same control flow and differs in the
interval and look-back of the bar request and in log lines, which are not
modelled. -/

/-- One element of `response.data.fetched` of `marketData`. -/
structure LiveQuote where
  symbolToken : String
  ltp : ℚ
  deriving DecidableEq, Repr

/-- The body of a `marketData` response. -/
structure MarketDataResponse where
  status : Bool
  fetched : Option (List LiveQuote)
  deriving DecidableEq, Repr

/-- The body of a `getCandleData` response, its rows already turned into bars
(`historyResponse.data.map(d => ({ time: d[0], open: d[1], ... }))`). -/
structure HistoryResponse where
  status : Bool
  data : Option (List Candle)
  deriving DecidableEq, Repr

/-- The data collaborator as far as the poller uses it: `marketData`, given the
tokens of the request, and `getCandleData`, given the token of the request.
`Except.error` is a call that throws. -/
structure DataAPI where
  marketData : List String → Except String MarketDataResponse
  getCandleData : String → Except String HistoryResponse

/-- What happens to one cached token in a data cycle: skipped by `continue` for
lack of a live price; an exception caught by the `catch` of the loop body; no
historical data; fewer bars than the period; or the alert check run, with the
alert it raised, if any. -/
inductive TokenOutcome where
  | noLivePrice
  | caughtException
  | noHistory
  | tooShort
  | checked (alert : Option Alert)
  deriving DecidableEq, Repr

/-- How a data cycle ends: idle on an empty cache; ended by the `catch` around
`marketData`; or completed, with the tokens of the snapshot request and the
outcome for each token iterated, in iteration order. -/
inductive CycleResult where
  | idle
  | marketDataError (requested : List String)
  | completed (requested : List String) (outcomes : List (String × TokenOutcome))
  deriving DecidableEq, Repr

/-- The object `liveLTPData` built by
`response.data.fetched.forEach(item => { liveLTPData[item.symbolToken] = item.ltp; })`
when `response.status && response.data && response.data.fetched`, else `{}`. -/
def buildLiveLTPData (response : MarketDataResponse) : List (String × ℚ) :=
  match response.fetched with
  | none => []
  | some fetched =>
    if response.status then
      fetched.foldl (fun liveLTPData item => setEntry item.symbolToken item.ltp liveLTPData) []
    else []

/-- The `try` block of the loop body, for one token with live price `ltp`:
`Except.error` when `getCandleData` or the alert check throws. -/
def tokenTryBody (EMA_VWAP_PERIOD : ℕ) (CANDLE_THICKNESS_PERCENT_THRESHOLD : ℚ) (api : DataAPI)
    (token : String) (ltp : ℚ) : Except String TokenOutcome :=
  match api.getCandleData token with
  | Except.error e => Except.error e
  | Except.ok historyResponse =>
    match historyResponse.data with
    | none => Except.ok TokenOutcome.noHistory
    | some historicalData =>
      if historyResponse.status && decide (historicalData.length > 0) then
        if historicalData.length ≥ EMA_VWAP_PERIOD then
          match checkCandleStrengthAndAlert EMA_VWAP_PERIOD CANDLE_THICKNESS_PERCENT_THRESHOLD
              historicalData ltp with
          | Except.ok alert => Except.ok (TokenOutcome.checked alert)
          | Except.error _ => Except.error "TypeError"
        else Except.ok TokenOutcome.tooShort
      else Except.ok TokenOutcome.noHistory

/-- The loop body for one token: `const ltp = liveLTPData[token]; if (!ltp)
continue;` then `try { ... } catch (error) { console.error(...) }`. -/
def evaluateToken (EMA_VWAP_PERIOD : ℕ) (CANDLE_THICKNESS_PERCENT_THRESHOLD : ℚ) (api : DataAPI)
    (liveLTPData : List (String × ℚ)) (token : String) : TokenOutcome :=
  match getEntry token liveLTPData with
  | none => TokenOutcome.noLivePrice
  | some ltp =>
    if ltp = 0 then TokenOutcome.noLivePrice
    else
      match tokenTryBody EMA_VWAP_PERIOD CANDLE_THICKNESS_PERCENT_THRESHOLD api token ltp with
      | Except.ok outcome => outcome
      | Except.error _ => TokenOutcome.caughtException

/-- The loop `for (const [token, metadata] of tokenCache.entries())`. -/
def dataLoop (EMA_VWAP_PERIOD : ℕ) (CANDLE_THICKNESS_PERCENT_THRESHOLD : ℚ) (api : DataAPI)
    (liveLTPData : List (String × ℚ)) :
    List (String × CacheEntry) → List (String × TokenOutcome)
  | [] => []
  | (token, _metadata) :: rest =>
    (token, evaluateToken EMA_VWAP_PERIOD CANDLE_THICKNESS_PERCENT_THRESHOLD api liveLTPData token)
      :: dataLoop EMA_VWAP_PERIOD CANDLE_THICKNESS_PERCENT_THRESHOLD api liveLTPData rest

/-- First part of `pollDataAndCheckStrategy`, up to the `await` of `marketData`:
`none` when the cache is empty (idle return), else the tokens of the snapshot
request, `Array.from(tokenCache.keys())`. -/
def dataCycleStart (tokenCache : JSMap CacheEntry) : Option (List String) :=
  if tokenCache.size = 0 then none else some tokenCache.keys

/-- Second part of `pollDataAndCheckStrategy`, from the moment the `await` of
`marketData` resumes: `requested` are the tokens of the request made by the first
part, and `tokenCache` is the value of the global when the loop
`for (... of tokenCache.entries())` reads it. The iterator then stays on that
`Map` object, whatever is assigned to the global later. -/
def dataCycleResume (EMA_VWAP_PERIOD : ℕ) (CANDLE_THICKNESS_PERCENT_THRESHOLD : ℚ) (api : DataAPI)
    (requested : List String) (tokenCache : JSMap CacheEntry) : CycleResult :=
  match api.marketData requested with
  | Except.error _ => CycleResult.marketDataError requested
  | Except.ok response =>
    CycleResult.completed requested
      (dataLoop EMA_VWAP_PERIOD CANDLE_THICKNESS_PERCENT_THRESHOLD api (buildLiveLTPData response)
        tokenCache.entries)

/-- Embedding of `pollDataAndCheckStrategy()` run with no assignment to
`tokenCache` in between, as in `mainPollingLoop`, which awaits the refresh before
it starts the data cycle. -/
def pollDataAndCheckStrategy (EMA_VWAP_PERIOD : ℕ) (CANDLE_THICKNESS_PERCENT_THRESHOLD : ℚ)
    (api : DataAPI) (tokenCache : JSMap CacheEntry) : CycleResult :=
  match dataCycleStart tokenCache with
  | none => CycleResult.idle
  | some requested =>
    dataCycleResume EMA_VWAP_PERIOD CANDLE_THICKNESS_PERCENT_THRESHOLD api requested tokenCache

/-! ## The two timers of `updatedCodev2.js`

`setInterval(pollTopGainersAndLosers, ...)` and
`setInterval(pollDataAndCheckStrategy, ...)` run callbacks that give up control at
each `await`. What one data cycle can observe of a refresh is the moment of the
assignment `tokenCache = newCache` relative to its own two reads of the global. -/

/-- The shared state: the global `tokenCache`, the snapshot request of the data
cycle that is waiting for `marketData`, if any, and the cycles finished so far. -/
structure World where
  tokenCache : JSMap CacheEntry
  inFlight : Option (List String)
  finished : List CycleResult

/-- The steps of a schedule: the data timer starts a cycle; the `await` of
`marketData` of the cycle in flight resumes; a refresh reaches its assignment
`tokenCache = newCache`. -/
inductive SchedEvent where
  | dataTick
  | dataResume
  | refreshCommit
  deriving DecidableEq, Repr

/-- One step of a schedule. A refresh commits the mapping
`pollTopGainersAndLosers` builds from the answers of `smart_api`. -/
def World.step (MAX_SYMBOLS : ℕ) (SCAN_TYPE : String) (smart_api : SmartAPI)
    (EMA_VWAP_PERIOD : ℕ) (CANDLE_THICKNESS_PERCENT_THRESHOLD : ℚ) (api : DataAPI)
    (w : World) : SchedEvent → World
  | SchedEvent.dataTick =>
    match w.inFlight with
    | some _ => w
    | none =>
      match dataCycleStart w.tokenCache with
      | none => ⟨w.tokenCache, none, w.finished ++ [CycleResult.idle]⟩
      | some requested => ⟨w.tokenCache, some requested, w.finished⟩
  | SchedEvent.dataResume =>
    match w.inFlight with
    | none => w
    | some requested =>
      ⟨w.tokenCache, none,
        w.finished ++ [dataCycleResume EMA_VWAP_PERIOD CANDLE_THICKNESS_PERCENT_THRESHOLD api
          requested w.tokenCache]⟩
  | SchedEvent.refreshCommit =>
    ⟨pollTopGainersAndLosers MAX_SYMBOLS SCAN_TYPE (some smart_api) w.tokenCache, w.inFlight,
      w.finished⟩

/-- A schedule run from a state. -/
def World.run (MAX_SYMBOLS : ℕ) (SCAN_TYPE : String) (smart_api : SmartAPI)
    (EMA_VWAP_PERIOD : ℕ) (CANDLE_THICKNESS_PERCENT_THRESHOLD : ℚ) (api : DataAPI)
    (w : World) (schedule : List SchedEvent) : World :=
  schedule.foldl
    (World.step MAX_SYMBOLS SCAN_TYPE smart_api EMA_VWAP_PERIOD CANDLE_THICKNESS_PERCENT_THRESHOLD
      api) w

/-! ## The script variants `updatedCodev1.js` and `updatedCodev2.js`

Embeddings of the same four functions as they stand in the two older variants,
under the conventions used for `updatedCodev3.js`. -/

/-- The constant `EMA_VWAP_PERIOD` of `updatedCodev1.js`. -/
def EMA_VWAP_PERIOD_v1 : ℕ := 15

/-- The constant `CANDLE_THICKNESS_PERCENT_THRESHOLD` of `updatedCodev1.js`
(0.05). -/
def CANDLE_THICKNESS_PERCENT_THRESHOLD_v1 : ℚ := 1 / 20

/-- Embedding of `calculateEMA(data, period)` of `updatedCodev1.js` (lines 53-67). -/
def calculateEMA_v1 (data : List Candle) (period : ℕ) : JSVal :=
  if data.length < period then JSVal.null
  else if period = 0 then JSVal.nan
  else
    let relevantData := data.drop (data.length - period)
    let multiplier : ℚ := 2 / ((period : ℚ) + 1)
    let currentEMA : ℚ :=
      (relevantData.take period).foldl (fun sum candle => sum + candle.close) 0 / (period : ℚ)
    JSVal.num ((relevantData.drop 1).foldl
      (fun currentEMA candle => (candle.close - currentEMA) * multiplier + currentEMA) currentEMA)

/-- Embedding of `calculateVWAP(data)` of `updatedCodev1.js` (lines 72-93). -/
def calculateVWAP_v1 (data : List Candle) : JSVal :=
  let sums : ℚ × ℤ := data.foldl
    (fun acc candle =>
      if candle.volume > 0 then
        (acc.1 + (candle.high + candle.low + candle.close) / 3 * (candle.volume : ℚ),
          acc.2 + candle.volume)
      else acc) (0, 0)
  if sums.2 = 0 then JSVal.null else JSVal.num (sums.1 / (sums.2 : ℚ))

/-- Embedding of `getRootSymbol(foSymbol)` of `updatedCodev1.js` (lines 98-100). -/
def getRootSymbol_v1 (foSymbol : String) : String :=
  String.mk ((foSymbol.data.splitOnP Char.isDigit).headD [])

/-- Embedding of `checkCandleStrengthAndAlert` of `updatedCodev1.js` (lines
182-245), which reads the two module constants; step 3 only prints. -/
def checkCandleStrengthAndAlert_v1 (candleData : List Candle) (ltp : ℚ) :
    Except JSError (Option Alert) :=
  match candleData.getLast? with
  | none => Except.error JSError.typeError
  | some lastCandle =>
    match lastCandle.open_ with
    | none => Except.ok none
    | some parsedOpen =>
      if parsedOpen ≤ 0 then Except.ok none
      else
        let emaValue := calculateEMA_v1 candleData EMA_VWAP_PERIOD_v1
        let vwapValue := calculateVWAP_v1 candleData
        if !emaValue.truthy || !vwapValue.truthy then Except.ok none
        else
          match emaValue, vwapValue with
          | JSVal.num e, JSVal.num v =>
            let diff := ltp - parsedOpen
            let percentDiff := diff / parsedOpen * 100
            let isThickCandle : Bool :=
              decide (|percentDiff| ≥ CANDLE_THICKNESS_PERCENT_THRESHOLD_v1)
            if isThickCandle && decide (diff > 0) then
              if decide (ltp > e) && decide (ltp > v) then
                Except.ok (some ⟨AlertType.BULLISH,
                  [Reason.thickCandle percentDiff, Reason.ltpVsEMA ltp e, Reason.ltpVsVWAP ltp v]⟩)
              else Except.ok none
            else if isThickCandle && decide (diff < 0) then
              if decide (ltp < e) && decide (ltp < v) then
                Except.ok (some ⟨AlertType.BEARISH,
                  [Reason.thickCandle percentDiff, Reason.ltpVsEMA ltp e, Reason.ltpVsVWAP ltp v]⟩)
              else Except.ok none
            else Except.ok none
          | _, _ => Except.ok none

/-- Embedding of `calculateEMA(data, period)` of `updatedCodev2.js` (lines 49-63). -/
def calculateEMA_v2 (data : List Candle) (period : ℕ) : JSVal :=
  if data.length < period then JSVal.null
  else if period = 0 then JSVal.nan
  else
    let relevantData := data.drop (data.length - period)
    let multiplier : ℚ := 2 / ((period : ℚ) + 1)
    let currentEMA : ℚ :=
      (relevantData.take period).foldl (fun sum candle => sum + candle.close) 0 / (period : ℚ)
    JSVal.num ((relevantData.drop 1).foldl
      (fun currentEMA candle => (candle.close - currentEMA) * multiplier + currentEMA) currentEMA)

/-- Embedding of `calculateVWAP(data)` of `updatedCodev2.js` (lines 68-89). -/
def calculateVWAP_v2 (data : List Candle) : JSVal :=
  let sums : ℚ × ℤ := data.foldl
    (fun acc candle =>
      if candle.volume > 0 then
        (acc.1 + (candle.high + candle.low + candle.close) / 3 * (candle.volume : ℚ),
          acc.2 + candle.volume)
      else acc) (0, 0)
  if sums.2 = 0 then JSVal.null else JSVal.num (sums.1 / (sums.2 : ℚ))

/-- Embedding of `getRootSymbol(foSymbol)` of `updatedCodev2.js` (lines 94-96). -/
def getRootSymbol_v2 (foSymbol : String) : String :=
  String.mk ((foSymbol.data.splitOnP Char.isDigit).headD [])

/-- Embedding of `checkCandleStrengthAndAlert` of `updatedCodev2.js` (lines
174-237), whose period and threshold are module settings; step 3 only prints. -/
def checkCandleStrengthAndAlert_v2 (EMA_VWAP_PERIOD : ℕ)
    (CANDLE_THICKNESS_PERCENT_THRESHOLD : ℚ) (candleData : List Candle) (ltp : ℚ) :
    Except JSError (Option Alert) :=
  match candleData.getLast? with
  | none => Except.error JSError.typeError
  | some lastCandle =>
    match lastCandle.open_ with
    | none => Except.ok none
    | some parsedOpen =>
      if parsedOpen ≤ 0 then Except.ok none
      else
        let emaValue := calculateEMA_v2 candleData EMA_VWAP_PERIOD
        let vwapValue := calculateVWAP_v2 candleData
        if !emaValue.truthy || !vwapValue.truthy then Except.ok none
        else
          match emaValue, vwapValue with
          | JSVal.num e, JSVal.num v =>
            let diff := ltp - parsedOpen
            let percentDiff := diff / parsedOpen * 100
            let isThickCandle : Bool := decide (|percentDiff| ≥ CANDLE_THICKNESS_PERCENT_THRESHOLD)
            if isThickCandle && decide (diff > 0) then
              if decide (ltp > e) && decide (ltp > v) then
                Except.ok (some ⟨AlertType.BULLISH,
                  [Reason.thickCandle percentDiff, Reason.ltpVsEMA ltp e, Reason.ltpVsVWAP ltp v]⟩)
              else Except.ok none
            else if isThickCandle && decide (diff < 0) then
              if decide (ltp < e) && decide (ltp < v) then
                Except.ok (some ⟨AlertType.BEARISH,
                  [Reason.thickCandle percentDiff, Reason.ltpVsEMA ltp e, Reason.ltpVsVWAP ltp v]⟩)
              else Except.ok none
            else Except.ok none
          | _, _ => Except.ok none

/-! ## Further concrete inputs -/

/-- Data collaborator that quotes every requested token at 100 and answers every
bar request with the two bars `barFlat`, `barUp`. -/
def quoteAllAPI : DataAPI :=
  ⟨fun tokens => Except.ok ⟨true, some (tokens.map (fun t => ⟨t, 100⟩))⟩,
   fun _ => Except.ok ⟨true, some [barFlat, barUp]⟩⟩

/-- As `quoteAllAPI`, but the bar request for token 4001 throws. -/
def oneBarFailureAPI : DataAPI :=
  ⟨fun tokens => Except.ok ⟨true, some (tokens.map (fun t => ⟨t, 100⟩))⟩,
   fun token =>
     if token = "4001" then Except.error "timeout" else Except.ok ⟨true, some [barFlat, barUp]⟩⟩

/-- The outcomes of a completed data cycle (none for a cycle that ended before
the loop). -/
def CycleResult.outcomes : CycleResult → List (String × TokenOutcome)
  | CycleResult.completed _ outcomes => outcomes
  | _ => []

/-- A cache holding one contract, token 9999, of an earlier refresh. -/
def staleCache : JSMap CacheEntry :=
  ⟨[("9999", ⟨"9999", "OLD25OCT25FUT", "NFO", "OLD", "FUT", "Gainers"⟩)]⟩

/-- Collaborator whose movers query throws for both categories. -/
def failingMoversAPI : SmartAPI :=
  ⟨fun _ => Except.error "network", demoSearchScrip⟩

/-- Collaborator whose movers query answers with a non-success response for the
gainers and with an empty list for the losers. -/
def emptyMoversAPI : SmartAPI :=
  ⟨fun dataType =>
      if dataType = "PercPriceGainers" then Except.ok ⟨false, none⟩
      else Except.ok ⟨true, some []⟩,
    demoSearchScrip⟩

/-- A cache holding the TATASTEEL and INFY futures. -/
def demoCache : JSMap CacheEntry :=
  ⟨[("1001", ⟨"1001", "TATASTEEL25NOV25FUT", "NFO", "TATASTEEL", "FUT", "Gainers"⟩),
    ("4001", ⟨"4001", "INFY25NOV25FUT", "NFO", "INFY", "FUT", "Gainers"⟩)]⟩

/-! ## Auxiliary facts about the alert decision -/

/-- Unfolding of `checkCandleStrengthAndAlert` on a non-empty bar list whose
last bar has a positive open and whose indicators are non-zero numbers. -/
theorem check_eq_alertDecision {period : ℕ} (threshold ltp : ℚ) {candleData : List Candle}
    {lastCandle : Candle} {parsedOpen e v : ℚ}
    (hlast : candleData.getLast? = some lastCandle) (hopen : lastCandle.open_ = some parsedOpen)
    (hpos : 0 < parsedOpen) (hema : calculateEMA candleData period = JSVal.num e)
    (hvwap : calculateVWAP candleData = JSVal.num v) (he : e ≠ 0) (hv : v ≠ 0) :
    checkCandleStrengthAndAlert period threshold candleData ltp
      = Except.ok (alertDecision parsedOpen ltp e v threshold) := by
  simp [checkCandleStrengthAndAlert, hlast, hopen, not_le.mpr hpos, hema, hvwap, JSVal.truthy,
    he, hv]

/-- Inversion: an alert can only come out of `alertDecision`, run on a positive
open and on two indicator values that are non-zero numbers. -/
theorem check_alert_inv {period : ℕ} {threshold ltp : ℚ} {candleData : List Candle} {a : Alert}
    (h : checkCandleStrengthAndAlert period threshold candleData ltp = Except.ok (some a)) :
    ∃ lastCandle parsedOpen e v,
      candleData.getLast? = some lastCandle ∧ lastCandle.open_ = some parsedOpen ∧
      0 < parsedOpen ∧ calculateEMA candleData period = JSVal.num e ∧
      calculateVWAP candleData = JSVal.num v ∧ e ≠ 0 ∧ v ≠ 0 ∧
      alertDecision parsedOpen ltp e v threshold = some a := by
  unfold checkCandleStrengthAndAlert at h
  cases hlast : candleData.getLast? with
  | none => simp [hlast] at h
  | some lastCandle =>
    cases hopen : lastCandle.open_ with
    | none => simp [hlast, hopen] at h
    | some parsedOpen =>
      by_cases hpos : parsedOpen ≤ 0
      · simp [hlast, hopen, hpos] at h
      · cases hema : calculateEMA candleData period with
        | null => simp [hlast, hopen, hpos, hema, JSVal.truthy] at h
        | nan => simp [hlast, hopen, hpos, hema, JSVal.truthy] at h
        | num e =>
          cases hvwap : calculateVWAP candleData with
          | null => simp [hlast, hopen, hpos, hema, hvwap, JSVal.truthy] at h
          | nan => simp [hlast, hopen, hpos, hema, hvwap, JSVal.truthy] at h
          | num v =>
            by_cases he : e = 0
            · simp [hlast, hopen, hpos, hema, hvwap, JSVal.truthy, he] at h
            · by_cases hv : v = 0
              · simp [hlast, hopen, hpos, hema, hvwap, JSVal.truthy, hv] at h
              · simp [hlast, hopen, hpos, hema, hvwap, JSVal.truthy, he, hv] at h
                exact ⟨lastCandle, parsedOpen, e, v, rfl, hopen, not_le.mp hpos, rfl, rfl, he, hv, h⟩

/-- With a positive open, the sign of the percentage move is the sign of
`ltp - open`. -/
theorem percent_pos_iff {parsedOpen ltp : ℚ} (hpos : 0 < parsedOpen) :
    0 < (ltp - parsedOpen) / parsedOpen * 100 ↔ 0 < ltp - parsedOpen := by
  constructor
  · intro h
    have h1 : 0 < (ltp - parsedOpen) / parsedOpen := by linarith
    exact (div_pos_iff_of_pos_right hpos).mp h1
  · intro h
    have := div_pos h hpos
    linarith

theorem percent_neg_iff {parsedOpen ltp : ℚ} (hpos : 0 < parsedOpen) :
    (ltp - parsedOpen) / parsedOpen * 100 < 0 ↔ ltp - parsedOpen < 0 := by
  constructor
  · intro h
    have h1 : (ltp - parsedOpen) / parsedOpen < 0 := by linarith
    have h2 := (div_lt_iff₀ hpos).mp h1
    linarith
  · intro h
    have := div_neg_of_neg_of_pos h hpos
    linarith

/-- What a BULLISH result of `alertDecision` means. -/
theorem alertDecision_bullish {parsedOpen ltp e v threshold : ℚ} {a : Alert}
    (h : alertDecision parsedOpen ltp e v threshold = some a) (hb : a.alertType = AlertType.BULLISH) :
    threshold ≤ |(ltp - parsedOpen) / parsedOpen * 100| ∧ 0 < ltp - parsedOpen ∧ e < ltp ∧ v < ltp := by
  unfold alertDecision at h
  simp only [] at h
  split_ifs at h with h1 h2 h3 h4
  · simp at h1 h2
    exact ⟨h1.1, sub_pos.mpr h1.2, h2.1, h2.2⟩
  · cases h
    cases hb

/-- What a BEARISH result of `alertDecision` means. -/
theorem alertDecision_bearish {parsedOpen ltp e v threshold : ℚ} {a : Alert}
    (h : alertDecision parsedOpen ltp e v threshold = some a) (hb : a.alertType = AlertType.BEARISH) :
    threshold ≤ |(ltp - parsedOpen) / parsedOpen * 100| ∧ ltp - parsedOpen < 0 ∧ ltp < e ∧ ltp < v := by
  unfold alertDecision at h
  simp only [] at h
  split_ifs at h with h1 h2 h3 h4
  · cases h
    cases hb
  · simp at h3 h4
    exact ⟨h3.1, sub_neg.mpr h3.2, h4.1, h4.2⟩

/-- The BULLISH branch of `alertDecision` fires when all its tests pass. -/
theorem alertDecision_of_bullish {parsedOpen ltp e v threshold : ℚ}
    (hthick : threshold ≤ |(ltp - parsedOpen) / parsedOpen * 100|) (hdiff : 0 < ltp - parsedOpen)
    (he : e < ltp) (hv : v < ltp) :
    alertDecision parsedOpen ltp e v threshold
      = some ⟨AlertType.BULLISH,
          [Reason.thickCandle ((ltp - parsedOpen) / parsedOpen * 100), Reason.ltpVsEMA ltp e,
           Reason.ltpVsVWAP ltp v]⟩ := by
  simp [alertDecision, hthick, sub_pos.mp hdiff, he, hv]

/-- The BEARISH branch of `alertDecision` fires when all its tests pass. -/
theorem alertDecision_of_bearish {parsedOpen ltp e v threshold : ℚ}
    (hthick : threshold ≤ |(ltp - parsedOpen) / parsedOpen * 100|) (hdiff : ltp - parsedOpen < 0)
    (he : ltp < e) (hv : ltp < v) :
    alertDecision parsedOpen ltp e v threshold
      = some ⟨AlertType.BEARISH,
          [Reason.thickCandle ((ltp - parsedOpen) / parsedOpen * 100), Reason.ltpVsEMA ltp e,
           Reason.ltpVsVWAP ltp v]⟩ := by
  have h1 : ltp < parsedOpen := sub_neg.mp hdiff
  simp [alertDecision, hthick, h1, he, hv, not_lt.mpr h1.le]

/-- Below the threshold `alertDecision` raises nothing, whatever the indicators. -/
theorem alertDecision_thin {parsedOpen ltp e v threshold : ℚ}
    (hthin : |(ltp - parsedOpen) / parsedOpen * 100| < threshold) :
    alertDecision parsedOpen ltp e v threshold = none := by
  simp [alertDecision, not_le.mpr hthin]

/-- A non-empty bar list never makes `checkCandleStrengthAndAlert` throw. -/
theorem check_ok_of_last (period : ℕ) (threshold ltp : ℚ) {candleData : List Candle}
    {lastCandle : Candle} (hlast : candleData.getLast? = some lastCandle) :
    ∃ r, checkCandleStrengthAndAlert period threshold candleData ltp = Except.ok r := by
  unfold checkCandleStrengthAndAlert
  simp only [hlast]
  split
  · exact ⟨_, rfl⟩
  · split_ifs
    · exact ⟨_, rfl⟩
    · exact ⟨_, rfl⟩
    · split <;> exact ⟨_, rfl⟩

/-- The alert type of an alert is BULLISH or BEARISH. -/
theorem alertType_cases (a : Alert) :
    a.alertType = AlertType.BULLISH ∨ a.alertType = AlertType.BEARISH := by
  cases h : a.alertType
  · exact Or.inl rfl
  · exact Or.inr rfl

/-! ## Claims -/

/-- C1. Whenever `checkCandleStrengthAndAlert` raises an alert, the last bar has
an open, both indicators are numbers, and: a BULLISH alert has `percentMove > 0`,
`ltp > ema` and `ltp > vwap`; a BEARISH alert has `percentMove < 0`, `ltp < ema`
and `ltp < vwap`. Consequently, when neither triple of conditions holds in full
(one indicator disagrees with the move), no alert is raised. -/
theorem alert_is_three_of_three (period : ℕ) (threshold ltp : ℚ) (candleData : List Candle) :
    (∀ a, checkCandleStrengthAndAlert period threshold candleData ltp = Except.ok (some a) →
      ∃ lastCandle parsedOpen e v,
        candleData.getLast? = some lastCandle ∧ lastCandle.open_ = some parsedOpen ∧
        calculateEMA candleData period = JSVal.num e ∧ calculateVWAP candleData = JSVal.num v ∧
        (a.alertType = AlertType.BULLISH →
          0 < (ltp - parsedOpen) / parsedOpen * 100 ∧ e < ltp ∧ v < ltp) ∧
        (a.alertType = AlertType.BEARISH →
          (ltp - parsedOpen) / parsedOpen * 100 < 0 ∧ ltp < e ∧ ltp < v)) ∧
    (∀ lastCandle parsedOpen e v,
        candleData.getLast? = some lastCandle → lastCandle.open_ = some parsedOpen →
        calculateEMA candleData period = JSVal.num e → calculateVWAP candleData = JSVal.num v →
        ¬ (0 < (ltp - parsedOpen) / parsedOpen * 100 ∧ e < ltp ∧ v < ltp) →
        ¬ ((ltp - parsedOpen) / parsedOpen * 100 < 0 ∧ ltp < e ∧ ltp < v) →
        checkCandleStrengthAndAlert period threshold candleData ltp = Except.ok none) := by
  have key : ∀ a, checkCandleStrengthAndAlert period threshold candleData ltp = Except.ok (some a) →
      ∃ lastCandle parsedOpen e v,
        candleData.getLast? = some lastCandle ∧ lastCandle.open_ = some parsedOpen ∧
        calculateEMA candleData period = JSVal.num e ∧ calculateVWAP candleData = JSVal.num v ∧
        (a.alertType = AlertType.BULLISH →
          0 < (ltp - parsedOpen) / parsedOpen * 100 ∧ e < ltp ∧ v < ltp) ∧
        (a.alertType = AlertType.BEARISH →
          (ltp - parsedOpen) / parsedOpen * 100 < 0 ∧ ltp < e ∧ ltp < v) := by
    intro a h
    obtain ⟨lastCandle, parsedOpen, e, v, hlast, hopen, hpos, hema, hvwap, -, -, hdec⟩ :=
      check_alert_inv h
    refine ⟨lastCandle, parsedOpen, e, v, hlast, hopen, hema, hvwap, ?_, ?_⟩
    · intro hb
      obtain ⟨-, hd, he, hv⟩ := alertDecision_bullish hdec hb
      exact ⟨(percent_pos_iff hpos).mpr hd, he, hv⟩
    · intro hb
      obtain ⟨-, hd, he, hv⟩ := alertDecision_bearish hdec hb
      exact ⟨(percent_neg_iff hpos).mpr hd, he, hv⟩
  refine ⟨key, ?_⟩
  intro lastCandle parsedOpen e v hlast hopen hema hvwap hnb hnbe
  obtain ⟨r, hr⟩ := check_ok_of_last period threshold ltp hlast
  cases r with
  | none => exact hr
  | some a =>
    exfalso
    obtain ⟨lc, o, e', v', hlast', hopen', hema', hvwap', hb, hbe⟩ := key a hr
    have hlc : lc = lastCandle := by
      rw [hlast] at hlast'
      exact (Option.some.inj hlast').symm
    subst hlc
    have ho : o = parsedOpen := by
      rw [hopen] at hopen'
      exact (Option.some.inj hopen').symm
    have he : e' = e := by
      rw [hema] at hema'
      exact (JSVal.num.inj hema').symm
    have hv : v' = v := by
      rw [hvwap] at hvwap'
      exact (JSVal.num.inj hvwap').symm
    subst ho he hv
    rcases alertType_cases a with hA | hA
    · exact hnb (hb hA)
    · exact hnbe (hbe hA)

/-- C1, evaluated: open 100, ltp 99.8, EMA 99.9, VWAP 99.95 raises a BEARISH
alert, which the theorem turns into the three BEARISH conditions; with the VWAP
at 99.7 (below ltp) instead, the theorem gives no alert. -/
theorem alert_is_three_of_three_witness :
    (∃ lastCandle parsedOpen e v,
        [barBearish].getLast? = some lastCandle ∧ lastCandle.open_ = some parsedOpen ∧
        calculateEMA [barBearish] 1 = JSVal.num e ∧ calculateVWAP [barBearish] = JSVal.num v ∧
        (AlertType.BEARISH = AlertType.BULLISH →
          0 < (499 / 5 - parsedOpen) / parsedOpen * 100 ∧ e < 499 / 5 ∧ v < 499 / 5) ∧
        (AlertType.BEARISH = AlertType.BEARISH →
          (499 / 5 - parsedOpen) / parsedOpen * 100 < 0 ∧ 499 / 5 < e ∧ 499 / 5 < v)) ∧
    checkCandleStrengthAndAlert 1 (1 / 20) [barDisagree] (499 / 5) = Except.ok none :=
  ⟨(alert_is_three_of_three 1 (1 / 20) (499 / 5) [barBearish]).1
      ⟨AlertType.BEARISH, [Reason.thickCandle (-1 / 5), Reason.ltpVsEMA (499 / 5) (999 / 10),
        Reason.ltpVsVWAP (499 / 5) (1999 / 20)]⟩
      (by norm_num [checkCandleStrengthAndAlert, calculateEMA, calculateVWAP, vwapStep, emaStep,
            alertDecision, JSVal.truthy, barBearish, le_abs]),
   (alert_is_three_of_three 1 (1 / 20) (499 / 5) [barDisagree]).2 barDisagree 100 (999 / 10)
      (997 / 10) (by simp) (by simp [barDisagree])
      (by norm_num [calculateEMA, emaStep, barDisagree])
      (by norm_num [calculateVWAP, vwapStep, barDisagree])
      (by norm_num) (by norm_num)⟩

/-- C2. The code departs from the claim at one bar with open 1, high 3, low 0,
close 0 and volume 1, period 1, threshold 0.05 and ltp 2. The open is positive,
the EMA is the number 0 and the VWAP the number 1 (neither is null, and the one
bar the period needs is there), the move is +100 %, and ltp is above both
indicators, so the claim asks for a BULLISH alert; the code raises none. The
guard `if (!emaValue || !vwapValue) return;`, which stands for "Insufficient
data for EMA/VWAP calculation", is a truthiness test and also rejects an
indicator that is the number 0. Every value of this input is computed without
rounding. -/
theorem zero_indicator_blocks_alert :
    [barZeroEMA].getLast? = some barZeroEMA ∧ barZeroEMA.open_ = some 1 ∧ (0 : ℚ) < 1 ∧
    calculateEMA [barZeroEMA] 1 = JSVal.num 0 ∧ calculateEMA [barZeroEMA] 1 ≠ JSVal.null ∧
    calculateVWAP [barZeroEMA] = JSVal.num 1 ∧ calculateVWAP [barZeroEMA] ≠ JSVal.null ∧
    (1 / 20 : ℚ) ≤ |((2 : ℚ) - 1) / 1 * 100| ∧ (0 : ℚ) < ((2 : ℚ) - 1) / 1 * 100 ∧
    (0 : ℚ) < 2 ∧ (1 : ℚ) < 2 ∧
    checkCandleStrengthAndAlert 1 (1 / 20) [barZeroEMA] 2 = Except.ok none := by
  refine ⟨by simp, by simp [barZeroEMA], by norm_num, ?_, ?_, ?_, ?_, ?_, by norm_num,
    by norm_num, by norm_num, ?_⟩
  · norm_num [calculateEMA, emaStep, barZeroEMA]
  · have h : calculateEMA [barZeroEMA] 1 = JSVal.num 0 := by
      norm_num [calculateEMA, emaStep, barZeroEMA]
    rw [h]
    exact JSVal.noConfusion
  · norm_num [calculateVWAP, vwapStep, barZeroEMA]
  · have h : calculateVWAP [barZeroEMA] = JSVal.num 1 := by
      norm_num [calculateVWAP, vwapStep, barZeroEMA]
    rw [h]
    exact JSVal.noConfusion
  · norm_num [le_abs]
  · norm_num [checkCandleStrengthAndAlert, calculateEMA, calculateVWAP, vwapStep, emaStep,
      alertDecision, JSVal.truthy, barZeroEMA, le_abs]

/-- Extent of the zero-indicator case, over exact rationals. When the last bar's
open is > 0, the EMA and the VWAP are both numbers different from 0, and
`|percentMove| ≥ threshold`: if `percentMove > 0`, `ltp > ema` and `ltp > vwap`
the decision is BULLISH, and if `percentMove < 0`, `ltp < ema` and `ltp < vwap`
it is BEARISH. The comparisons are those of the rational model; where
`|percentMove|` and the threshold are equal as rationals the code's floating
point can decide the other way. -/
theorem confirmed_move_raises_alert (period : ℕ) (threshold ltp : ℚ) (candleData : List Candle)
    (lastCandle : Candle) (parsedOpen e v : ℚ)
    (hlast : candleData.getLast? = some lastCandle) (hopen : lastCandle.open_ = some parsedOpen)
    (hpos : 0 < parsedOpen) (hema : calculateEMA candleData period = JSVal.num e)
    (hvwap : calculateVWAP candleData = JSVal.num v) (he : e ≠ 0) (hv : v ≠ 0)
    (hthick : threshold ≤ |(ltp - parsedOpen) / parsedOpen * 100|) :
    (0 < (ltp - parsedOpen) / parsedOpen * 100 ∧ e < ltp ∧ v < ltp →
      ∃ reasons, checkCandleStrengthAndAlert period threshold candleData ltp
        = Except.ok (some ⟨AlertType.BULLISH, reasons⟩)) ∧
    ((ltp - parsedOpen) / parsedOpen * 100 < 0 ∧ ltp < e ∧ ltp < v →
      ∃ reasons, checkCandleStrengthAndAlert period threshold candleData ltp
        = Except.ok (some ⟨AlertType.BEARISH, reasons⟩)) := by
  have hchk := check_eq_alertDecision threshold ltp hlast hopen hpos hema hvwap he hv
  constructor
  · rintro ⟨hm, h1, h2⟩
    rw [hchk, alertDecision_of_bullish hthick ((percent_pos_iff hpos).mp hm) h1 h2]
    exact ⟨_, rfl⟩
  · rintro ⟨hm, h1, h2⟩
    rw [hchk, alertDecision_of_bearish hthick ((percent_neg_iff hpos).mp hm) h1 h2]
    exact ⟨_, rfl⟩

/-- Evaluation at open 100, ltp 100.1, EMA 100, VWAP 99.9, threshold 0.05 (a
move of 0.1 %, away from the threshold): classified BULLISH. -/
theorem confirmed_move_raises_alert_witness :
    ∃ reasons, checkCandleStrengthAndAlert 1 (1 / 20) [barBullish] (1001 / 10)
      = Except.ok (some ⟨AlertType.BULLISH, reasons⟩) :=
  (confirmed_move_raises_alert 1 (1 / 20) (1001 / 10) [barBullish] barBullish 100 100 (999 / 10)
    (by simp) (by simp [barBullish]) (by norm_num)
    (by norm_num [calculateEMA, emaStep, barBullish])
    (by norm_num [calculateVWAP, vwapStep, barBullish])
    (by norm_num) (by norm_num) (by norm_num [le_abs])).1
    ⟨by norm_num, by norm_num, by norm_num⟩

/-- The specified EMA of at least `period ≥ 1` bars is the arithmetic mean of the
last `period` closes: the trailing window holds `period` bars, so none is left
after the seed. -/
theorem calculateEMA_spec_eq_mean (bars : List Candle) (period : ℕ) (hp : 1 ≤ period)
    (hlen : period ≤ bars.length) :
    calculateEMA_spec bars period
      = JSVal.num (((bars.drop (bars.length - period)).map (fun c => c.close)).sum / (period : ℚ)) := by
  have hwin : (bars.drop (bars.length - period)).length = period := by
    rw [List.length_drop]
    omega
  have htake : (bars.drop (bars.length - period)).take period = bars.drop (bars.length - period) := by
    apply List.take_of_length_le
    omega
  have hdrop : (bars.drop (bars.length - period)).drop period = [] := by
    apply List.drop_of_length_le
    omega
  simp only [calculateEMA_spec, not_lt.mpr hlen, if_false, htake, hdrop, List.foldl_nil]

/-- C3, at the input closes 100, 103 with period 2. The specified value is the
mean 101.5 of the two closes; `calculateEMA` returns 102.5, because its loop
starts at index 1 and applies the recurrence again to a bar that is already in
the seed. -/
theorem calculateEMA_reapplies_seed_bar :
    calculateEMA [barFlat, barUp] 2 = JSVal.num (205 / 2) ∧
    calculateEMA_spec [barFlat, barUp] 2 = JSVal.num (203 / 2) ∧
    ((barFlat.close + barUp.close) / 2 = (203 / 2 : ℚ)) ∧
    calculateEMA [barFlat, barUp] 2 ≠ calculateEMA_spec [barFlat, barUp] 2 := by
  have h1 : calculateEMA [barFlat, barUp] 2 = JSVal.num (205 / 2) := by
    norm_num [calculateEMA, emaStep, barFlat, barUp]
  have h2 : calculateEMA_spec [barFlat, barUp] 2 = JSVal.num (203 / 2) := by
    norm_num [calculateEMA_spec, barFlat, barUp]
  refine ⟨h1, h2, by norm_num [barFlat, barUp], ?_⟩
  rw [h1, h2]
  intro h
  have := JSVal.num.inj h
  norm_num at this

/-- C4. `calculateEMA` returns null exactly when there are fewer than `period`
bars; with at least `period` bars it returns a non-null value, which for
`period ≥ 1` is a number determined by the bars and the period. -/
theorem calculateEMA_null_iff (data : List Candle) (period : ℕ) :
    (calculateEMA data period = JSVal.null ↔ data.length < period) ∧
    (period ≤ data.length → calculateEMA data period ≠ JSVal.null) ∧
    (1 ≤ period → period ≤ data.length → ∃ q, calculateEMA data period = JSVal.num q) := by
  have hiff : calculateEMA data period = JSVal.null ↔ data.length < period := by
    unfold calculateEMA
    constructor
    · intro h
      by_contra hlt
      simp only [hlt, if_false] at h
      split_ifs at h
    · intro h
      simp [h]
  refine ⟨hiff, ?_, ?_⟩
  · intro hle h
    exact absurd (hiff.mp h) (not_lt.mpr hle)
  · intro hp hle
    have h0 : period ≠ 0 := by omega
    unfold calculateEMA
    rw [if_neg (not_lt.mpr hle), if_neg h0]
    exact ⟨_, rfl⟩

/-- C4, evaluated: two bars with period 2 give a number, not null. -/
theorem calculateEMA_null_iff_witness :
    calculateEMA [barFlat, barUp] 2 ≠ JSVal.null ∧
    ∃ q, calculateEMA [barFlat, barUp] 2 = JSVal.num q :=
  ⟨(calculateEMA_null_iff [barFlat, barUp] 2).2.1 (by simp),
   (calculateEMA_null_iff [barFlat, barUp] 2).2.2 (by norm_num) (by simp)⟩

/-- The `forEach` accumulation of `calculateVWAP`, in closed form: both running
sums grow by the sums over the bars with positive volume. -/
theorem foldl_vwapStep (bars : List Candle) (acc : ℚ × ℤ) :
    bars.foldl vwapStep acc
      = (acc.1 + ((bars.filter (fun c => decide (c.volume > 0))).map
            (fun c => typicalPrice c * (c.volume : ℚ))).sum,
         acc.2 + ((bars.filter (fun c => decide (c.volume > 0))).map (fun c => c.volume)).sum) := by
  induction bars generalizing acc with
  | nil => simp
  | cons c cs ih =>
    rw [List.foldl_cons, ih]
    by_cases hv : c.volume > 0
    · simp [vwapStep, hv, typicalPrice, add_assoc]
    · simp [vwapStep, hv]

/-- `calculateVWAP` computes the specified VWAP. -/
theorem calculateVWAP_eq_calculateVWAP_spec (bars : List Candle) :
    calculateVWAP bars = calculateVWAP_spec bars := by
  simp [calculateVWAP, calculateVWAP_spec, foldl_vwapStep]

/-- C5. `calculateVWAP` equals `Σ (typicalPrice * volume) / Σ volume` over exactly
the bars with volume > 0 (the specified VWAP); it is null exactly when the
counted volume is zero, which includes the empty list. -/
theorem calculateVWAP_refines_spec (bars : List Candle) :
    calculateVWAP bars = calculateVWAP_spec bars ∧
    (calculateVWAP bars = JSVal.null ↔
      ((bars.filter (fun c => decide (c.volume > 0))).map (fun c => c.volume)).sum = 0) ∧
    (calculateVWAP bars ≠ JSVal.null →
      calculateVWAP bars = JSVal.num
        (((bars.filter (fun c => decide (c.volume > 0))).map
            (fun c => typicalPrice c * (c.volume : ℚ))).sum /
          ((((bars.filter (fun c => decide (c.volume > 0))).map (fun c => c.volume)).sum : ℤ) : ℚ))) ∧
    calculateVWAP [] = JSVal.null := by
  refine ⟨calculateVWAP_eq_calculateVWAP_spec bars, ?_, ?_, by simp [calculateVWAP]⟩
  · rw [calculateVWAP_eq_calculateVWAP_spec]
    unfold calculateVWAP_spec
    constructor
    · intro h
      by_contra hne
      simp only [hne, if_false] at h
      exact JSVal.noConfusion h
    · intro h
      simp only [h, if_true]
  · rw [calculateVWAP_eq_calculateVWAP_spec]
    unfold calculateVWAP_spec
    intro h
    by_cases hz : ((bars.filter (fun c => decide (c.volume > 0))).map (fun c => c.volume)).sum = 0
    · simp only [hz, if_true] at h
      exact absurd rfl h
    · simp only [hz, if_false]

/-- C5, evaluated: a zero-volume bar next to a bar with volume 10 and typical
price 101 leaves the VWAP at 101. -/
theorem calculateVWAP_refines_spec_witness :
    calculateVWAP [barNoVolume, barSpike] = JSVal.num
      ((([barNoVolume, barSpike].filter (fun c => decide (c.volume > 0))).map
          (fun c => typicalPrice c * (c.volume : ℚ))).sum /
        (((([barNoVolume, barSpike].filter (fun c => decide (c.volume > 0))).map
          (fun c => c.volume)).sum : ℤ) : ℚ)) :=
  (calculateVWAP_refines_spec [barNoVolume, barSpike]).2.2.1 (by
    have h : calculateVWAP [barNoVolume, barSpike] = JSVal.num 101 := by
      norm_num [calculateVWAP, vwapStep, barNoVolume, barSpike]
    rw [h]
    exact JSVal.noConfusion)

/-- Sum of the volumes of bars that all have volume `v`. -/
theorem sum_volume_uniform (bars : List Candle) (v : ℤ) (h : ∀ c ∈ bars, c.volume = v) :
    (bars.map (fun c => c.volume)).sum = (bars.length : ℤ) * v := by
  induction bars with
  | nil => simp
  | cons c cs ih =>
    have hc : c.volume = v := h c (List.mem_cons_self c cs)
    have hcs : ∀ d ∈ cs, d.volume = v := fun d hd => h d (List.mem_cons_of_mem c hd)
    simp only [List.map_cons, List.sum_cons, List.length_cons, ih hcs, hc]
    push_cast
    ring

/-- Sum of `typicalPrice * volume` over bars that all have volume `v`. -/
theorem sum_tpv_uniform (bars : List Candle) (v : ℤ) (h : ∀ c ∈ bars, c.volume = v) :
    (bars.map (fun c => typicalPrice c * (c.volume : ℚ))).sum
      = (bars.map typicalPrice).sum * (v : ℚ) := by
  induction bars with
  | nil => simp
  | cons c cs ih =>
    have hc : c.volume = v := h c (List.mem_cons_self c cs)
    have hcs : ∀ d ∈ cs, d.volume = v := fun d hd => h d (List.mem_cons_of_mem c hd)
    simp only [List.map_cons, List.sum_cons, ih hcs, hc]
    ring

/-- C6. For every non-empty bar list in which all bars have the same volume `v`,
`calculateVWAP` is the arithmetic mean of the typical prices `(high+low+close)/3`;
for every bar list whose volumes are all zero, `calculateVWAP` is null. The
uniform volume of the first half is a traded volume, `v > 0`: volume 0 is the
case the second half settles. -/
theorem calculateVWAP_uniform_volume (bars : List Candle) (v : ℤ) :
    (bars ≠ [] → 0 < v → (∀ c ∈ bars, c.volume = v) →
      calculateVWAP bars = JSVal.num ((bars.map typicalPrice).sum / ((bars.length : ℕ) : ℚ))) ∧
    ((∀ c ∈ bars, c.volume = 0) → calculateVWAP bars = JSVal.null) := by
  constructor
  · intro hne hv hall
    have hfilter : bars.filter (fun c => decide (c.volume > 0)) = bars := by
      rw [List.filter_eq_self]
      intro c hc
      simp [hall c hc, hv]
    have hlen : (bars.length : ℚ) ≠ 0 := by
      have : bars.length ≠ 0 := fun h0 => hne (List.length_eq_zero.mp h0)
      exact_mod_cast this
    have hvq : (v : ℚ) ≠ 0 := by
      have : v ≠ 0 := ne_of_gt hv
      exact_mod_cast this
    have hsum : (bars.map (fun c => c.volume)).sum ≠ 0 := by
      rw [sum_volume_uniform bars v hall]
      have : (bars.length : ℤ) ≠ 0 := by
        have : bars.length ≠ 0 := fun h0 => hne (List.length_eq_zero.mp h0)
        exact_mod_cast this
      exact mul_ne_zero this (ne_of_gt hv)
    rw [calculateVWAP_eq_calculateVWAP_spec]
    simp only [calculateVWAP_spec, hfilter, hsum, if_false]
    rw [sum_tpv_uniform bars v hall, sum_volume_uniform bars v hall]
    push_cast
    rw [mul_div_mul_right _ _ hvq]
  · intro hall
    have hfilter : bars.filter (fun c => decide (c.volume > 0)) = [] := by
      rw [List.filter_eq_nil_iff]
      intro c hc
      simp [hall c hc]
    rw [calculateVWAP_eq_calculateVWAP_spec]
    simp [calculateVWAP_spec, hfilter]

/-- C6, evaluated: two bars of volume 10 with typical prices 101 and 102
have VWAP 101.5, and a zero-volume list has VWAP null. -/
theorem calculateVWAP_uniform_volume_witness :
    calculateVWAP [barSpike, barUp]
      = JSVal.num (([barSpike, barUp].map typicalPrice).sum / (([barSpike, barUp].length : ℕ) : ℚ)) ∧
    calculateVWAP [barNoVolume] = JSVal.null :=
  ⟨(calculateVWAP_uniform_volume [barSpike, barUp] 10).1 (by simp) (by norm_num)
      (by simp [barSpike, barUp]),
   (calculateVWAP_uniform_volume [barNoVolume] 0).2 (by simp [barNoVolume])⟩

/-- C7. When the last bar has an open and `|percentMove|` is strictly below the
threshold, `checkCandleStrengthAndAlert` raises no alert, whatever the bars (and
so the EMA and the VWAP) are; the decision step raises none for any indicator
values. -/
theorem thin_candle_no_alert (period : ℕ) (threshold ltp : ℚ) (candleData : List Candle)
    (lastCandle : Candle) (parsedOpen : ℚ)
    (hlast : candleData.getLast? = some lastCandle) (hopen : lastCandle.open_ = some parsedOpen)
    (hthin : |(ltp - parsedOpen) / parsedOpen * 100| < threshold) :
    checkCandleStrengthAndAlert period threshold candleData ltp = Except.ok none ∧
    ∀ e v, alertDecision parsedOpen ltp e v threshold = none := by
  refine ⟨?_, fun e v => alertDecision_thin hthin⟩
  obtain ⟨r, hr⟩ := check_ok_of_last period threshold ltp hlast
  cases r with
  | none => exact hr
  | some a =>
    exfalso
    obtain ⟨lc, o, e, v, hlast', hopen', -, -, -, -, -, hdec⟩ := check_alert_inv hr
    have hlc : lc = lastCandle := by
      rw [hlast] at hlast'
      exact (Option.some.inj hlast').symm
    subst hlc
    have ho : o = parsedOpen := by
      rw [hopen] at hopen'
      exact (Option.some.inj hopen').symm
    subst ho
    rw [alertDecision_thin hthin] at hdec
    exact Option.noConfusion hdec

/-- C7, evaluated: open 100, ltp 100.03, threshold 0.05 raises no alert. -/
theorem thin_candle_no_alert_witness :
    checkCandleStrengthAndAlert 1 (1 / 20) [barBullish] (10003 / 100) = Except.ok none ∧
    alertDecision 100 (10003 / 100) 99 98 (1 / 20) = none :=
  ⟨(thin_candle_no_alert 1 (1 / 20) (10003 / 100) [barBullish] barBullish 100 (by simp)
      (by simp [barBullish]) (by norm_num [abs_lt])).1,
   (thin_candle_no_alert 1 (1 / 20) (10003 / 100) [barBullish] barBullish 100 (by simp)
      (by simp [barBullish]) (by norm_num [abs_lt])).2 99 98⟩

/-- C8, at the input bars `[barFlat, barSpike]`, period 1, ltp 100.5, threshold
0.05. The VWAP of the last `period` bars is 101, above ltp, and on that window
alone no alert is raised; `checkCandleStrengthAndAlert` compares ltp with the
VWAP of all supplied bars, 10101/101 (about 100.01), and raises a BULLISH alert.
The EMA is the one of the last `period` bars. -/
theorem vwap_uses_all_supplied_bars :
    [barFlat, barSpike].drop ([barFlat, barSpike].length - 1) = [barSpike] ∧
    calculateVWAP [barSpike] = JSVal.num 101 ∧
    calculateVWAP [barFlat, barSpike] = JSVal.num (10101 / 101) ∧
    calculateEMA [barFlat, barSpike] 1 = calculateEMA [barSpike] 1 ∧
    checkCandleStrengthAndAlert 1 (1 / 20) [barFlat, barSpike] (201 / 2)
      = Except.ok (some ⟨AlertType.BULLISH,
          [Reason.thickCandle (1 / 2), Reason.ltpVsEMA (201 / 2) 100,
           Reason.ltpVsVWAP (201 / 2) (10101 / 101)]⟩) ∧
    checkCandleStrengthAndAlert 1 (1 / 20) [barSpike] (201 / 2) = Except.ok none := by
  refine ⟨by simp, ?_, ?_, ?_, ?_, ?_⟩
  · norm_num [calculateVWAP, vwapStep, barSpike]
  · norm_num [calculateVWAP, vwapStep, barFlat, barSpike]
  · norm_num [calculateEMA, emaStep, barFlat, barSpike]
  · norm_num [checkCandleStrengthAndAlert, calculateEMA, calculateVWAP, vwapStep, emaStep,
      alertDecision, JSVal.truthy, barFlat, barSpike, le_abs]
  · norm_num [checkCandleStrengthAndAlert, calculateEMA, calculateVWAP, vwapStep, emaStep,
      alertDecision, JSVal.truthy, barSpike, le_abs]

/-- C9. For every non-empty bar list with fewer than `period` bars, and every ltp
and threshold, `checkCandleStrengthAndAlert` raises no alert: the EMA is null and
the null state ends the evaluation. -/
theorem short_history_no_alert (period : ℕ) (threshold ltp : ℚ) (candleData : List Candle)
    (hne : candleData ≠ []) (hshort : candleData.length < period) :
    calculateEMA candleData period = JSVal.null ∧
    checkCandleStrengthAndAlert period threshold candleData ltp = Except.ok none := by
  have hema : calculateEMA candleData period = JSVal.null := by
    simp [calculateEMA, hshort]
  refine ⟨hema, ?_⟩
  have hlast : candleData.getLast? = some (candleData.getLast hne) :=
    List.getLast?_eq_getLast candleData hne
  obtain ⟨r, hr⟩ := check_ok_of_last period threshold ltp hlast
  cases r with
  | none => exact hr
  | some a =>
    exfalso
    obtain ⟨-, -, e, -, -, -, -, hema', -⟩ := check_alert_inv hr
    rw [hema] at hema'
    exact JSVal.noConfusion hema'

/-- C9, evaluated: two bars with period 15 raise no alert on a +3 % move. -/
theorem short_history_no_alert_witness :
    calculateEMA [barFlat, barUp] 15 = JSVal.null ∧
    checkCandleStrengthAndAlert 15 (1 / 20) [barFlat, barUp] 103 = Except.ok none :=
  short_history_no_alert 15 (1 / 20) 103 [barFlat, barUp] (by simp) (by simp)

/-- C10. When the open of the most recent bar is missing (not a number) or ≤ 0,
`checkCandleStrengthAndAlert` raises no alert, whatever ltp, the bars, the period
and the threshold are. -/
theorem bad_open_no_alert (period : ℕ) (threshold ltp : ℚ) (candleData : List Candle)
    (lastCandle : Candle) (hlast : candleData.getLast? = some lastCandle)
    (hbad : lastCandle.open_ = none ∨ ∃ parsedOpen, lastCandle.open_ = some parsedOpen ∧ parsedOpen ≤ 0) :
    checkCandleStrengthAndAlert period threshold candleData ltp = Except.ok none := by
  rcases hbad with hnone | ⟨parsedOpen, hopen, hle⟩
  · simp [checkCandleStrengthAndAlert, hlast, hnone]
  · simp [checkCandleStrengthAndAlert, hlast, hopen, hle]

/-- C10, evaluated: a last bar without open, and a last bar with open 0. -/
theorem bad_open_no_alert_witness :
    checkCandleStrengthAndAlert 1 (1 / 20) [barFlat, barNoOpen] 103 = Except.ok none ∧
    checkCandleStrengthAndAlert 1 (1 / 20) [barFlat, barZeroOpen] 103 = Except.ok none :=
  ⟨bad_open_no_alert 1 (1 / 20) 103 [barFlat, barNoOpen] barNoOpen (by simp)
      (Or.inl (by simp [barNoOpen])),
   bad_open_no_alert 1 (1 / 20) 103 [barFlat, barZeroOpen] barZeroOpen (by simp)
      (Or.inr ⟨0, by simp [barZeroOpen], le_refl 0⟩)⟩

/-- The first piece of a split at the elements satisfying `p` is the longest
prefix without such an element. -/
theorem headD_splitOnP_eq_takeWhile {α : Type} (p : α → Bool) (l : List α) :
    (l.splitOnP p).headD [] = l.takeWhile (fun x => !p x) := by
  induction l with
  | nil => simp
  | cons x xs ih =>
    rw [List.splitOnP_cons]
    by_cases hx : p x = true
    · simp [hx, List.takeWhile]
    · have hx' : p x = false := by simpa using hx
      have hne := List.splitOnP_ne_nil p xs
      cases hsp : xs.splitOnP p with
      | nil => exact absurd hsp hne
      | cons y ys =>
        rw [hsp] at ih
        simp only [List.headD_cons] at ih
        simp [hx', List.takeWhile, List.modifyHead, ih]

/-- C11. `getRootSymbol s` is `s` cut at its first ASCII digit: it is a prefix of
`s` without digit, no digit-free prefix of `s` is longer, it is `s` itself when
`s` has no digit and the empty string when `s` starts with a digit. -/
theorem getRootSymbol_cut_at_first_digit (s : String) :
    getRootSymbol s = String.mk (s.data.takeWhile (fun c => !c.isDigit)) ∧
    (getRootSymbol s).data <+: s.data ∧
    (∀ c ∈ (getRootSymbol s).data, c.isDigit = false) ∧
    (∀ p : List Char, p <+: s.data → (∀ c ∈ p, c.isDigit = false) →
      p.length ≤ (getRootSymbol s).data.length) ∧
    ((∀ c ∈ s.data, c.isDigit = false) → getRootSymbol s = s) ∧
    (∀ c rest, s.data = c :: rest → c.isDigit = true → getRootSymbol s = "") := by
  have hroot : getRootSymbol s = String.mk (s.data.takeWhile (fun c => !c.isDigit)) := by
    simp only [getRootSymbol, headD_splitOnP_eq_takeWhile]
  have hdata : (getRootSymbol s).data = s.data.takeWhile (fun c => !c.isDigit) := by
    rw [hroot]
  refine ⟨hroot, ?_, ?_, ?_, ?_, ?_⟩
  · rw [hdata]
    exact List.takeWhile_prefix _
  · intro c hc
    rw [hdata] at hc
    have := List.mem_takeWhile_imp hc
    simpa using this
  · intro p hp hfree
    rw [hdata]
    obtain ⟨t, ht⟩ := hp
    rw [← ht]
    have h1 : (p ++ t).takeWhile (fun c => !c.isDigit)
        = p ++ t.takeWhile (fun c => !c.isDigit) := by
      apply List.takeWhile_append_of_pos
      intro c hc
      simp [hfree c hc]
    rw [h1, List.length_append]
    omega
  · intro hfree
    have h1 : s.data.takeWhile (fun c => !c.isDigit) = s.data := by
      rw [List.takeWhile_eq_self_iff]
      intro c hc
      simp [hfree c hc]
    rw [hroot, h1]
  · intro c rest hs hc
    rw [hroot, hs]
    simp [List.takeWhile, hc]

/-- C11, evaluated: `TATASTEEL25NOV25FUT` gives `TATASTEEL`, `RELIANCE` (no
digit) gives `RELIANCE`, and `25NOV` (leading digit) gives the empty string. -/
theorem getRootSymbol_cut_at_first_digit_witness :
    getRootSymbol "TATASTEEL25NOV25FUT" = "TATASTEEL" ∧
    getRootSymbol "RELIANCE" = "RELIANCE" ∧
    getRootSymbol "25NOV" = "" :=
  ⟨(getRootSymbol_cut_at_first_digit "TATASTEEL25NOV25FUT").1.trans (by decide),
   (getRootSymbol_cut_at_first_digit "RELIANCE").2.2.2.2.1 (by decide),
   (getRootSymbol_cut_at_first_digit "25NOV").2.2.2.2.2 '2' ['5', 'N', 'O', 'V'] rfl (by decide)⟩

/-- C12, at the input where the first two attempts get a response that is not ok
(status 500) and the third succeeds: the result is `true`, but the three
attempts follow each other with no wait at all, where the claim has waits of
1000 ms and 2000 ms. When both failures are transport errors the waits are 1000
then 2000; when only the second is one, the single wait is 1000. -/
theorem nonok_response_retried_without_wait :
    sendTelegramMessage (some "TOKEN") (some "CHAT")
        (fetchScript [FetchOutcome.notOk 500, FetchOutcome.notOk 500, FetchOutcome.ok])
      = (Except.ok (SendValue.bool true),
         [Effect.fetchCall 0, Effect.fetchCall 1, Effect.fetchCall 2]) ∧
    waitsOf (sendTelegramMessage (some "TOKEN") (some "CHAT")
        (fetchScript [FetchOutcome.notOk 500, FetchOutcome.notOk 500, FetchOutcome.ok])).2 = [] ∧
    waitsOf (sendTelegramMessage (some "TOKEN") (some "CHAT")
        (fetchScript [FetchOutcome.transportError, FetchOutcome.transportError,
          FetchOutcome.ok])).2 = [1000, 2000] ∧
    waitsOf (sendTelegramMessage (some "TOKEN") (some "CHAT")
        (fetchScript [FetchOutcome.notOk 500, FetchOutcome.transportError,
          FetchOutcome.ok])).2 = [1000] := by
  refine ⟨rfl, rfl, rfl, rfl⟩

/-- With the destination configured, `sendTelegramMessage` is the retry loop. -/
theorem sendTelegramMessage_configured {token chat : Option String}
    (htoken : falsyString token = false) (hchat : falsyString chat = false)
    (fetch : ℕ → FetchOutcome) :
    sendTelegramMessage token chat fetch = retryLoop 3 fetch 3 0 1000 := by
  simp [sendTelegramMessage, htoken, hchat]

/-- C13. With the destination configured, for every sequence of collaborator
outcomes: at most 3 delivery attempts are made; if attempt `i < 3` is the first
successful one, the attempts are exactly `0, ..., i` and the result is `true`; if
none of the first three succeeds, the attempts are exactly `0, 1, 2` and the call
ends with a thrown error. -/
theorem delivery_attempts_bounded (token chat : Option String) (fetch : ℕ → FetchOutcome)
    (htoken : falsyString token = false) (hchat : falsyString chat = false) :
    (fetchCallsOf (sendTelegramMessage token chat fetch).2).length ≤ 3 ∧
    (∀ i, i < 3 → fetch i = FetchOutcome.ok → (∀ j, j < i → fetch j ≠ FetchOutcome.ok) →
      (sendTelegramMessage token chat fetch).1 = Except.ok (SendValue.bool true) ∧
      fetchCallsOf (sendTelegramMessage token chat fetch).2 = List.range (i + 1)) ∧
    ((∀ i, i < 3 → fetch i ≠ FetchOutcome.ok) →
      fetchCallsOf (sendTelegramMessage token chat fetch).2 = [0, 1, 2] ∧
      ∃ e, (sendTelegramMessage token chat fetch).1 = Except.error e) := by
  rw [sendTelegramMessage_configured htoken hchat]
  refine ⟨?_, ?_, ?_⟩
  · cases h0 : fetch 0 <;> cases h1 : fetch 1 <;> cases h2 : fetch 2 <;>
      simp [retryLoop, h0, h1, h2, fetchCallsOf]
  · intro i hi hok hbefore
    have hcases : i = 0 ∨ i = 1 ∨ i = 2 := by omega
    rcases hcases with rfl | rfl | rfl
    · simp [retryLoop, hok, fetchCallsOf, List.range_succ]
    · have h0 := hbefore 0 (by norm_num)
      cases h0' : fetch 0 with
      | ok => exact absurd h0' h0
      | notOk s => simp [retryLoop, hok, h0', fetchCallsOf, List.range_succ]
      | transportError => simp [retryLoop, hok, h0', fetchCallsOf, List.range_succ]
    · have h0 := hbefore 0 (by norm_num)
      have h1 := hbefore 1 (by norm_num)
      cases h0' : fetch 0 with
      | ok => exact absurd h0' h0
      | notOk s =>
        cases h1' : fetch 1 with
        | ok => exact absurd h1' h1
        | notOk s1 => simp [retryLoop, hok, h0', h1', fetchCallsOf, List.range_succ]
        | transportError => simp [retryLoop, hok, h0', h1', fetchCallsOf, List.range_succ]
      | transportError =>
        cases h1' : fetch 1 with
        | ok => exact absurd h1' h1
        | notOk s1 => simp [retryLoop, hok, h0', h1', fetchCallsOf, List.range_succ]
        | transportError => simp [retryLoop, hok, h0', h1', fetchCallsOf, List.range_succ]
  · intro hall
    have h0 := hall 0 (by norm_num)
    have h1 := hall 1 (by norm_num)
    have h2 := hall 2 (by norm_num)
    cases h0' : fetch 0 <;> cases h1' : fetch 1 <;> cases h2' : fetch 2 <;>
      first
      | exact absurd h0' h0
      | exact absurd h1' h1
      | exact absurd h2' h2
      | simp [retryLoop, h0', h1', h2', fetchCallsOf]

/-- C13, evaluated: success on the second attempt stops after attempts 0 and 1;
three failures make exactly the attempts 0, 1, 2 and end with an error. -/
theorem delivery_attempts_bounded_witness :
    ((sendTelegramMessage (some "TOKEN") (some "CHAT")
        (fetchScript [FetchOutcome.transportError, FetchOutcome.ok])).1
        = Except.ok (SendValue.bool true) ∧
      fetchCallsOf (sendTelegramMessage (some "TOKEN") (some "CHAT")
        (fetchScript [FetchOutcome.transportError, FetchOutcome.ok])).2 = List.range (1 + 1)) ∧
    (fetchCallsOf (sendTelegramMessage (some "TOKEN") (some "CHAT")
        (fun _ => FetchOutcome.notOk 500)).2 = [0, 1, 2] ∧
      ∃ e, (sendTelegramMessage (some "TOKEN") (some "CHAT")
        (fun _ => FetchOutcome.notOk 500)).1 = Except.error e) :=
  ⟨(delivery_attempts_bounded (some "TOKEN") (some "CHAT")
      (fetchScript [FetchOutcome.transportError, FetchOutcome.ok]) (by decide) (by decide)).2.1 1
      (by norm_num) rfl (by
        intro j hj
        have hj0 : j = 0 := by omega
        subst hj0
        simp [fetchScript]),
   (delivery_attempts_bounded (some "TOKEN") (some "CHAT") (fun _ => FetchOutcome.notOk 500)
      (by decide) (by decide)).2.2 (by
        intro i _
        simp)⟩

/-- C14, at the input where all three delivery attempts fail (transport errors,
destination configured): `sendTelegramAlert` and `sendCustomTelegramMessage` log
the failure and complete, but `sendWelcomeMessage` ends with the error, and so
does the welcome step of `executeSmartAPIActions` that awaits it outside any
`try`. -/
theorem welcome_message_failure_propagates :
    (sendTelegramAlert (some "TOKEN") (some "CHAT") (fun _ => FetchOutcome.transportError)).1
      = Except.ok () ∧
    (sendCustomTelegramMessage (some "TOKEN") (some "CHAT")
      (fun _ => FetchOutcome.transportError)).1 = Except.ok () ∧
    (sendWelcomeMessage (some "TOKEN") (some "CHAT") (fun _ => FetchOutcome.transportError)).1
      = Except.error SendError.transport ∧
    (startupWelcomeStep (some "TOKEN") (some "CHAT") (fun _ => FetchOutcome.transportError)).1
      = Except.error SendError.transport ∧
    fetchCallsOf (sendWelcomeMessage (some "TOKEN") (some "CHAT")
      (fun _ => FetchOutcome.transportError)).2 = [0, 1, 2] := by
  refine ⟨rfl, rfl, rfl, rfl, rfl⟩

/-- C15. When the bot token or the chat id is not configured (null or empty),
`sendTelegramMessage` makes no delivery attempt, waits for nothing and returns
(`undefined`) without throwing, whatever the collaborator would answer. -/
theorem unconfigured_destination_is_noop (token chat : Option String) (fetch : ℕ → FetchOutcome)
    (h : falsyString token = true ∨ falsyString chat = true) :
    (sendTelegramMessage token chat fetch).1 = Except.ok SendValue.undefined ∧
    fetchCallsOf (sendTelegramMessage token chat fetch).2 = [] ∧
    waitsOf (sendTelegramMessage token chat fetch).2 = [] := by
  have hguard : (falsyString token || falsyString chat) = true := by
    rcases h with h | h <;> simp [h]
  simp [sendTelegramMessage, hguard, fetchCallsOf, waitsOf]

/-- C15, evaluated: a null token, and an empty chat id. -/
theorem unconfigured_destination_is_noop_witness :
    ((sendTelegramMessage none (some "CHAT") (fun _ => FetchOutcome.ok)).1
        = Except.ok SendValue.undefined ∧
      fetchCallsOf (sendTelegramMessage none (some "CHAT") (fun _ => FetchOutcome.ok)).2 = [] ∧
      waitsOf (sendTelegramMessage none (some "CHAT") (fun _ => FetchOutcome.ok)).2 = []) ∧
    ((sendTelegramMessage (some "TOKEN") (some "") (fun _ => FetchOutcome.ok)).1
        = Except.ok SendValue.undefined ∧
      fetchCallsOf (sendTelegramMessage (some "TOKEN") (some "") (fun _ => FetchOutcome.ok)).2 = [] ∧
      waitsOf (sendTelegramMessage (some "TOKEN") (some "") (fun _ => FetchOutcome.ok)).2 = []) :=
  ⟨unconfigured_destination_is_noop none (some "CHAT") (fun _ => FetchOutcome.ok) (Or.inl rfl),
   unconfigured_destination_is_noop (some "TOKEN") (some "") (fun _ => FetchOutcome.ok)
     (Or.inr (by decide))⟩

/-! ## Auxiliary facts about contract search -/

/-- The head of the stably sorted list is the first element, in the original
order, among those with the least expiry. -/
theorem head?_insertionSort_expiryLE (l : List Scrip) :
    (l = [] ∧ (l.insertionSort expiryLE).head? = none) ∨
    ∃ s l1 l2, l = l1 ++ s :: l2 ∧ (l.insertionSort expiryLE).head? = some s ∧
      (∀ x ∈ l1, s.expiry < x.expiry) ∧ (∀ x ∈ l2, s.expiry ≤ x.expiry) := by
  induction l with
  | nil => exact Or.inl ⟨rfl, rfl⟩
  | cons a t ih =>
    right
    rcases ih with ⟨ht, -⟩ | ⟨s, l1, l2, hdec, hhead, h1, h2⟩
    · subst ht
      exact ⟨a, [], [], rfl, rfl, by simp, by simp⟩
    · cases hsort : t.insertionSort expiryLE with
      | nil => simp [hsort] at hhead
      | cons b rest =>
        rw [hsort] at hhead
        simp only [List.head?_cons, Option.some.injEq] at hhead
        subst hhead
        by_cases hab : a.expiry ≤ b.expiry
        · refine ⟨a, [], t, rfl, ?_, by simp, ?_⟩
          · simp [List.insertionSort, hsort, List.orderedInsert, expiryLE, hab]
          · intro x hx
            rw [hdec] at hx
            rcases List.mem_append.mp hx with hx1 | hx2
            · exact le_trans hab (le_of_lt (h1 x hx1))
            · rcases List.mem_cons.mp hx2 with rfl | hx3
              · exact hab
              · exact le_trans hab (h2 x hx3)
        · refine ⟨b, a :: l1, l2, by simp [hdec], ?_, ?_, h2⟩
          · simp [List.insertionSort, hsort, List.orderedInsert, expiryLE, hab]
          · intro x hx
            rcases List.mem_cons.mp hx with rfl | hx1
            · exact not_le.mp hab
            · exact h1 x hx1

/-- `findFuturesToken` in terms of the sorted futures of the response. -/
theorem findFuturesToken_ok (rootSymbol : String) (data : Option (List Scrip)) :
    findFuturesToken rootSymbol (Except.ok ⟨data⟩)
      = ((((data.getD []).filter isFuture).insertionSort expiryLE).head?).map
          (fun s => ⟨s.symboltoken, s.tradingsymbol, "NFO", rootSymbol, "FUT"⟩) := by
  cases data with
  | none => simp [findFuturesToken]
  | some d =>
    cases d with
    | nil => simp [findFuturesToken]
    | cons x xs =>
      simp only [findFuturesToken, List.length_cons, Option.getD_some]
      rw [if_pos (Nat.succ_pos _)]
      cases ((x :: xs).filter isFuture).insertionSort expiryLE with
      | nil => rfl
      | cons y ys => rfl

/-- `findOptionToken` in terms of the sorted calls of the response. -/
theorem findOptionToken_ok (rootSymbol : String) (data : Option (List Scrip)) :
    findOptionToken rootSymbol (Except.ok ⟨data⟩)
      = (((((data.getD []).filter isOption).filter isCall).insertionSort expiryLE).head?).map
          (fun s => ⟨s.symboltoken, s.tradingsymbol, "NFO", rootSymbol, "OPT"⟩) := by
  cases data with
  | none => simp [findOptionToken]
  | some d =>
    cases d with
    | nil => simp [findOptionToken]
    | cons x xs =>
      simp only [findOptionToken, List.length_cons, Option.getD_some]
      rw [if_pos (Nat.succ_pos _)]
      cases (((x :: xs).filter isOption).filter isCall).insertionSort expiryLE with
      | nil => rfl
      | cons y ys => rfl

/-- C18. For every contract-search response, a contract returned by
`findFuturesToken` comes from a FUTIDX/FUTSTK contract of the response whose
expiry is no later than that of every FUTIDX/FUTSTK contract of the response, and
is tagged exchange NFO, type FUT and the queried root symbol; the result is null
exactly when the response has no such contract, and also when the search
throws. -/
theorem findFuturesToken_soonest_expiry (rootSymbol : String) (data : Option (List Scrip)) :
    (∀ r, findFuturesToken rootSymbol (Except.ok ⟨data⟩) = some r →
      ∃ s ∈ data.getD [], isFuture s = true ∧
        (∀ s' ∈ data.getD [], isFuture s' = true → s.expiry ≤ s'.expiry) ∧
        r = ⟨s.symboltoken, s.tradingsymbol, "NFO", rootSymbol, "FUT"⟩) ∧
    (findFuturesToken rootSymbol (Except.ok ⟨data⟩) = none ↔
      ∀ s ∈ data.getD [], isFuture s = false) ∧
    (∀ e, findFuturesToken rootSymbol (Except.error e) = none) := by
  rw [findFuturesToken_ok]
  refine ⟨?_, ?_, fun e => rfl⟩
  · intro r hr
    rcases head?_insertionSort_expiryLE ((data.getD []).filter isFuture) with
      ⟨-, hnone⟩ | ⟨s, l1, l2, hdec, hhead, h1, h2⟩
    · rw [hnone] at hr
      exact Option.noConfusion hr
    · rw [hhead] at hr
      simp only [Option.map_some', Option.some.injEq] at hr
      have hmem : s ∈ (data.getD []).filter isFuture := by
        rw [hdec]
        simp
      refine ⟨s, (List.mem_filter.mp hmem).1, (List.mem_filter.mp hmem).2, ?_, hr.symm⟩
      intro s' hs' hfut
      have hs'mem : s' ∈ (data.getD []).filter isFuture := List.mem_filter.mpr ⟨hs', hfut⟩
      rw [hdec] at hs'mem
      rcases List.mem_append.mp hs'mem with hx1 | hx2
      · exact le_of_lt (h1 s' hx1)
      · rcases List.mem_cons.mp hx2 with rfl | hx3
        · exact le_refl _
        · exact h2 s' hx3
  · rcases head?_insertionSort_expiryLE ((data.getD []).filter isFuture) with
      ⟨hnil, hnone⟩ | ⟨s, l1, l2, hdec, hhead, -, -⟩
    · rw [hnone]
      simp only [Option.map_none', true_iff]
      intro s hs
      by_contra hne
      have hfut : isFuture s = true := by simpa using hne
      have : s ∈ (data.getD []).filter isFuture := List.mem_filter.mpr ⟨hs, hfut⟩
      rw [hnil] at this
      exact List.not_mem_nil s this
    · rw [hhead]
      simp only [Option.map_some']
      constructor
      · intro h
        exact Option.noConfusion h
      intro hall
      exfalso
      have hmem : s ∈ (data.getD []).filter isFuture := by
        rw [hdec]
        simp
      have h1 := (List.mem_filter.mp hmem).2
      rw [hall s (List.mem_filter.mp hmem).1] at h1
      exact Bool.noConfusion h1

/-- C18, evaluated: among a December future, a call and a November future the
November future is returned; a response without futures gives null. -/
theorem findFuturesToken_soonest_expiry_witness :
    (∃ s ∈ (some [scripFutDec, scripCall160, scripFutNov]).getD [], isFuture s = true ∧
        s.expiry ≤ scripFutDec.expiry ∧
        (⟨"1001", "TATASTEEL25NOV25FUT", "NFO", "TATASTEEL", "FUT"⟩ : ResolvedScrip)
          = ⟨s.symboltoken, s.tradingsymbol, "NFO", "TATASTEEL", "FUT"⟩) ∧
    findFuturesToken "TATASTEEL" (Except.ok ⟨some [scripCall160, scripPut160]⟩) = none :=
  ⟨((findFuturesToken_soonest_expiry "TATASTEEL"
      (some [scripFutDec, scripCall160, scripFutNov])).1
      ⟨"1001", "TATASTEEL25NOV25FUT", "NFO", "TATASTEEL", "FUT"⟩ (by decide)).elim
      (fun s hs => ⟨s, hs.1, hs.2.1, hs.2.2.1 scripFutDec (by decide) (by decide), hs.2.2.2⟩),
   (findFuturesToken_soonest_expiry "TATASTEEL" (some [scripCall160, scripPut160])).2.1.mpr
      (by decide)⟩

/-- C19. For every contract-search response, a contract returned by
`findOptionToken` comes from a call option `s` of the response (instrument type
OPTIDX or OPTSTK, option type CE) such that, in the response order of these
calls, every call before `s` expires strictly later and every call after `s`
expires no sooner: `s` has the soonest expiry and is the first with it, whatever
its strike. The result is null exactly when the response has no such call, and
also when the search throws. -/
theorem findOptionToken_first_soonest_call (rootSymbol : String) (data : Option (List Scrip)) :
    (∀ r, findOptionToken rootSymbol (Except.ok ⟨data⟩) = some r →
      ∃ s l1 l2, (data.getD []).filter (fun c => isCall c && isOption c) = l1 ++ s :: l2 ∧
        s ∈ data.getD [] ∧ isOption s = true ∧ isCall s = true ∧
        (∀ x ∈ l1, s.expiry < x.expiry) ∧ (∀ x ∈ l2, s.expiry ≤ x.expiry) ∧
        r = ⟨s.symboltoken, s.tradingsymbol, "NFO", rootSymbol, "OPT"⟩) ∧
    (findOptionToken rootSymbol (Except.ok ⟨data⟩) = none ↔
      ∀ s ∈ data.getD [], (isCall s && isOption s) = false) ∧
    (∀ e, findOptionToken rootSymbol (Except.error e) = none) := by
  rw [findOptionToken_ok, List.filter_filter]
  refine ⟨?_, ?_, fun e => rfl⟩
  · intro r hr
    rcases head?_insertionSort_expiryLE ((data.getD []).filter (fun c => isCall c && isOption c))
      with ⟨-, hnone⟩ | ⟨s, l1, l2, hdec, hhead, h1, h2⟩
    · rw [hnone] at hr
      exact Option.noConfusion hr
    · rw [hhead] at hr
      simp only [Option.map_some', Option.some.injEq] at hr
      have hmem : s ∈ (data.getD []).filter (fun c => isCall c && isOption c) := by
        rw [hdec]
        simp
      have hboth := (List.mem_filter.mp hmem).2
      simp only [Bool.and_eq_true] at hboth
      exact ⟨s, l1, l2, hdec, (List.mem_filter.mp hmem).1, hboth.2, hboth.1, h1, h2, hr.symm⟩
  · rcases head?_insertionSort_expiryLE ((data.getD []).filter (fun c => isCall c && isOption c))
      with ⟨hnil, hnone⟩ | ⟨s, l1, l2, hdec, hhead, -, -⟩
    · rw [hnone]
      simp only [Option.map_none', true_iff]
      intro s hs
      by_contra hne
      have hcall : (isCall s && isOption s) = true := by simpa using hne
      have : s ∈ (data.getD []).filter (fun c => isCall c && isOption c) :=
        List.mem_filter.mpr ⟨hs, hcall⟩
      rw [hnil] at this
      exact List.not_mem_nil s this
    · rw [hhead]
      simp only [Option.map_some']
      constructor
      · intro h
        exact Option.noConfusion h
      intro hall
      exfalso
      have hmem : s ∈ (data.getD []).filter (fun c => isCall c && isOption c) := by
        rw [hdec]
        simp
      have h1 := (List.mem_filter.mp hmem).2
      simp only [] at h1
      rw [hall s (List.mem_filter.mp hmem).1] at h1
      exact Bool.noConfusion h1

/-- C19, evaluated: of two calls expiring on the same day, strike 170 listed
before strike 160, the one listed first is returned; a response with only a put
gives null. -/
theorem findOptionToken_first_soonest_call_witness :
    (∃ s l1 l2,
        ((some [scripCallDec, scripPut160, scripCall170, scripCall160]).getD []).filter
          (fun c => isCall c && isOption c) = l1 ++ s :: l2 ∧
        s ∈ (some [scripCallDec, scripPut160, scripCall170, scripCall160]).getD [] ∧
        isOption s = true ∧ isCall s = true ∧
        (⟨"3002", "TATASTEEL25NOV25170CE", "NFO", "TATASTEEL", "OPT"⟩ : ResolvedScrip)
          = ⟨s.symboltoken, s.tradingsymbol, "NFO", "TATASTEEL", "OPT"⟩) ∧
    findOptionToken "TATASTEEL" (Except.ok ⟨some [scripPut160, scripFutNov]⟩) = none :=
  ⟨((findOptionToken_first_soonest_call "TATASTEEL"
      (some [scripCallDec, scripPut160, scripCall170, scripCall160])).1
      ⟨"3002", "TATASTEEL25NOV25170CE", "NFO", "TATASTEEL", "OPT"⟩ (by decide)).elim
      (fun s hs => hs.elim (fun l1 hs1 => hs1.elim (fun l2 h =>
        ⟨s, l1, l2, h.1, h.2.1, h.2.2.1, h.2.2.2.1, h.2.2.2.2.2.2⟩))),
   (findOptionToken_first_soonest_call "TATASTEEL" (some [scripPut160, scripFutNov])).2.1.mpr
      (by decide)⟩

/-! ## Auxiliary facts about the contract cache -/

/-- Reading a map after `set`. -/
theorem getEntry_setEntry {α : Type} (k k' : String) (v : α) (l : List (String × α)) :
    getEntry k' (setEntry k v l) = if k' = k then some v else getEntry k' l := by
  induction l with
  | nil =>
    by_cases h : k' = k
    · simp [setEntry, getEntry, h]
    · have h' : ¬ k = k' := fun e => h e.symm
      simp [setEntry, getEntry, h, h']
  | cons p rest ih =>
    obtain ⟨k0, v0⟩ := p
    by_cases h0 : k0 = k
    · subst h0
      by_cases h : k' = k0
      · simp [setEntry, getEntry, h]
      · have h' : ¬ k0 = k' := fun e => h e.symm
        simp [setEntry, getEntry, h, h']
    · by_cases h1 : k0 = k'
      · subst h1
        simp [setEntry, getEntry, h0]
      · simp [setEntry, getEntry, h0, h1, ih]

/-- The keys after `set`: unchanged for an existing key, one more at the end for
a new key. -/
theorem keys_setEntry {α : Type} (k : String) (v : α) (l : List (String × α)) :
    (setEntry k v l).map Prod.fst
      = if k ∈ l.map Prod.fst then l.map Prod.fst else l.map Prod.fst ++ [k] := by
  induction l with
  | nil => simp [setEntry]
  | cons p rest ih =>
    obtain ⟨k0, v0⟩ := p
    by_cases h0 : k0 = k
    · subst h0
      simp [setEntry]
    · have h0' : ¬ k = k0 := fun e => h0 e.symm
      by_cases hmem : k ∈ rest.map Prod.fst
      · simp only [setEntry, h0, if_false, List.map_cons, ih, hmem, if_true]
        rw [if_pos (List.mem_cons_of_mem _ hmem)]
      · simp only [setEntry, h0, if_false, List.map_cons, ih, hmem]
        have : k ∉ k0 :: rest.map Prod.fst := by
          intro hc
          rcases List.mem_cons.mp hc with h | h
          · exact h0' h
          · exact hmem h
        rw [if_neg this]
        simp

/-- `set` keeps the keys pairwise distinct. -/
theorem nodup_keys_setEntry {α : Type} (k : String) (v : α) (l : List (String × α))
    (h : (l.map Prod.fst).Nodup) : ((setEntry k v l).map Prod.fst).Nodup := by
  rw [keys_setEntry]
  by_cases hmem : k ∈ l.map Prod.fst
  · rw [if_pos hmem]
    exact h
  · rw [if_neg hmem]
    exact List.Nodup.append h (List.nodup_singleton k) (by simpa using hmem)

/-- A key is present exactly when reading it gives a value. -/
theorem mem_keys_iff_getEntry {α : Type} (k : String) (l : List (String × α)) :
    k ∈ l.map Prod.fst ↔ ∃ v, getEntry k l = some v := by
  induction l with
  | nil => simp [getEntry]
  | cons p rest ih =>
    obtain ⟨k0, v0⟩ := p
    by_cases h0 : k0 = k
    · subst h0
      simp [getEntry]
    · have h0' : ¬ k = k0 := fun e => h0 e.symm
      simp [getEntry, h0, h0', ih]

/-- Reading `target.setAll source` when the keys of `source` are pairwise
distinct: the value of `source` if it has the key, else the value of `target`. -/
theorem getEntry_foldl_set {α : Type} (source : List (String × α)) (target : JSMap α)
    (k : String) (hnodup : (source.map Prod.fst).Nodup) :
    getEntry k (source.foldl (fun acc kv => acc.set kv.1 kv.2) target).entries
      = match getEntry k source with
        | some v => some v
        | none => getEntry k target.entries := by
  induction source generalizing target with
  | nil => simp [getEntry]
  | cons p rest ih =>
    obtain ⟨k0, v0⟩ := p
    have hrest : (rest.map Prod.fst).Nodup := (List.nodup_cons.mp hnodup).2
    have hk0 : k0 ∉ rest.map Prod.fst := (List.nodup_cons.mp hnodup).1
    rw [List.foldl_cons, ih _ hrest]
    by_cases h0 : k0 = k
    · subst h0
      have hnone : getEntry k0 rest = none := by
        cases hget : getEntry k0 rest with
        | none => rfl
        | some v => exact absurd ((mem_keys_iff_getEntry k0 rest).mpr ⟨v, hget⟩) hk0
      simp [hnone, JSMap.set, getEntry_setEntry, getEntry]
    · have h0' : ¬ k = k0 := fun e => h0 e.symm
      simp [JSMap.set, getEntry_setEntry, getEntry, h0, h0']

/-- The keys of `target.setAll source` stay pairwise distinct. -/
theorem nodup_keys_foldl_set {α : Type} (source : List (String × α)) (target : JSMap α)
    (h : (target.entries.map Prod.fst).Nodup) :
    ((source.foldl (fun acc kv => acc.set kv.1 kv.2) target).entries.map Prod.fst).Nodup := by
  induction source generalizing target with
  | nil => exact h
  | cons p rest ih =>
    rw [List.foldl_cons]
    exact ih _ (nodup_keys_setEntry _ _ _ h)

/-- Every value read from a map after `set` satisfies a property that the new
value and all old values satisfy. -/
theorem forall_values_setEntry {α : Type} (P : α → Prop) (k : String) (v : α)
    (l : List (String × α)) (hv : P v) (hl : ∀ kv ∈ l, P kv.2) :
    ∀ kv ∈ setEntry k v l, P kv.2 := by
  induction l with
  | nil =>
    intro kv hkv
    simp only [setEntry, List.mem_singleton] at hkv
    subst hkv
    exact hv
  | cons p rest ih =>
    obtain ⟨k0, v0⟩ := p
    intro kv hkv
    by_cases h0 : k0 = k
    · simp only [setEntry, h0, if_true, List.mem_cons] at hkv
      rcases hkv with rfl | hkv
      · exact hv
      · exact hl kv (List.mem_cons_of_mem _ hkv)
    · simp only [setEntry, h0, if_false, List.mem_cons] at hkv
      rcases hkv with rfl | hkv
      · exact hl _ (List.mem_cons_self _ _)
      · exact ih (fun kv hkv => hl kv (List.mem_cons_of_mem _ hkv)) kv hkv

/-- A value read from a map is the value of one of its entries. -/
theorem getEntry_mem {α : Type} (k : String) (l : List (String × α)) (v : α)
    (h : getEntry k l = some v) : (k, v) ∈ l := by
  induction l with
  | nil => simp [getEntry] at h
  | cons p rest ih =>
    obtain ⟨k0, v0⟩ := p
    by_cases h0 : k0 = k
    · subst h0
      simp only [getEntry, if_true, Option.some.injEq] at h
      subst h
      exact List.mem_cons_self _ _
    · simp only [getEntry, h0, if_false] at h
      exact List.mem_cons_of_mem _ (ih h)

/-- The loop of `fetchAndProcessSymbols` keeps the keys pairwise distinct and
gives every entry it adds the category of the list being resolved. -/
theorem processSymbols_invariant (SCAN_TYPE : String) (api : SmartAPI)
    (dataType categoryName : String) (symbols : List Mover) (i : ℕ) (tempCache : JSMap CacheEntry)
    (hnodup : (tempCache.entries.map Prod.fst).Nodup)
    (hcat : ∀ kv ∈ tempCache.entries, kv.2.category = categoryName) :
    ((processSymbols SCAN_TYPE api dataType categoryName i symbols tempCache).entries.map
        Prod.fst).Nodup ∧
    ∀ kv ∈ (processSymbols SCAN_TYPE api dataType categoryName i symbols tempCache).entries,
      kv.2.category = categoryName := by
  induction symbols generalizing i tempCache with
  | nil => exact ⟨hnodup, hcat⟩
  | cons symbol rest ih =>
    unfold processSymbols
    cases hres : resolveMover SCAN_TYPE api dataType i symbol with
    | none => exact ih (i + 1) tempCache hnodup hcat
    | some scrip =>
      apply ih
      · exact nodup_keys_setEntry _ _ _ hnodup
      · exact forall_values_setEntry (fun e : CacheEntry => e.category = categoryName) _ _ _ rfl hcat

/-- The map returned by `fetchAndProcessSymbols` has pairwise distinct keys, and
all its entries carry the category of the queried list. -/
theorem fetchAndProcessSymbols_invariant (MAX_SYMBOLS : ℕ) (SCAN_TYPE : String) (api : SmartAPI)
    (dataType : String) :
    ((fetchAndProcessSymbols MAX_SYMBOLS SCAN_TYPE api dataType).entries.map Prod.fst).Nodup ∧
    ∀ kv ∈ (fetchAndProcessSymbols MAX_SYMBOLS SCAN_TYPE api dataType).entries,
      kv.2.category = if dataType = "PercPriceGainers" then "Gainers" else "Losers" := by
  unfold fetchAndProcessSymbols
  cases api.gainersLosers dataType with
  | error e => simp [JSMap.empty]
  | ok response =>
    obtain ⟨status, data⟩ := response
    cases data with
    | none => simp [JSMap.empty]
    | some data =>
      simp only []
      by_cases hguard : (!status || decide (data.length = 0)) = true
      · rw [if_pos hguard]
        simp [JSMap.empty]
      · rw [if_neg hguard]
        exact processSymbols_invariant _ _ _ _ _ _ _ (by simp [JSMap.empty])
          (by simp [JSMap.empty])

/-- C16. After `pollTopGainersAndLosers` (run with the API client set), the cache
is built from an empty map: its keys are exactly the gainer-resolution tokens
together with the loser-resolution tokens; a token that is not a loser token maps
to the gainer entry; a loser token maps to the loser entry, whose category is
Losers, also when it is a gainer token too; the keys are pairwise distinct; and
the result does not depend on the previous cache. -/
theorem refreshed_cache_is_union (MAX_SYMBOLS : ℕ) (SCAN_TYPE : String) (api : SmartAPI)
    (tokenCache : JSMap CacheEntry) :
    (∀ k, k ∈ (pollTopGainersAndLosers MAX_SYMBOLS SCAN_TYPE (some api) tokenCache).keys ↔
      k ∈ (fetchAndProcessSymbols MAX_SYMBOLS SCAN_TYPE api "PercPriceGainers").keys ∨
      k ∈ (fetchAndProcessSymbols MAX_SYMBOLS SCAN_TYPE api "PercPriceLosers").keys) ∧
    (∀ k, k ∉ (fetchAndProcessSymbols MAX_SYMBOLS SCAN_TYPE api "PercPriceLosers").keys →
      (pollTopGainersAndLosers MAX_SYMBOLS SCAN_TYPE (some api) tokenCache).get? k
        = (fetchAndProcessSymbols MAX_SYMBOLS SCAN_TYPE api "PercPriceGainers").get? k) ∧
    (∀ k, k ∈ (fetchAndProcessSymbols MAX_SYMBOLS SCAN_TYPE api "PercPriceLosers").keys →
      (pollTopGainersAndLosers MAX_SYMBOLS SCAN_TYPE (some api) tokenCache).get? k
        = (fetchAndProcessSymbols MAX_SYMBOLS SCAN_TYPE api "PercPriceLosers").get? k ∧
      ∃ e, (pollTopGainersAndLosers MAX_SYMBOLS SCAN_TYPE (some api) tokenCache).get? k = some e ∧
        e.category = "Losers") ∧
    (pollTopGainersAndLosers MAX_SYMBOLS SCAN_TYPE (some api) tokenCache).keys.Nodup ∧
    pollTopGainersAndLosers MAX_SYMBOLS SCAN_TYPE (some api) tokenCache
      = pollTopGainersAndLosers MAX_SYMBOLS SCAN_TYPE (some api) JSMap.empty := by
  have hg := fetchAndProcessSymbols_invariant MAX_SYMBOLS SCAN_TYPE api "PercPriceGainers"
  have hl := fetchAndProcessSymbols_invariant MAX_SYMBOLS SCAN_TYPE api "PercPriceLosers"
  have hget : ∀ k, (pollTopGainersAndLosers MAX_SYMBOLS SCAN_TYPE (some api) tokenCache).get? k
      = match (fetchAndProcessSymbols MAX_SYMBOLS SCAN_TYPE api "PercPriceLosers").get? k with
        | some v => some v
        | none => (fetchAndProcessSymbols MAX_SYMBOLS SCAN_TYPE api "PercPriceGainers").get? k := by
    intro k
    simp only [pollTopGainersAndLosers, JSMap.setAll, JSMap.get?]
    rw [getEntry_foldl_set _ _ k hl.1, getEntry_foldl_set _ _ k hg.1]
    cases getEntry k (fetchAndProcessSymbols MAX_SYMBOLS SCAN_TYPE api "PercPriceLosers").entries with
    | some v => rfl
    | none =>
      cases getEntry k
        (fetchAndProcessSymbols MAX_SYMBOLS SCAN_TYPE api "PercPriceGainers").entries with
      | some v => rfl
      | none => rfl
  refine ⟨?_, ?_, ?_, ?_, rfl⟩
  · intro k
    simp only [JSMap.keys, mem_keys_iff_getEntry]
    have hk := hget k
    simp only [JSMap.get?] at hk
    rw [hk]
    cases getEntry k (fetchAndProcessSymbols MAX_SYMBOLS SCAN_TYPE api "PercPriceLosers").entries with
    | some v => simp
    | none => simp
  · intro k hk
    have hnone : (fetchAndProcessSymbols MAX_SYMBOLS SCAN_TYPE api "PercPriceLosers").get? k
        = none := by
      cases hc : (fetchAndProcessSymbols MAX_SYMBOLS SCAN_TYPE api "PercPriceLosers").get? k with
      | none => rfl
      | some v => exact absurd ((mem_keys_iff_getEntry k _).mpr ⟨v, hc⟩) hk
    rw [hget k, hnone]
  · intro k hk
    obtain ⟨v, hv⟩ := (mem_keys_iff_getEntry k _).mp hk
    have hv' : (fetchAndProcessSymbols MAX_SYMBOLS SCAN_TYPE api "PercPriceLosers").get? k
        = some v := hv
    have hcat := hl.2 (k, v) (getEntry_mem k _ v hv)
    rw [hget k, hv']
    exact ⟨rfl, v, rfl, by simpa using hcat⟩
  · simp only [pollTopGainersAndLosers, JSMap.setAll, JSMap.keys]
    apply nodup_keys_foldl_set
    apply nodup_keys_foldl_set
    simp [JSMap.empty]

/-- C16, evaluated with gainers TATASTEEL, INFY and losers WIPRO, TATASTEEL,
starting from a cache that holds a stale token 9999: token 4001 (gainer only)
keeps the gainer entry, token 1001 (in both) gets the loser entry, and 9999 is
gone. -/
theorem refreshed_cache_is_union_witness :
    (pollTopGainersAndLosers 3 "FUT" (some demoAPI)
        ⟨[("9999", ⟨"9999", "OLD25OCT25FUT", "NFO", "OLD", "FUT", "Gainers"⟩)]⟩).get? "4001"
      = (fetchAndProcessSymbols 3 "FUT" demoAPI "PercPriceGainers").get? "4001" ∧
    ((pollTopGainersAndLosers 3 "FUT" (some demoAPI)
        ⟨[("9999", ⟨"9999", "OLD25OCT25FUT", "NFO", "OLD", "FUT", "Gainers"⟩)]⟩).get? "1001"
      = (fetchAndProcessSymbols 3 "FUT" demoAPI "PercPriceLosers").get? "1001" ∧
      ∃ e, (pollTopGainersAndLosers 3 "FUT" (some demoAPI)
        ⟨[("9999", ⟨"9999", "OLD25OCT25FUT", "NFO", "OLD", "FUT", "Gainers"⟩)]⟩).get? "1001"
          = some e ∧ e.category = "Losers") ∧
    ("9999" ∈ (pollTopGainersAndLosers 3 "FUT" (some demoAPI)
        ⟨[("9999", ⟨"9999", "OLD25OCT25FUT", "NFO", "OLD", "FUT", "Gainers"⟩)]⟩).keys ↔
      "9999" ∈ (fetchAndProcessSymbols 3 "FUT" demoAPI "PercPriceGainers").keys ∨
      "9999" ∈ (fetchAndProcessSymbols 3 "FUT" demoAPI "PercPriceLosers").keys) :=
  ⟨(refreshed_cache_is_union 3 "FUT" demoAPI
      ⟨[("9999", ⟨"9999", "OLD25OCT25FUT", "NFO", "OLD", "FUT", "Gainers"⟩)]⟩).2.1 "4001"
      (by decide),
   (refreshed_cache_is_union 3 "FUT" demoAPI
      ⟨[("9999", ⟨"9999", "OLD25OCT25FUT", "NFO", "OLD", "FUT", "Gainers"⟩)]⟩).2.2.1 "1001"
      (by decide),
   (refreshed_cache_is_union 3 "FUT" demoAPI
      ⟨[("9999", ⟨"9999", "OLD25OCT25FUT", "NFO", "OLD", "FUT", "Gainers"⟩)]⟩).1 "9999"⟩

/-- C17, as stated, fails in two ways. (1) With `MAX_SYMBOLS = 3` and the movers
TATASTEEL25NOV25FUT, TATASTEEL30DEC25FUT, SBIN25NOV25FUT, the search for SBIN
throws and the two others are resolved, both to the nearest TATASTEEL future
(token 1001): the mapping, keyed by token, has 1 entry. (2) With
`MAX_SYMBOLS = 2` and the movers TATASTEEL, SBIN (fails), INFY, only the first two
movers are processed and the mapping has 1 entry. -/
theorem one_miss_can_leave_one_entry :
    (resolveMover "FUT" sameRootAPI "PercPriceGainers" 0 ⟨"TATASTEEL25NOV25FUT"⟩
        = some ⟨"1001", "TATASTEEL25NOV25FUT", "NFO", "TATASTEEL", "FUT"⟩ ∧
      resolveMover "FUT" sameRootAPI "PercPriceGainers" 1 ⟨"TATASTEEL30DEC25FUT"⟩
        = some ⟨"1001", "TATASTEEL25NOV25FUT", "NFO", "TATASTEEL", "FUT"⟩ ∧
      resolveMover "FUT" sameRootAPI "PercPriceGainers" 2 ⟨"SBIN25NOV25FUT"⟩ = none ∧
      (fetchAndProcessSymbols 3 "FUT" sameRootAPI "PercPriceGainers").size = 1) ∧
    (resolveMover "FUT" oneMissAPI "PercPriceGainers" 0 ⟨"TATASTEEL25NOV25FUT"⟩
        = some ⟨"1001", "TATASTEEL25NOV25FUT", "NFO", "TATASTEEL", "FUT"⟩ ∧
      resolveMover "FUT" oneMissAPI "PercPriceGainers" 1 ⟨"SBIN25NOV25FUT"⟩ = none ∧
      resolveMover "FUT" oneMissAPI "PercPriceGainers" 2 ⟨"INFY25NOV25FUT"⟩
        = some ⟨"4001", "INFY25NOV25FUT", "NFO", "INFY", "FUT"⟩ ∧
      (fetchAndProcessSymbols 2 "FUT" oneMissAPI "PercPriceGainers").size = 1) := by
  decide

/-- C17, amended. With `MAX_SYMBOLS ≥ 3`, for every movers list of 3 symbols in
which exactly 1 symbol fails contract search and the other 2 are resolved to
contracts with different tokens, `fetchAndProcessSymbols` returns a mapping with
exactly 2 entries, and each resolved contract is in it under its token: the
failure does not abort the resolution of the other movers. -/
theorem three_movers_one_miss (MAX_SYMBOLS : ℕ) (SCAN_TYPE : String) (api : SmartAPI)
    (dataType : String) (m0 m1 m2 : Mover) (hmax : 3 ≤ MAX_SYMBOLS)
    (hresp : api.gainersLosers dataType = Except.ok ⟨true, some [m0, m1, m2]⟩)
    (hone : ([resolveMover SCAN_TYPE api dataType 0 m0, resolveMover SCAN_TYPE api dataType 1 m1,
        resolveMover SCAN_TYPE api dataType 2 m2].filter Option.isNone).length = 1)
    (hdistinct : (([resolveMover SCAN_TYPE api dataType 0 m0,
        resolveMover SCAN_TYPE api dataType 1 m1,
        resolveMover SCAN_TYPE api dataType 2 m2].filterMap id).map ResolvedScrip.token).Nodup) :
    (fetchAndProcessSymbols MAX_SYMBOLS SCAN_TYPE api dataType).size = 2 ∧
    ∀ s ∈ [resolveMover SCAN_TYPE api dataType 0 m0, resolveMover SCAN_TYPE api dataType 1 m1,
        resolveMover SCAN_TYPE api dataType 2 m2].filterMap id,
      ∃ e, (fetchAndProcessSymbols MAX_SYMBOLS SCAN_TYPE api dataType).get? s.token = some e ∧
        e.tradingSymbol = s.tradingSymbol ∧ e.rootSymbol = s.rootSymbol := by
  have htake : [m0, m1, m2].take MAX_SYMBOLS = [m0, m1, m2] :=
    List.take_of_length_le (by simpa using hmax)
  have hrun : fetchAndProcessSymbols MAX_SYMBOLS SCAN_TYPE api dataType
      = processSymbols SCAN_TYPE api dataType
          (if dataType = "PercPriceGainers" then "Gainers" else "Losers") 0 [m0, m1, m2]
          JSMap.empty := by
    simp [fetchAndProcessSymbols, hresp, htake]
  rw [hrun]
  obtain ⟨r0, h0⟩ : ∃ r, resolveMover SCAN_TYPE api dataType 0 m0 = r := ⟨_, rfl⟩
  obtain ⟨r1, h1⟩ : ∃ r, resolveMover SCAN_TYPE api dataType 1 m1 = r := ⟨_, rfl⟩
  obtain ⟨r2, h2⟩ : ∃ r, resolveMover SCAN_TYPE api dataType 2 m2 = r := ⟨_, rfl⟩
  rw [h0, h1, h2] at hone hdistinct ⊢
  cases r0 with
  | none =>
    cases r1 with
    | none => simp at hone
    | some s1 =>
      cases r2 with
      | none => simp at hone
      | some s2 =>
        have hne : ¬ s1.token = s2.token := by simpa using hdistinct
        have hne' : ¬ s2.token = s1.token := fun e => hne e.symm
        simp [processSymbols, h0, h1, h2, JSMap.set, JSMap.empty, setEntry, JSMap.size,
          JSMap.get?, getEntry, hne, hne']
  | some s0 =>
    cases r1 with
    | none =>
      cases r2 with
      | none => simp at hone
      | some s2 =>
        have hne : ¬ s0.token = s2.token := by simpa using hdistinct
        have hne' : ¬ s2.token = s0.token := fun e => hne e.symm
        simp [processSymbols, h0, h1, h2, JSMap.set, JSMap.empty, setEntry, JSMap.size,
          JSMap.get?, getEntry, hne, hne']
    | some s1 =>
      cases r2 with
      | none =>
        have hne : ¬ s0.token = s1.token := by simpa using hdistinct
        have hne' : ¬ s1.token = s0.token := fun e => hne e.symm
        simp [processSymbols, h0, h1, h2, JSMap.set, JSMap.empty, setEntry, JSMap.size,
          JSMap.get?, getEntry, hne, hne']
      | some s2 => simp at hone

/-- C17 amended, evaluated: with `MAX_SYMBOLS = 3` and the movers TATASTEEL, SBIN
(the search throws), INFY, the mapping has the 2 entries 1001 and 4001. -/
theorem three_movers_one_miss_witness :
    (fetchAndProcessSymbols 3 "FUT" oneMissAPI "PercPriceGainers").size = 2 ∧
    ∃ e, (fetchAndProcessSymbols 3 "FUT" oneMissAPI "PercPriceGainers").get? "4001" = some e ∧
      e.tradingSymbol = "INFY25NOV25FUT" ∧ e.rootSymbol = "INFY" :=
  ⟨(three_movers_one_miss 3 "FUT" oneMissAPI "PercPriceGainers" ⟨"TATASTEEL25NOV25FUT"⟩
      ⟨"SBIN25NOV25FUT"⟩ ⟨"INFY25NOV25FUT"⟩ (le_refl 3) rfl (by decide) (by decide)).1,
   (three_movers_one_miss 3 "FUT" oneMissAPI "PercPriceGainers" ⟨"TATASTEEL25NOV25FUT"⟩
      ⟨"SBIN25NOV25FUT"⟩ ⟨"INFY25NOV25FUT"⟩ (le_refl 3) rfl (by decide) (by decide)).2
      ⟨"4001", "INFY25NOV25FUT", "NFO", "INFY", "FUT"⟩ (by decide)⟩

/-- C20. In `checkCandleStatusAndAlert` of `automationCode.js`, for every open
that parses to a number > 0 and every numeric ltp exactly one message is
printed, decided by the comparison of ltp with open alone: BULLISH iff
ltp > open, BEARISH iff ltp < open, INDECISION iff ltp = open. When open is not a
number or is ≤ 0, nothing is printed. -/
theorem single_signal_classification (parsedOpen parsedLtp : ℚ) (ltp : Option ℚ) :
    (0 < parsedOpen →
      ∃ c, checkCandleStatusAndAlert (some parsedOpen) (some parsedLtp) = some c ∧
        (c = CandleStatus.BULLISH ↔ parsedLtp > parsedOpen) ∧
        (c = CandleStatus.BEARISH ↔ parsedLtp < parsedOpen) ∧
        (c = CandleStatus.INDECISION ↔ parsedLtp = parsedOpen)) ∧
    (parsedOpen ≤ 0 → checkCandleStatusAndAlert (some parsedOpen) ltp = none) ∧
    checkCandleStatusAndAlert none ltp = none := by
  refine ⟨?_, ?_, rfl⟩
  · intro hpos
    have hnot : ¬ parsedOpen ≤ 0 := not_le.mpr hpos
    rcases lt_trichotomy parsedLtp parsedOpen with hlt | heq | hgt
    · refine ⟨CandleStatus.BEARISH, ?_, ?_, ?_, ?_⟩
      · simp [checkCandleStatusAndAlert, hnot, hlt, not_lt.mpr hlt.le]
      · simp [not_lt.mpr hlt.le]
      · simp [hlt]
      · simp [ne_of_lt hlt]
    · refine ⟨CandleStatus.INDECISION, ?_, ?_, ?_, ?_⟩
      · simp [checkCandleStatusAndAlert, hnot, heq]
      · simp [heq]
      · simp [heq]
      · simp [heq]
    · refine ⟨CandleStatus.BULLISH, ?_, ?_, ?_, ?_⟩
      · simp [checkCandleStatusAndAlert, hnot, hgt]
      · simp [hgt]
      · simp [not_lt.mpr hgt.le]
      · simp [ne_of_gt hgt]
  · intro hle
    simp [checkCandleStatusAndAlert, hle]

/-- C20, evaluated: open 100 with ltp 101 prints the BULLISH message, and an
open of 0 prints nothing. -/
theorem single_signal_classification_witness :
    (∃ c, checkCandleStatusAndAlert (some 100) (some 101) = some c ∧
        (c = CandleStatus.BULLISH ↔ (101 : ℚ) > 100) ∧
        (c = CandleStatus.BEARISH ↔ (101 : ℚ) < 100) ∧
        (c = CandleStatus.INDECISION ↔ (101 : ℚ) = 100)) ∧
    checkCandleStatusAndAlert (some 0) (some 101) = none :=
  ⟨(single_signal_classification 100 101 none).1 (by norm_num),
   (single_signal_classification 0 101 (some 101)).2.1 (le_refl 0)⟩

/-! ## Claims on the alert reasons, the startup and the refresh -/

/-- The alert of `alertDecision` is made of the locals `alertType` and `reasons`
that step 2 leaves. -/
theorem alertDecision_eq_alertLocals (parsedOpen parsedLtp e v threshold : ℚ) :
    alertDecision parsedOpen parsedLtp e v threshold
      = match alertLocals parsedOpen parsedLtp e v threshold with
        | (some alertType, reasons) => some ⟨alertType, reasons⟩
        | (none, _) => none := by
  unfold alertDecision alertLocals
  simp only []
  split_ifs <;> rfl

/-- The reasons of an alert of `alertDecision`. -/
theorem alertDecision_reasons {parsedOpen parsedLtp e v threshold : ℚ} {a : Alert}
    (h : alertDecision parsedOpen parsedLtp e v threshold = some a) :
    a.reasons = [Reason.thickCandle ((parsedLtp - parsedOpen) / parsedOpen * 100),
      Reason.ltpVsEMA parsedLtp e, Reason.ltpVsVWAP parsedLtp v] := by
  unfold alertDecision at h
  simp only [] at h
  split_ifs at h <;> cases h <;> rfl

/-- C21. Whenever `checkCandleStrengthAndAlert` raises an alert (BULLISH or
BEARISH), the alert carries exactly three reasons, in this order: the momentum
magnitude with `percentMove`, the LTP-vs-EMA comparison with both numbers, the
LTP-vs-VWAP comparison with both numbers. Whenever no alert is raised, step 3
does nothing (no output and no dispatch), and the local `reasons` is empty
whenever the local `alertType` is still null. -/
theorem alert_carries_three_reasons (token chat : Option String) (fetch : ℕ → FetchOutcome)
    (period : ℕ) (threshold ltp : ℚ) (candleData : List Candle) :
    (∀ a, checkCandleStrengthAndAlert period threshold candleData ltp = Except.ok (some a) →
      ∃ lastCandle parsedOpen e v,
        candleData.getLast? = some lastCandle ∧ lastCandle.open_ = some parsedOpen ∧
        calculateEMA candleData period = JSVal.num e ∧ calculateVWAP candleData = JSVal.num v ∧
        a.reasons = [Reason.thickCandle ((ltp - parsedOpen) / parsedOpen * 100),
          Reason.ltpVsEMA ltp e, Reason.ltpVsVWAP ltp v]) ∧
    (checkCandleStrengthAndAlert period threshold candleData ltp = Except.ok none →
      checkCandleStrengthAndAlertEffects token chat fetch period threshold candleData ltp = []) ∧
    (∀ parsedOpen e v, (alertLocals parsedOpen ltp e v threshold).1 = none →
      (alertLocals parsedOpen ltp e v threshold).2 = []) := by
  refine ⟨?_, ?_, ?_⟩
  · intro a h
    obtain ⟨lastCandle, parsedOpen, e, v, hlast, hopen, -, hema, hvwap, -, -, hdec⟩ :=
      check_alert_inv h
    exact ⟨lastCandle, parsedOpen, e, v, hlast, hopen, hema, hvwap, alertDecision_reasons hdec⟩
  · intro h
    simp [checkCandleStrengthAndAlertEffects, h, triggerAlert]
  · intro parsedOpen e v h
    unfold alertLocals at h ⊢
    simp only [] at h ⊢
    split_ifs at h ⊢ <;> rfl

/-- C21, evaluated: the BEARISH alert for open 100, ltp 99.8, EMA 99.9, VWAP 99.95
has its three reasons, and the same move against a VWAP of 99.7 dispatches
nothing. -/
theorem alert_carries_three_reasons_witness :
    (∃ lastCandle parsedOpen e v,
        [barBearish].getLast? = some lastCandle ∧ lastCandle.open_ = some parsedOpen ∧
        calculateEMA [barBearish] 1 = JSVal.num e ∧ calculateVWAP [barBearish] = JSVal.num v ∧
        [Reason.thickCandle (-1 / 5), Reason.ltpVsEMA (499 / 5) (999 / 10),
            Reason.ltpVsVWAP (499 / 5) (1999 / 20)]
          = [Reason.thickCandle ((499 / 5 - parsedOpen) / parsedOpen * 100),
            Reason.ltpVsEMA (499 / 5) e, Reason.ltpVsVWAP (499 / 5) v]) ∧
    checkCandleStrengthAndAlertEffects (some "TOKEN") (some "CHAT") (fun _ => FetchOutcome.ok) 1
      (1 / 20) [barDisagree] (499 / 5) = [] :=
  ⟨(alert_carries_three_reasons none none (fun _ => FetchOutcome.ok) 1 (1 / 20) (499 / 5)
      [barBearish]).1
      ⟨AlertType.BEARISH, [Reason.thickCandle (-1 / 5), Reason.ltpVsEMA (499 / 5) (999 / 10),
        Reason.ltpVsVWAP (499 / 5) (1999 / 20)]⟩
      (by norm_num [checkCandleStrengthAndAlert, calculateEMA, calculateVWAP, vwapStep, emaStep,
            alertDecision, JSVal.truthy, barBearish, le_abs]),
   (alert_carries_three_reasons (some "TOKEN") (some "CHAT") (fun _ => FetchOutcome.ok) 1
      (1 / 20) (499 / 5) [barDisagree]).2.1
      (by norm_num [checkCandleStrengthAndAlert, calculateEMA, calculateVWAP, vwapStep, emaStep,
            alertDecision, JSVal.truthy, barDisagree, le_abs])⟩

/-- C22, as stated, fails: with a valid scan type, the interval `TWO_MINUTE`,
which is outside `ALLOWED_INTERVALS`, and a successful login, startup does not
halt; it enters the polling loop with the interval `ONE_MINUTE`. -/
theorem invalid_interval_does_not_halt :
    ALLOWED_INTERVALS.contains "TWO_MINUTE" = false ∧
    executeSmartAPIActions (some "TOKEN") (some "CHAT") (fun _ => FetchOutcome.ok) "FUT"
      "TWO_MINUTE" true = StartupOutcome.polling "FUT" "ONE_MINUTE" := by
  decide

/-- C22, amended. An invalid bar interval supplied at startup is not fatal: it is
reported and replaced by `ONE_MINUTE`, startup goes on exactly as if `ONE_MINUTE`
had been entered, and whenever the polling loop is entered its interval is one of
the enumerated set, so no polling cycle runs with the invalid value. -/
theorem invalid_interval_defaults (token chat : Option String) (fetch : ℕ → FetchOutcome)
    (scanTypeInput intervalInput : String) (sessionOk : Bool) :
    (ALLOWED_INTERVALS.contains intervalInput = false →
      chooseCandleInterval intervalInput = ("ONE_MINUTE", [Effect.consoleError]) ∧
      executeSmartAPIActions token chat fetch scanTypeInput intervalInput sessionOk
        = executeSmartAPIActions token chat fetch scanTypeInput "ONE_MINUTE" sessionOk) ∧
    (∀ scanType interval,
      executeSmartAPIActions token chat fetch scanTypeInput intervalInput sessionOk
        = StartupOutcome.polling scanType interval →
      ALLOWED_INTERVALS.contains interval = true) := by
  have hchoose : ALLOWED_INTERVALS.contains (chooseCandleInterval intervalInput).1 = true := by
    unfold chooseCandleInterval
    by_cases h : ALLOWED_INTERVALS.contains intervalInput = true
    · rw [if_pos h]
      exact h
    · rw [if_neg h]
      decide
  constructor
  · intro hbad
    have h1 : chooseCandleInterval intervalInput = ("ONE_MINUTE", [Effect.consoleError]) := by
      unfold chooseCandleInterval
      rw [hbad]
      rfl
    have h2 : chooseCandleInterval "ONE_MINUTE" = ("ONE_MINUTE", []) := by decide
    refine ⟨h1, ?_⟩
    simp only [executeSmartAPIActions, h1, h2]
  · intro scanType interval h
    unfold executeSmartAPIActions at h
    by_cases hscan : scanTypeInput ≠ "OPT" ∧ scanTypeInput ≠ "FUT"
    · rw [if_pos hscan] at h
      exact StartupOutcome.noConfusion h
    · rw [if_neg hscan] at h
      simp only [] at h
      cases hw : (startupWelcomeStep token chat fetch).1 with
      | error e =>
        rw [hw] at h
        exact StartupOutcome.noConfusion h
      | ok u =>
        rw [hw] at h
        cases sessionOk with
        | false => exact StartupOutcome.noConfusion h
        | true =>
          simp only [if_true] at h
          injection h with hs hi
          rw [← hi]
          exact hchoose

/-- C22 amended, evaluated: the input `TWO_MINUTE` is replaced by `ONE_MINUTE`,
startup ends as it does for `ONE_MINUTE`, and the interval of the polling loop
is an allowed one. -/
theorem invalid_interval_defaults_witness :
    (chooseCandleInterval "TWO_MINUTE" = ("ONE_MINUTE", [Effect.consoleError]) ∧
      executeSmartAPIActions (some "TOKEN") (some "CHAT") (fun _ => FetchOutcome.ok) "FUT"
          "TWO_MINUTE" true
        = executeSmartAPIActions (some "TOKEN") (some "CHAT") (fun _ => FetchOutcome.ok) "FUT"
          "ONE_MINUTE" true) ∧
    ALLOWED_INTERVALS.contains "ONE_MINUTE" = true :=
  ⟨(invalid_interval_defaults (some "TOKEN") (some "CHAT") (fun _ => FetchOutcome.ok) "FUT"
      "TWO_MINUTE" true).1 (by decide),
   (invalid_interval_defaults (some "TOKEN") (some "CHAT") (fun _ => FetchOutcome.ok) "FUT"
      "TWO_MINUTE" true).2 "FUT" "ONE_MINUTE" (by decide)⟩

/-- C23, at the input where the movers query throws for both categories while
the cache holds the contract 9999 of an earlier refresh: after
`pollTopGainersAndLosers` the cache is empty, not the cache before, and the next
data cycle is idle where, on the cache before, it would request and evaluate
token 9999. The same happens when the query answers with a non-success response
and with an empty list. -/
theorem failed_refresh_empties_cache :
    failingMoversAPI.gainersLosers "PercPriceGainers" = Except.error "network" ∧
    failingMoversAPI.gainersLosers "PercPriceLosers" = Except.error "network" ∧
    staleCache.keys = ["9999"] ∧
    (pollTopGainersAndLosers 3 "FUT" (some failingMoversAPI) staleCache).entries = [] ∧
    (pollTopGainersAndLosers 3 "FUT" (some emptyMoversAPI) staleCache).entries = [] ∧
    pollDataAndCheckStrategy 2 (1 / 20) quoteAllAPI
        (pollTopGainersAndLosers 3 "FUT" (some failingMoversAPI) staleCache)
      = CycleResult.idle ∧
    pollDataAndCheckStrategy 2 (1 / 20) quoteAllAPI staleCache
      = CycleResult.completed ["9999"] [("9999", TokenOutcome.checked none)] := by
  refine ⟨rfl, rfl, rfl, rfl, rfl, rfl, ?_⟩
  norm_num [pollDataAndCheckStrategy, dataCycleStart, dataCycleResume, quoteAllAPI, staleCache,
    JSMap.size, JSMap.keys, buildLiveLTPData, dataLoop, evaluateToken, setEntry, getEntry,
    tokenTryBody, checkCandleStrengthAndAlert, calculateEMA, calculateVWAP, vwapStep, emaStep,
    alertDecision, JSVal.truthy, barFlat, barUp, le_abs]

/-! ## Claims on the data cycle -/

/-- The loop of the data cycle treats the tokens one by one: its result is the
list of the outcomes of the cached tokens, in cache order. -/
theorem dataLoop_eq_map (period : ℕ) (threshold : ℚ) (api : DataAPI)
    (liveLTPData : List (String × ℚ)) (entries : List (String × CacheEntry)) :
    dataLoop period threshold api liveLTPData entries
      = entries.map (fun kv => (kv.1, evaluateToken period threshold api liveLTPData kv.1)) := by
  induction entries with
  | nil => rfl
  | cons kv rest ih =>
    obtain ⟨token, metadata⟩ := kv
    simp only [dataLoop, List.map_cons, ih]

/-- The outcome for a token depends on the bar collaborator only through its
answer for that token. -/
theorem evaluateToken_congr (period : ℕ) (threshold : ℚ)
    (marketData : List String → Except String MarketDataResponse)
    (g g' : String → Except String HistoryResponse) (liveLTPData : List (String × ℚ))
    (token : String) (h : g token = g' token) :
    evaluateToken period threshold ⟨marketData, g⟩ liveLTPData token
      = evaluateToken period threshold ⟨marketData, g'⟩ liveLTPData token := by
  simp only [evaluateToken, tokenTryBody, h]

/-- A token whose bar fetch throws gets no alert check: it is skipped, either for
lack of a live price or by the `catch` of the loop body. -/
theorem evaluateToken_of_fetch_error (period : ℕ) (threshold : ℚ) (api : DataAPI)
    (liveLTPData : List (String × ℚ)) (token : String) (e : String)
    (h : api.getCandleData token = Except.error e) :
    evaluateToken period threshold api liveLTPData token = TokenOutcome.noLivePrice ∨
    evaluateToken period threshold api liveLTPData token = TokenOutcome.caughtException := by
  unfold evaluateToken
  cases getEntry token liveLTPData with
  | none => exact Or.inl rfl
  | some ltp =>
    by_cases hz : ltp = 0
    · simp [hz]
    · simp [hz, tokenTryBody, h]

/-- The outcomes of a data cycle, token by token. -/
theorem outcomes_pollDataAndCheckStrategy (period : ℕ) (threshold : ℚ) (api : DataAPI)
    (tokenCache : JSMap CacheEntry) (token : String) (outcome : TokenOutcome)
    (h : (token, outcome) ∈ (pollDataAndCheckStrategy period threshold api tokenCache).outcomes) :
    ∃ response, api.marketData tokenCache.keys = Except.ok response ∧
      outcome = evaluateToken period threshold api (buildLiveLTPData response) token := by
  unfold pollDataAndCheckStrategy dataCycleStart at h
  by_cases hsize : tokenCache.size = 0
  · simp [hsize, CycleResult.outcomes] at h
  · simp only [hsize, if_false, dataCycleResume] at h
    cases hmd : api.marketData tokenCache.keys with
    | error e => simp [hmd, CycleResult.outcomes] at h
    | ok response =>
      simp only [hmd, CycleResult.outcomes, dataLoop_eq_map, List.mem_map] at h
      obtain ⟨kv, -, hkv⟩ := h
      refine ⟨response, rfl, ?_⟩
      injection hkv with h1 h2
      rw [← h2, h1]

/-- C24. Within one data cycle, for every cache and every pattern of per-token
bar-fetch outcomes: the loop handles each cached token on its own (its result is
the list of per-token outcomes); a token whose bar fetch throws is skipped, with
no alert check; and every token whose bar fetch answers the same in a second
pattern of outcomes gets, in the cycle with the first pattern, exactly the
outcome it gets in the cycle with the second, in particular in the one where no
fetch fails. The embedding is a total function: every call that can throw stands
in a `try` whose `catch` returns or goes on. -/
theorem bar_fetch_failure_is_local (period : ℕ) (threshold : ℚ)
    (marketData : List String → Except String MarketDataResponse)
    (g g' : String → Except String HistoryResponse) (tokenCache : JSMap CacheEntry) :
    (∀ liveLTPData, dataLoop period threshold ⟨marketData, g⟩ liveLTPData tokenCache.entries
      = tokenCache.entries.map
          (fun kv => (kv.1, evaluateToken period threshold ⟨marketData, g⟩ liveLTPData kv.1))) ∧
    (∀ token outcome e,
      (token, outcome) ∈
        (pollDataAndCheckStrategy period threshold ⟨marketData, g⟩ tokenCache).outcomes →
      g token = Except.error e →
      outcome = TokenOutcome.noLivePrice ∨ outcome = TokenOutcome.caughtException) ∧
    (∀ token outcome,
      (token, outcome) ∈
        (pollDataAndCheckStrategy period threshold ⟨marketData, g⟩ tokenCache).outcomes →
      g token = g' token →
      (token, outcome) ∈
        (pollDataAndCheckStrategy period threshold ⟨marketData, g'⟩ tokenCache).outcomes) ∧
    ((pollDataAndCheckStrategy period threshold ⟨marketData, g⟩ tokenCache).outcomes.map Prod.fst
      = (pollDataAndCheckStrategy period threshold ⟨marketData, g'⟩ tokenCache).outcomes.map
          Prod.fst) := by
  refine ⟨fun live => dataLoop_eq_map _ _ _ _ _, ?_, ?_, ?_⟩
  · intro token outcome e hmem herr
    obtain ⟨response, -, hout⟩ := outcomes_pollDataAndCheckStrategy _ _ _ _ _ _ hmem
    rw [hout]
    exact evaluateToken_of_fetch_error _ _ _ _ _ e herr
  · intro token outcome hmem hsame
    unfold pollDataAndCheckStrategy dataCycleStart at hmem ⊢
    by_cases hsize : tokenCache.size = 0
    · simp [hsize, CycleResult.outcomes] at hmem
    · simp only [hsize, if_false, dataCycleResume] at hmem ⊢
      cases hmd : marketData tokenCache.keys with
      | error e => simp [hmd, CycleResult.outcomes] at hmem
      | ok response =>
        simp only [hmd, CycleResult.outcomes, dataLoop_eq_map, List.mem_map] at hmem ⊢
        obtain ⟨kv, hkv, heq⟩ := hmem
        refine ⟨kv, hkv, ?_⟩
        injection heq with h1 h2
        rw [← h2, ← h1, evaluateToken_congr period threshold marketData g g' _ kv.1
          (by rw [h1]; exact hsame)]
  · unfold pollDataAndCheckStrategy dataCycleStart
    by_cases hsize : tokenCache.size = 0
    · simp [hsize, CycleResult.outcomes]
    · simp only [hsize, if_false, dataCycleResume]
      cases hmd : marketData tokenCache.keys with
      | error e => simp [CycleResult.outcomes]
      | ok response =>
        simp [CycleResult.outcomes, dataLoop_eq_map]

/-- The alert check on the bars `barFlat`, `barUp` with period 2 and ltp 100:
the move is 0 %, no alert. -/
theorem check_flat_up_no_alert :
    checkCandleStrengthAndAlert 2 (1 / 20) [barFlat, barUp] 100 = Except.ok none := by
  norm_num [checkCandleStrengthAndAlert, calculateEMA, calculateVWAP, vwapStep, emaStep,
    alertDecision, JSVal.truthy, barFlat, barUp, le_abs]

/-- The data cycle on `demoCache` when the bar fetch of token 4001 throws. -/
theorem outcomes_oneBarFailure :
    (pollDataAndCheckStrategy 2 (1 / 20)
        ⟨quoteAllAPI.marketData, oneBarFailureAPI.getCandleData⟩ demoCache).outcomes
      = [("1001", TokenOutcome.checked none), ("4001", TokenOutcome.caughtException)] := by
  have h1 : oneBarFailureAPI.getCandleData "1001" = Except.ok ⟨true, some [barFlat, barUp]⟩ := rfl
  have h2 : oneBarFailureAPI.getCandleData "4001" = Except.error "timeout" := rfl
  have hg1 : getEntry "1001" [("1001", (100 : ℚ)), ("4001", 100)] = some 100 := rfl
  have hg2 : getEntry "4001" [("1001", (100 : ℚ)), ("4001", 100)] = some 100 := rfl
  have hloop := dataLoop_eq_map 2 (1 / 20)
    ⟨quoteAllAPI.marketData, oneBarFailureAPI.getCandleData⟩ [("1001", 100), ("4001", 100)]
    demoCache.entries
  have he1 : evaluateToken 2 (1 / 20) ⟨quoteAllAPI.marketData, oneBarFailureAPI.getCandleData⟩
      [("1001", 100), ("4001", 100)] "1001" = TokenOutcome.checked none := by
    norm_num [evaluateToken, tokenTryBody, hg1, h1, check_flat_up_no_alert]
  have he2 : evaluateToken 2 (1 / 20) ⟨quoteAllAPI.marketData, oneBarFailureAPI.getCandleData⟩
      [("1001", 100), ("4001", 100)] "4001" = TokenOutcome.caughtException := by
    norm_num [evaluateToken, tokenTryBody, hg2, h2]
  have hrun : pollDataAndCheckStrategy 2 (1 / 20)
        ⟨quoteAllAPI.marketData, oneBarFailureAPI.getCandleData⟩ demoCache
      = CycleResult.completed ["1001", "4001"]
          (dataLoop 2 (1 / 20) ⟨quoteAllAPI.marketData, oneBarFailureAPI.getCandleData⟩
            [("1001", 100), ("4001", 100)] demoCache.entries) := rfl
  rw [hrun]
  simp only [CycleResult.outcomes]
  rw [hloop]
  simp only [demoCache, List.map_cons, List.map_nil, he1, he2]

/-- C24, evaluated on a cache of two tokens where the bar fetch of token 4001
throws: 4001 is skipped by the `catch`, and 1001 has in the cycle without failure
the outcome it has here. -/
theorem bar_fetch_failure_is_local_witness :
    (TokenOutcome.caughtException = TokenOutcome.noLivePrice ∨
      TokenOutcome.caughtException = TokenOutcome.caughtException) ∧
    ("1001", TokenOutcome.checked none) ∈
      (pollDataAndCheckStrategy 2 (1 / 20)
        ⟨quoteAllAPI.marketData, quoteAllAPI.getCandleData⟩ demoCache).outcomes :=
  ⟨(bar_fetch_failure_is_local 2 (1 / 20) quoteAllAPI.marketData oneBarFailureAPI.getCandleData
      quoteAllAPI.getCandleData demoCache).2.1 "4001" TokenOutcome.caughtException "timeout"
      (by rw [outcomes_oneBarFailure]; decide) rfl,
   (bar_fetch_failure_is_local 2 (1 / 20) quoteAllAPI.marketData oneBarFailureAPI.getCandleData
      quoteAllAPI.getCandleData demoCache).2.2.1 "1001" (TokenOutcome.checked none)
      (by rw [outcomes_oneBarFailure]; decide) rfl⟩

/-- Without an assignment to `tokenCache` between its two reads, a completed data
cycle requests and iterates the keys of one and the same cache. -/
theorem pollDataAndCheckStrategy_one_generation (period : ℕ) (threshold : ℚ) (api : DataAPI)
    (tokenCache : JSMap CacheEntry) (requested : List String)
    (outcomes : List (String × TokenOutcome))
    (h : pollDataAndCheckStrategy period threshold api tokenCache
      = CycleResult.completed requested outcomes) :
    requested = tokenCache.keys ∧ outcomes.map Prod.fst = tokenCache.keys := by
  unfold pollDataAndCheckStrategy dataCycleStart at h
  by_cases hsize : tokenCache.size = 0
  · simp [hsize] at h
  · simp only [hsize, if_false, dataCycleResume] at h
    cases hmd : api.marketData tokenCache.keys with
    | error e => simp [hmd] at h
    | ok response =>
      simp only [hmd, dataLoop_eq_map] at h
      injection h with h1 h2
      refine ⟨h1.symm, ?_⟩
      rw [← h2]
      simp [JSMap.keys]

/-- C25, at the schedule where a refresh reaches `tokenCache = newCache` while
the data cycle waits for `marketData`. The cache holds token 9999 when the cycle
starts; the refresh commits the tokens 1001, 4001, 5001; the cycle has requested
the live snapshot for 9999 and, resumed, iterates 1001, 4001, 5001, none of which
has a live price in the snapshot it asked for. -/
theorem data_cycle_mixes_cache_generations :
    staleCache.keys = ["9999"] ∧
    (pollTopGainersAndLosers 3 "FUT" (some demoAPI) staleCache).keys = ["1001", "4001", "5001"] ∧
    (World.run 3 "FUT" demoAPI 2 (1 / 20) quoteAllAPI ⟨staleCache, none, []⟩
        [SchedEvent.dataTick, SchedEvent.refreshCommit, SchedEvent.dataResume]).finished
      = [CycleResult.completed ["9999"]
          [("1001", TokenOutcome.noLivePrice), ("4001", TokenOutcome.noLivePrice),
           ("5001", TokenOutcome.noLivePrice)]] := by
  refine ⟨rfl, rfl, rfl⟩

/-! ## Claims on the indicators as weighted averages -/

/-- C26. For every period ≥ 1 and every bar list with at least `period` bars,
`calculateEMA` of the list is `calculateEMA` of its last `period` bars, and
prepending any bars to the list leaves the result unchanged. -/
theorem calculateEMA_trailing_window (bars older : List Candle) (period : ℕ) (hp : 1 ≤ period)
    (hlen : period ≤ bars.length) :
    calculateEMA bars period = calculateEMA (bars.drop (bars.length - period)) period ∧
    calculateEMA (older ++ bars) period = calculateEMA bars period := by
  have h0 : period ≠ 0 := by omega
  have hwin : (bars.drop (bars.length - period)).length = period := by
    rw [List.length_drop]
    omega
  constructor
  · have h1 : ¬ bars.length < period := not_lt.mpr hlen
    simp only [calculateEMA, h1, h0, if_false, hwin, Nat.sub_self, List.drop_zero, lt_irrefl]
  · have h1 : ¬ bars.length < period := not_lt.mpr hlen
    have h2 : ¬ (older ++ bars).length < period := by
      rw [List.length_append]
      omega
    have hdrop : (older ++ bars).drop ((older ++ bars).length - period)
        = bars.drop (bars.length - period) := by
      have hidx : (older ++ bars).length - period = older.length + (bars.length - period) := by
        rw [List.length_append]
        omega
      rw [hidx, List.drop_append]
    simp only [calculateEMA, h1, h2, h0, if_false, hdrop]

/-- C26, evaluated: the bar `barNoVolume` put before `barFlat`, `barUp` does not
change the period-2 EMA. -/
theorem calculateEMA_trailing_window_witness :
    calculateEMA [barFlat, barUp] 2
        = calculateEMA ([barFlat, barUp].drop ([barFlat, barUp].length - 2)) 2 ∧
    calculateEMA ([barNoVolume] ++ [barFlat, barUp]) 2 = calculateEMA [barFlat, barUp] 2 :=
  calculateEMA_trailing_window [barFlat, barUp] [barNoVolume] 2 (by norm_num) (by simp)

/-- The `reduce` of `calculateEMA` adds up the closes. -/
theorem foldl_add_close (l : List Candle) (a : ℚ) :
    l.foldl (fun sum candle => sum + candle.close) a = a + (l.map (fun c => c.close)).sum := by
  induction l generalizing a with
  | nil => simp
  | cons c cs ih => simp [List.foldl_cons, ih, add_assoc]

/-- A sum of closes that all lie in `[lo, hi]`. -/
theorem sum_close_bounds (l : List Candle) (lo hi : ℚ)
    (h : ∀ c ∈ l, lo ≤ c.close ∧ c.close ≤ hi) :
    lo * (l.length : ℚ) ≤ (l.map (fun c => c.close)).sum ∧
    (l.map (fun c => c.close)).sum ≤ hi * (l.length : ℚ) := by
  induction l with
  | nil => simp
  | cons c cs ih =>
    have hc := h c (List.mem_cons_self c cs)
    have hcs := ih (fun d hd => h d (List.mem_cons_of_mem c hd))
    simp only [List.map_cons, List.sum_cons, List.length_cons]
    push_cast
    constructor <;> nlinarith [hc.1, hc.2, hcs.1, hcs.2]

/-- One step of the recurrence stays in `[lo, hi]` when the multiplier is in
`[0, 1]`. -/
theorem emaStep_bounds (m ema lo hi : ℚ) (c : Candle) (hm0 : 0 ≤ m) (hm1 : m ≤ 1)
    (hema : lo ≤ ema ∧ ema ≤ hi) (hc : lo ≤ c.close ∧ c.close ≤ hi) :
    lo ≤ emaStep m ema c ∧ emaStep m ema c ≤ hi := by
  unfold emaStep
  constructor
  · have h1 : 0 ≤ m * (c.close - lo) := mul_nonneg hm0 (by linarith [hc.1])
    have h2 : 0 ≤ (1 - m) * (ema - lo) := mul_nonneg (by linarith) (by linarith [hema.1])
    nlinarith [h1, h2]
  · have h1 : 0 ≤ m * (hi - c.close) := mul_nonneg hm0 (by linarith [hc.2])
    have h2 : 0 ≤ (1 - m) * (hi - ema) := mul_nonneg (by linarith) (by linarith [hema.2])
    nlinarith [h1, h2]

/-- The loop of the recurrence stays in `[lo, hi]`. -/
theorem foldl_emaStep_bounds (m lo hi : ℚ) (hm0 : 0 ≤ m) (hm1 : m ≤ 1) (l : List Candle)
    (ema : ℚ) (hema : lo ≤ ema ∧ ema ≤ hi) (hl : ∀ c ∈ l, lo ≤ c.close ∧ c.close ≤ hi) :
    lo ≤ l.foldl (emaStep m) ema ∧ l.foldl (emaStep m) ema ≤ hi := by
  induction l generalizing ema with
  | nil => exact hema
  | cons c cs ih =>
    rw [List.foldl_cons]
    exact ih _ (emaStep_bounds m ema lo hi c hm0 hm1 hema (hl c (List.mem_cons_self c cs)))
      (fun d hd => hl d (List.mem_cons_of_mem c hd))

/-- A non-empty bar list has a bar of least close and a bar of greatest close. -/
theorem exists_min_max_close (l : List Candle) (hne : l ≠ []) :
    ∃ a ∈ l, ∃ b ∈ l, ∀ c ∈ l, a.close ≤ c.close ∧ c.close ≤ b.close := by
  induction l with
  | nil => exact absurd rfl hne
  | cons x xs ih =>
    by_cases hxs : xs = []
    · subst hxs
      exact ⟨x, List.mem_cons_self _ _, x, List.mem_cons_self _ _, by simp⟩
    · obtain ⟨a, ha, b, hb, hab⟩ := ih hxs
      have hmin : ∃ a' ∈ x :: xs, ∀ c ∈ x :: xs, a'.close ≤ c.close := by
        by_cases hxa : x.close ≤ a.close
        · refine ⟨x, List.mem_cons_self _ _, ?_⟩
          intro c hc
          rcases List.mem_cons.mp hc with rfl | hc
          · exact le_refl _
          · exact le_trans hxa (hab c hc).1
        · refine ⟨a, List.mem_cons_of_mem _ ha, ?_⟩
          intro c hc
          rcases List.mem_cons.mp hc with rfl | hc
          · exact le_of_lt (not_le.mp hxa)
          · exact (hab c hc).1
      have hmax : ∃ b' ∈ x :: xs, ∀ c ∈ x :: xs, c.close ≤ b'.close := by
        by_cases hxb : b.close ≤ x.close
        · refine ⟨x, List.mem_cons_self _ _, ?_⟩
          intro c hc
          rcases List.mem_cons.mp hc with rfl | hc
          · exact le_refl _
          · exact le_trans (hab c hc).2 hxb
        · refine ⟨b, List.mem_cons_of_mem _ hb, ?_⟩
          intro c hc
          rcases List.mem_cons.mp hc with rfl | hc
          · exact le_of_lt (not_le.mp hxb)
          · exact (hab c hc).2
      obtain ⟨a', ha', hmin'⟩ := hmin
      obtain ⟨b', hb', hmax'⟩ := hmax
      exact ⟨a', ha', b', hb', fun c hc => ⟨hmin' c hc, hmax' c hc⟩⟩

/-- The value of `calculateEMA` lies in every interval that holds the closes of
the trailing window. -/
theorem calculateEMA_bounds (bars : List Candle) (period : ℕ) (hp : 1 ≤ period)
    (hlen : period ≤ bars.length) :
    ∃ q, calculateEMA bars period = JSVal.num q ∧
      ∀ lo hi, (∀ c ∈ bars.drop (bars.length - period), lo ≤ c.close ∧ c.close ≤ hi) →
        lo ≤ q ∧ q ≤ hi := by
  have h0 : period ≠ 0 := by omega
  have h1 : ¬ bars.length < period := not_lt.mpr hlen
  have hwin : (bars.drop (bars.length - period)).length = period := by
    rw [List.length_drop]
    omega
  have htake : (bars.drop (bars.length - period)).take period = bars.drop (bars.length - period) :=
    List.take_of_length_le (le_of_eq hwin)
  have hpq : (0 : ℚ) < (period : ℚ) := by exact_mod_cast hp
  have hval : calculateEMA bars period
      = JSVal.num ((List.drop 1 (bars.drop (bars.length - period))).foldl
          (emaStep (2 / ((period : ℚ) + 1)))
          (((bars.drop (bars.length - period)).take period).foldl
            (fun sum candle => sum + candle.close) 0 / (period : ℚ))) := by
    simp only [calculateEMA, h1, h0, if_false]
  refine ⟨_, hval, ?_⟩
  intro lo hi hbound
  have hm0 : (0 : ℚ) ≤ 2 / ((period : ℚ) + 1) := by positivity
  have hm1 : (2 : ℚ) / ((period : ℚ) + 1) ≤ 1 := by
    rw [div_le_one (by linarith)]
    have : (1 : ℚ) ≤ (period : ℚ) := by exact_mod_cast hp
    linarith
  apply foldl_emaStep_bounds _ lo hi hm0 hm1
  · rw [htake, foldl_add_close, zero_add]
    have hs := sum_close_bounds _ lo hi hbound
    rw [hwin] at hs
    constructor
    · rw [le_div_iff₀ hpq]
      exact hs.1
    · rw [div_le_iff₀ hpq]
      exact hs.2
  · intro c hc
    exact hbound c (List.mem_of_mem_drop hc)

/-- C27. For every period ≥ 1 and every bar list with at least `period` bars
(closes as exact rationals), `calculateEMA` is a number that lies between the
least and the greatest close of the last `period` bars; if all those closes equal
`c0` the result is `c0`; and for period 1 the result is the last close. -/
theorem calculateEMA_between_min_max (bars : List Candle) (period : ℕ) (hp : 1 ≤ period)
    (hlen : period ≤ bars.length) :
    ∃ q, calculateEMA bars period = JSVal.num q ∧
      (∃ a ∈ bars.drop (bars.length - period), ∃ b ∈ bars.drop (bars.length - period),
        (∀ c ∈ bars.drop (bars.length - period), a.close ≤ c.close ∧ c.close ≤ b.close) ∧
        a.close ≤ q ∧ q ≤ b.close) ∧
      (∀ c0, (∀ c ∈ bars.drop (bars.length - period), c.close = c0) → q = c0) ∧
      (period = 1 → ∀ last, bars.getLast? = some last → q = last.close) := by
  obtain ⟨q, hq, hbound⟩ := calculateEMA_bounds bars period hp hlen
  have hwin : (bars.drop (bars.length - period)).length = period := by
    rw [List.length_drop]
    omega
  have hne : bars.drop (bars.length - period) ≠ [] := by
    intro h
    rw [h] at hwin
    simp at hwin
    omega
  have hall : ∀ c0, (∀ c ∈ bars.drop (bars.length - period), c.close = c0) → q = c0 := by
    intro c0 hc0
    have := hbound c0 c0 (fun c hc => by rw [hc0 c hc]; exact ⟨le_refl _, le_refl _⟩)
    exact le_antisymm this.2 this.1
  refine ⟨q, hq, ?_, hall, ?_⟩
  · obtain ⟨a, ha, b, hb, hab⟩ := exists_min_max_close _ hne
    have := hbound a.close b.close hab
    exact ⟨a, ha, b, hb, hab, this.1, this.2⟩
  · intro hone last hlast
    subst hone
    apply hall
    intro c hc
    have hbne : bars ≠ [] := by
      intro h
      rw [h] at hlast
      exact Option.noConfusion hlast
    have hdrop : bars.drop (bars.length - 1) = [bars.getLast hbne] := by
      calc bars.drop (bars.length - 1)
          = (bars.dropLast ++ [bars.getLast hbne]).drop (bars.length - 1) := by
            rw [List.dropLast_append_getLast hbne]
        _ = [bars.getLast hbne] := List.drop_left' (List.length_dropLast bars)
    rw [hdrop] at hc
    rw [List.getLast?_eq_getLast bars hbne] at hlast
    have hl : bars.getLast hbne = last := Option.some.inj hlast
    rw [List.mem_singleton] at hc
    rw [hc, hl]

/-- C27, evaluated on the closes 100, 103 with period 2: the EMA is a number
between 100 and 103. -/
theorem calculateEMA_between_min_max_witness :
    ∃ q, calculateEMA [barFlat, barUp] 2 = JSVal.num q ∧ (100 : ℚ) ≤ q ∧ q ≤ 103 := by
  obtain ⟨q, hq, ⟨a, ha, b, hb, -, haq, hqb⟩, -, -⟩ :=
    calculateEMA_between_min_max [barFlat, barUp] 2 (by norm_num) (by simp)
  have ha' : a = barFlat ∨ a = barUp := by simpa using ha
  have hb' : b = barFlat ∨ b = barUp := by simpa using hb
  refine ⟨q, hq, ?_, ?_⟩
  · rcases ha' with rfl | rfl
    · have : barFlat.close = 100 := rfl
      linarith
    · have : barUp.close = 103 := rfl
      linarith
  · rcases hb' with rfl | rfl
    · have : barFlat.close = 100 := rfl
      linarith
    · have : barUp.close = 103 := rfl
      linarith

/-- Sums over bars of positive volume whose typical prices lie in `[lo, hi]`. -/
theorem sum_tpv_bounds (l : List Candle) (lo hi : ℚ)
    (h : ∀ c ∈ l, 0 < c.volume ∧ lo ≤ typicalPrice c ∧ typicalPrice c ≤ hi) :
    lo * (((l.map (fun c => c.volume)).sum : ℤ) : ℚ)
        ≤ (l.map (fun c => typicalPrice c * (c.volume : ℚ))).sum ∧
    (l.map (fun c => typicalPrice c * (c.volume : ℚ))).sum
        ≤ hi * (((l.map (fun c => c.volume)).sum : ℤ) : ℚ) := by
  induction l with
  | nil => simp
  | cons c cs ih =>
    have hc := h c (List.mem_cons_self c cs)
    have hcs := ih (fun d hd => h d (List.mem_cons_of_mem c hd))
    have hv : (0 : ℚ) < (c.volume : ℚ) := by exact_mod_cast hc.1
    simp only [List.map_cons, List.sum_cons, Int.cast_add, mul_add]
    constructor
    · have := mul_le_mul_of_nonneg_right hc.2.1 hv.le
      linarith [hcs.1]
    · have := mul_le_mul_of_nonneg_right hc.2.2 hv.le
      linarith [hcs.2]

/-- The total volume of a non-empty list of bars of positive volume is positive. -/
theorem sum_volume_pos (l : List Candle) (hne : l ≠ []) (h : ∀ c ∈ l, 0 < c.volume) :
    0 < (l.map (fun c => c.volume)).sum := by
  induction l with
  | nil => exact absurd rfl hne
  | cons c cs ih =>
    simp only [List.map_cons, List.sum_cons]
    have hc := h c (List.mem_cons_self c cs)
    by_cases hcs : cs = []
    · subst hcs
      simpa using hc
    · have := ih hcs (fun d hd => h d (List.mem_cons_of_mem c hd))
      omega

/-- A non-empty bar list has a bar of least and a bar of greatest typical price. -/
theorem exists_min_max_typicalPrice (l : List Candle) (hne : l ≠ []) :
    ∃ a ∈ l, ∃ b ∈ l, ∀ c ∈ l, typicalPrice a ≤ typicalPrice c ∧ typicalPrice c ≤ typicalPrice b := by
  induction l with
  | nil => exact absurd rfl hne
  | cons x xs ih =>
    by_cases hxs : xs = []
    · subst hxs
      exact ⟨x, List.mem_cons_self _ _, x, List.mem_cons_self _ _, by simp⟩
    · obtain ⟨a, ha, b, hb, hab⟩ := ih hxs
      have hmin : ∃ a' ∈ x :: xs, ∀ c ∈ x :: xs, typicalPrice a' ≤ typicalPrice c := by
        by_cases hxa : typicalPrice x ≤ typicalPrice a
        · refine ⟨x, List.mem_cons_self _ _, ?_⟩
          intro c hc
          rcases List.mem_cons.mp hc with rfl | hc
          · exact le_refl _
          · exact le_trans hxa (hab c hc).1
        · refine ⟨a, List.mem_cons_of_mem _ ha, ?_⟩
          intro c hc
          rcases List.mem_cons.mp hc with rfl | hc
          · exact le_of_lt (not_le.mp hxa)
          · exact (hab c hc).1
      have hmax : ∃ b' ∈ x :: xs, ∀ c ∈ x :: xs, typicalPrice c ≤ typicalPrice b' := by
        by_cases hxb : typicalPrice b ≤ typicalPrice x
        · refine ⟨x, List.mem_cons_self _ _, ?_⟩
          intro c hc
          rcases List.mem_cons.mp hc with rfl | hc
          · exact le_refl _
          · exact le_trans (hab c hc).2 hxb
        · refine ⟨b, List.mem_cons_of_mem _ hb, ?_⟩
          intro c hc
          rcases List.mem_cons.mp hc with rfl | hc
          · exact le_of_lt (not_le.mp hxb)
          · exact (hab c hc).2
      obtain ⟨a', ha', hmin'⟩ := hmin
      obtain ⟨b', hb', hmax'⟩ := hmax
      exact ⟨a', ha', b', hb', fun c hc => ⟨hmin' c hc, hmax' c hc⟩⟩

/-- C28. For every bar list with at least one bar of positive volume (prices as
exact rationals), `calculateVWAP` is a number that lies between the least and the
greatest typical price of the positive-volume bars; and a bar of volume zero can
be inserted anywhere, or removed, without changing the result of any list. -/
theorem calculateVWAP_between_min_max (bars : List Candle) :
    ((∃ c ∈ bars, 0 < c.volume) →
      ∃ q, calculateVWAP bars = JSVal.num q ∧
        ∃ a ∈ bars.filter (fun c => decide (c.volume > 0)),
        ∃ b ∈ bars.filter (fun c => decide (c.volume > 0)),
          (∀ c ∈ bars.filter (fun c => decide (c.volume > 0)),
            typicalPrice a ≤ typicalPrice c ∧ typicalPrice c ≤ typicalPrice b) ∧
          typicalPrice a ≤ q ∧ q ≤ typicalPrice b) ∧
    (∀ l1 l2 z, bars = l1 ++ l2 → z.volume = 0 →
      calculateVWAP (l1 ++ z :: l2) = calculateVWAP bars) := by
  constructor
  · rintro ⟨c0, hc0, hv0⟩
    have hne : bars.filter (fun c => decide (c.volume > 0)) ≠ [] := by
      intro h
      have : c0 ∈ bars.filter (fun c => decide (c.volume > 0)) :=
        List.mem_filter.mpr ⟨hc0, by simpa using hv0⟩
      rw [h] at this
      exact List.not_mem_nil _ this
    have hposall : ∀ c ∈ bars.filter (fun c => decide (c.volume > 0)), 0 < c.volume := by
      intro c hc
      simpa using (List.mem_filter.mp hc).2
    have hsum := sum_volume_pos _ hne hposall
    have hsumq : (0 : ℚ) <
        ((((bars.filter (fun c => decide (c.volume > 0))).map (fun c => c.volume)).sum : ℤ) : ℚ) := by
      exact_mod_cast hsum
    obtain ⟨a, ha, b, hb, hab⟩ := exists_min_max_typicalPrice _ hne
    have hb2 := sum_tpv_bounds _ (typicalPrice a) (typicalPrice b)
      (fun c hc => ⟨hposall c hc, hab c hc⟩)
    have hval : calculateVWAP bars = JSVal.num
        (((bars.filter (fun c => decide (c.volume > 0))).map
            (fun c => typicalPrice c * (c.volume : ℚ))).sum /
          ((((bars.filter (fun c => decide (c.volume > 0))).map (fun c => c.volume)).sum : ℤ) : ℚ)) := by
      rw [calculateVWAP_eq_calculateVWAP_spec]
      simp only [calculateVWAP_spec, ne_of_gt hsum, if_false]
    refine ⟨_, hval, a, ha, b, hb, hab, ?_, ?_⟩
    · rw [le_div_iff₀ hsumq]
      exact hb2.1
    · rw [div_le_iff₀ hsumq]
      exact hb2.2
  · intro l1 l2 z hbars hz
    rw [hbars, calculateVWAP_eq_calculateVWAP_spec, calculateVWAP_eq_calculateVWAP_spec]
    have hf : (l1 ++ z :: l2).filter (fun c => decide (c.volume > 0))
        = (l1 ++ l2).filter (fun c => decide (c.volume > 0)) := by
      simp [List.filter_append, List.filter_cons, hz]
    simp only [calculateVWAP_spec, hf]

/-- C28, evaluated: with the bars `barSpike` (typical price 101) and `barUp`
(typical price 102), both of volume 10, the VWAP is a number between 101 and
102, and the zero-volume bar `barNoVolume` put between them does not change it. -/
theorem calculateVWAP_between_min_max_witness :
    (∃ q, calculateVWAP [barSpike, barUp] = JSVal.num q ∧ (101 : ℚ) ≤ q ∧ q ≤ 102) ∧
    calculateVWAP ([barSpike] ++ barNoVolume :: [barUp]) = calculateVWAP [barSpike, barUp] := by
  constructor
  · obtain ⟨q, hq, a, ha, b, hb, -, haq, hqb⟩ :=
      (calculateVWAP_between_min_max [barSpike, barUp]).1 ⟨barSpike, by simp, by decide⟩
    have ha' : a = barSpike ∨ a = barUp := by
      have := (List.mem_filter.mp ha).1
      simpa using this
    have hb' : b = barSpike ∨ b = barUp := by
      have := (List.mem_filter.mp hb).1
      simpa using this
    have h1 : typicalPrice barSpike = 101 := by norm_num [typicalPrice, barSpike]
    have h2 : typicalPrice barUp = 102 := by norm_num [typicalPrice, barUp]
    refine ⟨q, hq, ?_, ?_⟩
    · rcases ha' with rfl | rfl <;> linarith
    · rcases hb' with rfl | rfl <;> linarith
  · exact (calculateVWAP_between_min_max [barSpike, barUp]).2 [barSpike] [barUp] barNoVolume rfl rfl

/-! ## Claims on the dispatcher result and on the script variants -/

/-- C29. `sendTelegramMessage` never returns `false`. For every sequence of
collaborator outcomes its result is `true`, and then one of the first 3 attempts
succeeded; or a thrown error, and then the third attempt failed; or no value, and
then the destination is not configured. The `return false` after the loop is not
reached. -/
theorem sendTelegramMessage_never_false (token chat : Option String)
    (fetch : ℕ → FetchOutcome) :
    (sendTelegramMessage token chat fetch).1 ≠ Except.ok (SendValue.bool false) ∧
    (((sendTelegramMessage token chat fetch).1 = Except.ok (SendValue.bool true) ∧
        ∃ i, i < 3 ∧ fetch i = FetchOutcome.ok) ∨
      ((∃ e, (sendTelegramMessage token chat fetch).1 = Except.error e) ∧
        fetch 2 ≠ FetchOutcome.ok) ∨
      ((sendTelegramMessage token chat fetch).1 = Except.ok SendValue.undefined ∧
        (falsyString token = true ∨ falsyString chat = true))) := by
  by_cases hcfg : (falsyString token || falsyString chat) = true
  · have hres : (sendTelegramMessage token chat fetch).1 = Except.ok SendValue.undefined := by
      simp [sendTelegramMessage, hcfg]
    refine ⟨?_, Or.inr (Or.inr ⟨hres, by simpa using hcfg⟩)⟩
    rw [hres]
    intro h
    injection h with h
    exact SendValue.noConfusion h
  · have hrun : sendTelegramMessage token chat fetch = retryLoop 3 fetch 3 0 1000 := by
      simp only [sendTelegramMessage, hcfg]
      rfl
    rw [hrun]
    cases h0 : fetch 0 with
    | ok =>
      refine ⟨?_, Or.inl ⟨?_, 0, by norm_num, h0⟩⟩ <;> simp [retryLoop, h0]
    | notOk s0 =>
      cases h1 : fetch 1 with
      | ok =>
        refine ⟨?_, Or.inl ⟨?_, 1, by norm_num, h1⟩⟩ <;> simp [retryLoop, h0, h1]
      | notOk s1 =>
        cases h2 : fetch 2 with
        | ok => refine ⟨?_, Or.inl ⟨?_, 2, by norm_num, h2⟩⟩ <;> simp [retryLoop, h0, h1, h2]
        | notOk s2 =>
          refine ⟨?_, Or.inr (Or.inl ⟨⟨SendError.apiReturned s2, ?_⟩, by simp⟩)⟩ <;>
            simp [retryLoop, h0, h1, h2]
        | transportError =>
          refine ⟨?_, Or.inr (Or.inl ⟨⟨SendError.transport, ?_⟩, by simp⟩)⟩ <;>
            simp [retryLoop, h0, h1, h2]
      | transportError =>
        cases h2 : fetch 2 with
        | ok => refine ⟨?_, Or.inl ⟨?_, 2, by norm_num, h2⟩⟩ <;> simp [retryLoop, h0, h1, h2]
        | notOk s2 =>
          refine ⟨?_, Or.inr (Or.inl ⟨⟨SendError.apiReturned s2, ?_⟩, by simp⟩)⟩ <;>
            simp [retryLoop, h0, h1, h2]
        | transportError =>
          refine ⟨?_, Or.inr (Or.inl ⟨⟨SendError.transport, ?_⟩, by simp⟩)⟩ <;>
            simp [retryLoop, h0, h1, h2]
    | transportError =>
      cases h1 : fetch 1 with
      | ok =>
        refine ⟨?_, Or.inl ⟨?_, 1, by norm_num, h1⟩⟩ <;> simp [retryLoop, h0, h1]
      | notOk s1 =>
        cases h2 : fetch 2 with
        | ok => refine ⟨?_, Or.inl ⟨?_, 2, by norm_num, h2⟩⟩ <;> simp [retryLoop, h0, h1, h2]
        | notOk s2 =>
          refine ⟨?_, Or.inr (Or.inl ⟨⟨SendError.apiReturned s2, ?_⟩, by simp⟩)⟩ <;>
            simp [retryLoop, h0, h1, h2]
        | transportError =>
          refine ⟨?_, Or.inr (Or.inl ⟨⟨SendError.transport, ?_⟩, by simp⟩)⟩ <;>
            simp [retryLoop, h0, h1, h2]
      | transportError =>
        cases h2 : fetch 2 with
        | ok => refine ⟨?_, Or.inl ⟨?_, 2, by norm_num, h2⟩⟩ <;> simp [retryLoop, h0, h1, h2]
        | notOk s2 =>
          refine ⟨?_, Or.inr (Or.inl ⟨⟨SendError.apiReturned s2, ?_⟩, by simp⟩)⟩ <;>
            simp [retryLoop, h0, h1, h2]
        | transportError =>
          refine ⟨?_, Or.inr (Or.inl ⟨⟨SendError.transport, ?_⟩, by simp⟩)⟩ <;>
            simp [retryLoop, h0, h1, h2]

/-- C30. The three script variants compute the same: for every bar list, period,
threshold, ltp and symbol, `calculateEMA`, `calculateVWAP` and `getRootSymbol` of
`updatedCodev1.js` and of `updatedCodev2.js` equal those of `updatedCodev3.js`;
`checkCandleStrengthAndAlert` of `updatedCodev2.js` gives the alert (type and
reasons), or the absence of alert, that `updatedCodev3.js` gives for the same
period and threshold; and the one of `updatedCodev1.js`, whose period and
threshold are the constants 15 and 0.05, gives what `updatedCodev3.js` gives for
period 15 and threshold 0.05. -/
theorem script_variants_agree (data : List Candle) (period : ℕ) (threshold ltp : ℚ)
    (foSymbol : String) :
    calculateEMA_v1 data period = calculateEMA data period ∧
    calculateEMA_v2 data period = calculateEMA data period ∧
    calculateVWAP_v1 data = calculateVWAP data ∧
    calculateVWAP_v2 data = calculateVWAP data ∧
    getRootSymbol_v1 foSymbol = getRootSymbol foSymbol ∧
    getRootSymbol_v2 foSymbol = getRootSymbol foSymbol ∧
    checkCandleStrengthAndAlert_v2 period threshold data ltp
      = checkCandleStrengthAndAlert period threshold data ltp ∧
    checkCandleStrengthAndAlert_v1 data ltp
      = checkCandleStrengthAndAlert 15 (1 / 20) data ltp := by
  have hema1 : ∀ d p, calculateEMA_v1 d p = calculateEMA d p := fun d p => rfl
  have hema2 : ∀ d p, calculateEMA_v2 d p = calculateEMA d p := fun d p => rfl
  have hvwap1 : ∀ d, calculateVWAP_v1 d = calculateVWAP d := fun d => rfl
  have hvwap2 : ∀ d, calculateVWAP_v2 d = calculateVWAP d := fun d => rfl
  refine ⟨hema1 data period, hema2 data period, hvwap1 data, hvwap2 data, rfl, rfl, ?_, ?_⟩
  · unfold checkCandleStrengthAndAlert_v2 checkCandleStrengthAndAlert alertDecision
    simp only [hema2, hvwap2, apply_ite Except.ok]
  · unfold checkCandleStrengthAndAlert_v1 checkCandleStrengthAndAlert alertDecision
    simp only [hema1, hvwap1, EMA_VWAP_PERIOD_v1, CANDLE_THICKNESS_PERCENT_THRESHOLD_v1,
      apply_ite Except.ok]

end SmartApi
